import Mathlib

/-!
# gotspl: TSPL command encoders and the label sequencer

A shallow embedding of the Go package `gotspl` (download-data, bitmap, block,
put-bitmap and put-PCX command builders, and the label sequencer), followed by
theorems about what the encoders emit.

Modelling conventions.

* A Go `string` and a Go `[]byte` are both sequences of bytes; a nil slice is the
  empty sequence.
* A Go `int` is an `Int`; no arithmetic is performed on it, only decimal printing.
* The builders are structs of *pointers* with value receivers.  A setter writes
  through the pointer, so the pointed-to cells live in an explicit `Heap` that
  every setter threads through; a field of a builder is `none` (nil) or the
  address of its cell.
* A Go `([]byte, error)` result is a `Ret`; an `error` is represented by its
  message.  A run-time panic is `none` where one is possible.
* Package-level declarations that the translated files use but do not define
  (`EMPTY_SPACE`, `VALUE_SEPARATOR`, `DOUBLE_QUOTE`, `LINE_ENDING_BYTES`,
  `ROTATION_ANGLES`, `formatFloatWithUnits`) are parameters, collected in `Decls`.
-/

namespace Gotspl

/-! ## Bytes, strings, numbers -/

abbrev Byte := Fin 256

abbrev GoString := List Byte

/-- Bytes of an ASCII string literal of the source. -/
def str (s : String) : GoString :=
  s.toList.map (fun c => Fin.ofNat c.toNat)

/-- Decimal digits of a natural number, as ASCII bytes. -/
def natDigits (n : Nat) : GoString :=
  (Nat.toDigits 10 n).map (fun c => Fin.ofNat c.toNat)

/-- Go `strconv.Itoa` (also `fmt.Sprintf("%d", _)`): decimal text, a leading
minus sign only when negative. -/
def Itoa : Int → GoString
  | Int.ofNat n => natDigits n
  | Int.negSucc n => (45 : Byte) :: natDigits (n + 1)

/-- Values of a Go `float64`: the finite values by their exact rational value
(negative zero kept apart), the two infinities and NaN. -/
inductive Float64 where
  | finite (q : ℚ)
  | negZero
  | posInf
  | negInf
  | NaN

/-- Numeric value of a float that is neither infinite nor NaN. -/
def Float64.val : Float64 → ℚ
  | .finite q => q
  | _ => 0

/-- IEEE 754 `<=` on `float64`: false as soon as one side is NaN. -/
def Float64.le : Float64 → Float64 → Bool
  | .NaN, _ => false
  | _, .NaN => false
  | .negInf, _ => true
  | _, .posInf => true
  | .posInf, _ => false
  | _, .negInf => false
  | a, b => decide (a.val ≤ b.val)

/-- IEEE 754 `>=` on `float64`. -/
def Float64.ge (a b : Float64) : Bool := Float64.le b a

/-- Conversion of an untyped integer constant to `float64`. -/
def Float64.ofInt (i : Int) : Float64 := .finite i

/-! ## The heap of pointed-to cells -/

/-- Cells of one type: contents by address, and the next unused address. -/
structure Store (α : Type) where
  cell : Nat → α
  next : Nat

/-- Go `new(T)`: a fresh zeroed cell. -/
def Store.alloc {α : Type} (s : Store α) (zero : α) : Nat × Store α :=
  (s.next, ⟨Function.update s.cell s.next zero, s.next + 1⟩)

/-- Go `*p = v`. -/
def Store.write {α : Type} (s : Store α) (p : Nat) (v : α) : Store α :=
  ⟨Function.update s.cell p v, s.next⟩

/-- Go `*p`. -/
def Store.read {α : Type} (s : Store α) (p : Nat) : α := s.cell p

/-- Go `*p` on a pointer that may be nil: dereferencing nil panics (`none`). -/
def Store.deref {α : Type} (s : Store α) (p : Option Nat) : Option α :=
  p.map s.read

/-- The idiom every setter uses: `if p == nil { p = new(T) }; *p = v`.
Returns the (possibly new) pointer and the updated cells. -/
def Store.assign {α : Type} (s : Store α) (p : Option Nat) (zero v : α) : Nat × Store α :=
  match p with
  | none => ((s.alloc zero).1, (s.alloc zero).2.write (s.alloc zero).1 v)
  | some q => (q, s.write q v)

/-- The heap: one store for each pointed-to type of the builders. -/
structure Heap where
  ints : Store Int
  strings : Store GoString
  byteSlices : Store (List Byte)
  floats : Store Float64

/-- A heap with nothing allocated. -/
def Heap.empty : Heap :=
  ⟨⟨fun _ => 0, 0⟩, ⟨fun _ => [], 0⟩, ⟨fun _ => [], 0⟩, ⟨fun _ => .finite 0, 0⟩⟩

/-! ## Results and package-level declarations -/

/-- A Go `([]byte, error)`: the bytes (nil is `[]`) and the error (nil is `none`,
otherwise the message given to `errors.New`). -/
structure Ret where
  bytes : List Byte
  err : Option GoString
deriving DecidableEq

/-- Package-level declarations used by the encoders and defined outside the
translated files. -/
structure Decls where
  EMPTY_SPACE : GoString
  VALUE_SEPARATOR : GoString
  DOUBLE_QUOTE : GoString
  LINE_ENDING_BYTES : List Byte
  ROTATION_ANGLES : List Int
  formatFloatWithUnits : Float64 → Bool → List Byte

/-- Modelled from the spec: the wire constants are declared outside the translated
files; the spec fixes "a single-space token separator between command name and
parameters, a comma-equivalent token between parameters, a double-quote character
for quoted string fields, and a CR/LF terminator".  The angle table and the float
formatter are not described by the spec; the values here (quarter turns, integer
part in decimal) only serve concrete evaluation. -/
def wire : Decls where
  EMPTY_SPACE := str " "
  VALUE_SEPARATOR := str ","
  DOUBLE_QUOTE := [34]
  LINE_ENDING_BYTES := [13, 10]
  ROTATION_ANGLES := [0, 90, 180, 270]
  formatFloatWithUnits := fun f _ => Itoa (Int.floor f.val)

/-! ## DOWNLOAD (command_filemgmt_download_data.go) -/

def DOWNLOAD_DATANAME : GoString := str "DOWNLOAD"

abbrev DownloadDataStorage := GoString

def DOWNLOAD_DATASTORGAE_DRAM : DownloadDataStorage := str ""

def DOWNLOAD_DATASTORAGE_FLASH : DownloadDataStorage := str "F"

def DOWNLOAD_DATASTORAGE_EXPANSION_MODULE : DownloadDataStorage := str "E"

structure DownloadDataImpl where
  storage : Option Nat
  name : Option Nat
  data : Option Nat
deriving DecidableEq

def DownloadDataCmd : DownloadDataImpl := ⟨none, none, none⟩

def DownloadDataImpl.GetMessage (K : Decls) (h : Heap) (d : DownloadDataImpl) : Option Ret :=
  if (match d.name with
      | none => true
      | some pn => decide ((h.strings.read pn).length = 0))
      || d.data.isNone then
    some ⟨[], some (str "ParseError DOWNLOAD Command: name should be specified")⟩
  else do
    let buf := DOWNLOAD_DATANAME
    let buf := buf ++ K.EMPTY_SPACE
    let buf :=
      match d.storage with
      | some ps => (buf ++ h.strings.read ps) ++ K.VALUE_SEPARATOR
      | none => buf
    let buf := buf ++ K.DOUBLE_QUOTE
    let name ← h.strings.deref d.name
    let buf := buf ++ name
    let buf := buf ++ K.DOUBLE_QUOTE
    let buf := buf ++ K.VALUE_SEPARATOR
    let data ← h.byteSlices.deref d.data
    let buf := buf ++ Itoa data.length
    let buf := buf ++ K.VALUE_SEPARATOR
    let buf := buf ++ data
    let buf := buf ++ K.LINE_ENDING_BYTES
    pure ⟨buf, none⟩

def DownloadDataImpl.Storage (d : DownloadDataImpl) (storage : DownloadDataStorage) (h : Heap) :
    DownloadDataImpl × Heap :=
  let r := h.strings.assign d.storage [] storage
  ({ d with storage := some r.1 }, { h with strings := r.2 })

def DownloadDataImpl.Name (d : DownloadDataImpl) (name : GoString) (h : Heap) :
    DownloadDataImpl × Heap :=
  let r := h.strings.assign d.name [] name
  ({ d with name := some r.1 }, { h with strings := r.2 })

def DownloadDataImpl.Data (d : DownloadDataImpl) (data : List Byte) (h : Heap) :
    DownloadDataImpl × Heap :=
  let r := h.byteSlices.assign d.data [] data
  ({ d with data := some r.1 }, { h with byteSlices := r.2 })

/-! ## BITMAP (command_label_bitmap.go) -/

def BITMAP_NAME : GoString := str "BITMAP"

abbrev BitmapMode := Int

def BITMAP_MODE_OVERWRITE : BitmapMode := 0

def BITMAP_MODE_OR : BitmapMode := 1

def BITMAP_MODE_XOR : BitmapMode := 2

structure BitmapImpl where
  xCoordinate : Option Nat
  yCoordinate : Option Nat
  width : Option Nat
  height : Option Nat
  mode : Option Nat
  bitmapData : Option Nat
deriving DecidableEq

def Bitmap : BitmapImpl := ⟨none, none, none, none, none, none⟩

/-- The message shared by the presence checks of BITMAP and BLOCK, and, after the
command name, of PUTBMP and PUTPCX. -/
def requiredFieldsText : GoString :=
  str "xCoordinate, yCoordinate, width, height, fontName, rotation, xMultiplication, yMultiplication and content should be specified"

def BitmapImpl.GetMessage (K : Decls) (h : Heap) (t : BitmapImpl) : Option Ret :=
  if t.xCoordinate.isNone ||
      t.yCoordinate.isNone ||
      t.width.isNone ||
      t.height.isNone ||
      t.mode.isNone ||
      t.bitmapData.isNone then
    some ⟨[], some (str "ParseError BLOCK Command: " ++ requiredFieldsText)⟩
  else do
    let buf := BITMAP_NAME
    let buf := buf ++ K.EMPTY_SPACE
    let buf := buf ++ Itoa (← h.ints.deref t.xCoordinate)
    let buf := buf ++ K.VALUE_SEPARATOR
    let buf := buf ++ Itoa (← h.ints.deref t.yCoordinate)
    let buf := buf ++ K.VALUE_SEPARATOR
    let buf := buf ++ Itoa (← h.ints.deref t.width)
    let buf := buf ++ K.VALUE_SEPARATOR
    let buf := buf ++ Itoa (← h.ints.deref t.height)
    let buf := buf ++ K.VALUE_SEPARATOR
    let buf := buf ++ Itoa (← h.ints.deref t.mode)
    let buf := buf ++ K.VALUE_SEPARATOR
    let buf := buf ++ (← h.byteSlices.deref t.bitmapData)
    let buf := buf ++ K.LINE_ENDING_BYTES
    pure ⟨buf, none⟩

def BitmapImpl.XCoordinate (t : BitmapImpl) (x : Int) (h : Heap) : BitmapImpl × Heap :=
  let r := h.ints.assign t.xCoordinate 0 x
  ({ t with xCoordinate := some r.1 }, { h with ints := r.2 })

def BitmapImpl.YCoordinate (t : BitmapImpl) (y : Int) (h : Heap) : BitmapImpl × Heap :=
  let r := h.ints.assign t.yCoordinate 0 y
  ({ t with yCoordinate := some r.1 }, { h with ints := r.2 })

def BitmapImpl.Width (t : BitmapImpl) (bytes : Int) (h : Heap) : BitmapImpl × Heap :=
  let r := h.ints.assign t.width 0 bytes
  ({ t with width := some r.1 }, { h with ints := r.2 })

def BitmapImpl.Height (t : BitmapImpl) (dots : Int) (h : Heap) : BitmapImpl × Heap :=
  let r := h.ints.assign t.height 0 dots
  ({ t with height := some r.1 }, { h with ints := r.2 })

def BitmapImpl.Mode (t : BitmapImpl) (mode : BitmapMode) (h : Heap) : BitmapImpl × Heap :=
  let r := h.ints.assign t.mode 0 mode
  ({ t with mode := some r.1 }, { h with ints := r.2 })

def BitmapImpl.BitmapData (t : BitmapImpl) (bitmapdata : List Byte) (h : Heap) :
    BitmapImpl × Heap :=
  let r := h.byteSlices.assign t.bitmapData [] bitmapdata
  ({ t with bitmapData := some r.1 }, { h with byteSlices := r.2 })

/-! ## PUTBMP (command_label_putbmp.go) -/

def PUTBMP_NAME : GoString := str "PUTBMP"

abbrev PutbmpBpp := Int

def PUTBMP_BPP_1BIT : PutbmpBpp := 1

def PUTBMP_BPP_8BIT : PutbmpBpp := 8

structure PutbmpImpl where
  xCoordinate : Option Nat
  yCoordinate : Option Nat
  fileName : Option Nat
  bpp : Option Nat
  contrast : Option Nat
deriving DecidableEq

def Putbmp : PutbmpImpl := ⟨none, none, none, none, none⟩

def PutbmpImpl.GetMessage (K : Decls) (h : Heap) (t : PutbmpImpl) : Option Ret :=
  if t.xCoordinate.isNone ||
      t.yCoordinate.isNone ||
      (match t.fileName with
       | none => true
       | some pf => decide ((h.strings.read pf).length = 0)) then
    some ⟨[], some (str "ParseError PUTBMP Command: " ++ requiredFieldsText)⟩
  else do
    let buf := PUTBMP_NAME
    let buf := buf ++ K.EMPTY_SPACE
    let buf := buf ++ Itoa (← h.ints.deref t.xCoordinate)
    let buf := buf ++ K.VALUE_SEPARATOR
    let buf := buf ++ Itoa (← h.ints.deref t.yCoordinate)
    let buf := buf ++ K.VALUE_SEPARATOR
    let buf := buf ++ K.DOUBLE_QUOTE
    let buf := buf ++ (← h.strings.deref t.fileName)
    let buf := buf ++ K.DOUBLE_QUOTE
    let buf :=
      match t.bpp with
      | some p => (buf ++ K.VALUE_SEPARATOR) ++ Itoa (h.ints.read p)
      | none => buf
    let buf :=
      match t.contrast with
      | some p => (buf ++ K.VALUE_SEPARATOR) ++ Itoa (h.ints.read p)
      | none => buf
    let buf := buf ++ K.LINE_ENDING_BYTES
    pure ⟨buf, none⟩

def PutbmpImpl.XCoordinate (t : PutbmpImpl) (x : Int) (h : Heap) : PutbmpImpl × Heap :=
  let r := h.ints.assign t.xCoordinate 0 x
  ({ t with xCoordinate := some r.1 }, { h with ints := r.2 })

def PutbmpImpl.YCoordinate (t : PutbmpImpl) (y : Int) (h : Heap) : PutbmpImpl × Heap :=
  let r := h.ints.assign t.yCoordinate 0 y
  ({ t with yCoordinate := some r.1 }, { h with ints := r.2 })

def PutbmpImpl.FileName (t : PutbmpImpl) (filename : GoString) (h : Heap) : PutbmpImpl × Heap :=
  let r := h.strings.assign t.fileName [] filename
  ({ t with fileName := some r.1 }, { h with strings := r.2 })

def PutbmpImpl.Bpp (t : PutbmpImpl) (bpp : PutbmpBpp) (h : Heap) : PutbmpImpl × Heap :=
  let r := h.ints.assign t.bpp 0 bpp
  ({ t with bpp := some r.1 }, { h with ints := r.2 })

def PutbmpImpl.Contrast (t : PutbmpImpl) (contrast : Int) (h : Heap) : PutbmpImpl × Heap :=
  let r := h.ints.assign t.contrast 0 contrast
  ({ t with contrast := some r.1 }, { h with ints := r.2 })

/-! ## PUTPCX (command_label_putpcx.go) -/

def PUTPCX_NAME : GoString := str "PUTPCX"

structure PutpcxImpl where
  xCoordinate : Option Nat
  yCoordinate : Option Nat
  fileName : Option Nat
  bpp : Option Nat
  contrast : Option Nat
deriving DecidableEq

def Putpcx : PutpcxImpl := ⟨none, none, none, none, none⟩

def PutpcxImpl.GetMessage (K : Decls) (h : Heap) (t : PutpcxImpl) : Option Ret :=
  if t.xCoordinate.isNone ||
      t.yCoordinate.isNone ||
      (match t.fileName with
       | none => true
       | some pf => decide ((h.strings.read pf).length = 0)) then
    some ⟨[], some (str "ParseError PUTPCX Command: " ++ requiredFieldsText)⟩
  else do
    let buf := PUTPCX_NAME
    let buf := buf ++ K.EMPTY_SPACE
    let buf := buf ++ Itoa (← h.ints.deref t.xCoordinate)
    let buf := buf ++ K.VALUE_SEPARATOR
    let buf := buf ++ Itoa (← h.ints.deref t.yCoordinate)
    let buf := buf ++ K.VALUE_SEPARATOR
    let buf := buf ++ K.DOUBLE_QUOTE
    let buf := buf ++ (← h.strings.deref t.fileName)
    let buf := buf ++ K.DOUBLE_QUOTE
    let buf := buf ++ K.LINE_ENDING_BYTES
    pure ⟨buf, none⟩

def PutpcxImpl.XCoordinate (t : PutpcxImpl) (x : Int) (h : Heap) : PutpcxImpl × Heap :=
  let r := h.ints.assign t.xCoordinate 0 x
  ({ t with xCoordinate := some r.1 }, { h with ints := r.2 })

def PutpcxImpl.YCoordinate (t : PutpcxImpl) (y : Int) (h : Heap) : PutpcxImpl × Heap :=
  let r := h.ints.assign t.yCoordinate 0 y
  ({ t with yCoordinate := some r.1 }, { h with ints := r.2 })

def PutpcxImpl.FileName (t : PutpcxImpl) (filename : GoString) (h : Heap) : PutpcxImpl × Heap :=
  let r := h.strings.assign t.fileName [] filename
  ({ t with fileName := some r.1 }, { h with strings := r.2 })

/-! ## BLOCK (command_label_block.go) -/

def BLOCK_NAME : GoString := str "BLOCK"

def BLOCK_MULTIPLIER_MIN : Int := 1

def BLOCK_MULTIPLIER_MAX : Int := 10

abbrev BlockAlignment := Int

abbrev BlockFit := Int

def BLOCK_ALIGNMENT_DEFAULT : BlockAlignment := 0

def BLOCK_ALIGNMENT_LEFT : BlockAlignment := 1

def BLOCK_ALIGNMENT_CENTER : BlockAlignment := 2

def BLOCK_ALIGNMENT_RIGHT : BlockAlignment := 3

def BLOCK_FIT_NOSHRINK : BlockFit := 0

def BLOCK_FIT_SHRINK : BlockFit := 1

/-- Modelled from the spec: the helper `findIntInSlice` is defined outside the
translated files; the spec describes the check it serves as "rotation ∈ a fixed
allowed set of angles", so it is membership of the value in the slice. -/
def findIntInSlice (slice : List Int) (v : Int) : Bool :=
  decide (v ∈ slice)

/-- Go `s[:hi]` on a string: panics (`none`) unless `0 <= hi <= len(s)`. -/
def sliceTo (s : GoString) (hi : Int) : Option GoString :=
  if 0 ≤ hi ∧ hi ≤ (s.length : Int) then some (s.take hi.toNat) else none

structure BlockImpl where
  xCoordinate : Option Nat
  yCoordinate : Option Nat
  width : Option Nat
  height : Option Nat
  fontName : Option Nat
  rotation : Option Nat
  xMultiplication : Option Nat
  yMultiplication : Option Nat
  space : Option Nat
  alignment : Option Nat
  fit : Option Nat
  content : Option Nat
  contentQuote : Bool
deriving DecidableEq

def Block : BlockImpl :=
  ⟨none, none, none, none, none, none, none, none, none, none, none, none, false⟩

/-- The range test `v >= BLOCK_MULTIPLIER_MIN && v <= BLOCK_MULTIPLIER_MAX`. -/
def multiplierInRange (v : Float64) : Bool :=
  v.ge (Float64.ofInt BLOCK_MULTIPLIER_MIN) && v.le (Float64.ofInt BLOCK_MULTIPLIER_MAX)

/-- The string accumulated by the loop over `ROTATION_ANGLES`: each angle in
decimal followed by a comma. -/
def rotationErrStr (angles : List Int) : GoString :=
  angles.foldl (fun err_str v => (err_str ++ Itoa v) ++ str ",") []

def BlockImpl.GetMessage (K : Decls) (h : Heap) (t : BlockImpl) : Option Ret :=
  if t.xCoordinate.isNone ||
      t.yCoordinate.isNone ||
      t.width.isNone ||
      t.height.isNone ||
      t.fontName.isNone ||
      t.rotation.isNone ||
      t.content.isNone ||
      t.xMultiplication.isNone ||
      t.yMultiplication.isNone then
    some ⟨[], some (str "ParseError BLOCK Command: " ++ requiredFieldsText)⟩
  else if (match t.rotation with
      | some pr => !findIntInSlice K.ROTATION_ANGLES (h.ints.read pr)
      | none => false) then do
    let err_str := rotationErrStr K.ROTATION_ANGLES
    let cut ← sliceTo err_str ((err_str.length : Int) - 1)
    pure ⟨[], some (str "ParseError BLOCK Command: " ++
      (str "rotation must be one of [" ++ cut ++ str "]"))⟩
  else if (match t.xMultiplication with
      | some p => !multiplierInRange (h.floats.read p)
      | none => false) then
    some ⟨[], some (str "ParseError BLOCK Command: " ++
      (str "xMultiplication parameter must be between " ++ Itoa BLOCK_MULTIPLIER_MIN ++
        str " and " ++ Itoa BLOCK_MULTIPLIER_MAX))⟩
  else if (match t.yMultiplication with
      | some p => !multiplierInRange (h.floats.read p)
      | none => false) then
    some ⟨[], some (str "ParseError BLOCK Command: " ++
      (str "yMultiplication parameter must be between " ++ Itoa BLOCK_MULTIPLIER_MIN ++
        str " and " ++ Itoa BLOCK_MULTIPLIER_MAX))⟩
  else do
    let buf := BLOCK_NAME
    let buf := buf ++ K.EMPTY_SPACE
    let buf := buf ++ Itoa (← h.ints.deref t.xCoordinate)
    let buf := buf ++ K.VALUE_SEPARATOR
    let buf := buf ++ Itoa (← h.ints.deref t.yCoordinate)
    let buf := buf ++ K.VALUE_SEPARATOR
    let buf := buf ++ Itoa (← h.ints.deref t.width)
    let buf := buf ++ K.VALUE_SEPARATOR
    let buf := buf ++ Itoa (← h.ints.deref t.height)
    let buf := buf ++ (K.VALUE_SEPARATOR ++ K.DOUBLE_QUOTE)
    let buf := buf ++ (← h.strings.deref t.fontName)
    let buf := buf ++ (K.DOUBLE_QUOTE ++ K.VALUE_SEPARATOR)
    let buf := buf ++ Itoa (← h.ints.deref t.rotation)
    let buf := buf ++ K.VALUE_SEPARATOR
    let buf := buf ++ K.formatFloatWithUnits (← h.floats.deref t.xMultiplication) false
    let buf := buf ++ K.VALUE_SEPARATOR
    let buf := buf ++ K.formatFloatWithUnits (← h.floats.deref t.yMultiplication) false
    let buf :=
      match t.space with
      | some p => (buf ++ K.VALUE_SEPARATOR) ++ Itoa (h.ints.read p)
      | none => buf
    let buf :=
      match t.alignment with
      | some p => (buf ++ K.VALUE_SEPARATOR) ++ Itoa (h.ints.read p)
      | none => buf
    let buf :=
      match t.fit with
      | some p => (buf ++ K.VALUE_SEPARATOR) ++ Itoa (h.ints.read p)
      | none => buf
    let buf := buf ++ K.VALUE_SEPARATOR
    let buf := if t.contentQuote then buf ++ K.DOUBLE_QUOTE else buf
    let buf := buf ++ (← h.strings.deref t.content)
    let buf := if t.contentQuote then buf ++ K.DOUBLE_QUOTE else buf
    let buf := buf ++ K.LINE_ENDING_BYTES
    pure ⟨buf, none⟩

def BlockImpl.XCoordinate (t : BlockImpl) (x : Int) (h : Heap) : BlockImpl × Heap :=
  let r := h.ints.assign t.xCoordinate 0 x
  ({ t with xCoordinate := some r.1 }, { h with ints := r.2 })

def BlockImpl.YCoordinate (t : BlockImpl) (y : Int) (h : Heap) : BlockImpl × Heap :=
  let r := h.ints.assign t.yCoordinate 0 y
  ({ t with yCoordinate := some r.1 }, { h with ints := r.2 })

def BlockImpl.Width (t : BlockImpl) (dots : Int) (h : Heap) : BlockImpl × Heap :=
  let r := h.ints.assign t.width 0 dots
  ({ t with width := some r.1 }, { h with ints := r.2 })

def BlockImpl.Height (t : BlockImpl) (dots : Int) (h : Heap) : BlockImpl × Heap :=
  let r := h.ints.assign t.height 0 dots
  ({ t with height := some r.1 }, { h with ints := r.2 })

def BlockImpl.FontName (t : BlockImpl) (name : GoString) (h : Heap) : BlockImpl × Heap :=
  let r := h.strings.assign t.fontName [] name
  ({ t with fontName := some r.1 }, { h with strings := r.2 })

def BlockImpl.Rotation (t : BlockImpl) (angle : Int) (h : Heap) : BlockImpl × Heap :=
  let r := h.ints.assign t.rotation 0 angle
  ({ t with rotation := some r.1 }, { h with ints := r.2 })

def BlockImpl.XMultiplier (t : BlockImpl) (xm : Float64) (h : Heap) : BlockImpl × Heap :=
  let r := h.floats.assign t.xMultiplication (.finite 0) xm
  ({ t with xMultiplication := some r.1 }, { h with floats := r.2 })

def BlockImpl.YMultiplier (t : BlockImpl) (ym : Float64) (h : Heap) : BlockImpl × Heap :=
  let r := h.floats.assign t.yMultiplication (.finite 0) ym
  ({ t with yMultiplication := some r.1 }, { h with floats := r.2 })

def BlockImpl.Space (t : BlockImpl) (dots : Int) (h : Heap) : BlockImpl × Heap :=
  let r := h.ints.assign t.space 0 dots
  ({ t with space := some r.1 }, { h with ints := r.2 })

def BlockImpl.Alignment (t : BlockImpl) (align : BlockAlignment) (h : Heap) : BlockImpl × Heap :=
  let r := h.ints.assign t.alignment 0 align
  ({ t with alignment := some r.1 }, { h with ints := r.2 })

def BlockImpl.Fit (t : BlockImpl) (dots : BlockFit) (h : Heap) : BlockImpl × Heap :=
  let r := h.ints.assign t.fit 0 dots
  ({ t with fit := some r.1 }, { h with ints := r.2 })

def BlockImpl.Content (t : BlockImpl) (content : GoString) (quote : Bool) (h : Heap) :
    BlockImpl × Heap :=
  let r := h.strings.assign t.content [] content
  ({ t with content := some r.1, contentQuote := quote }, { h with strings := r.2 })

/-! ## The label sequencer (tspl_label.go) -/

/-- The interface `TSPLCommand`: a value that can render itself.  Rendering reads
the heap; `none` is a panic. -/
structure TSPLCommand where
  GetMessage : Heap → Option Ret

def DownloadDataImpl.toTSPLCommand (K : Decls) (d : DownloadDataImpl) : TSPLCommand :=
  ⟨fun h => d.GetMessage K h⟩

def BitmapImpl.toTSPLCommand (K : Decls) (t : BitmapImpl) : TSPLCommand :=
  ⟨fun h => t.GetMessage K h⟩

def BlockImpl.toTSPLCommand (K : Decls) (t : BlockImpl) : TSPLCommand :=
  ⟨fun h => t.GetMessage K h⟩

def PutbmpImpl.toTSPLCommand (K : Decls) (t : PutbmpImpl) : TSPLCommand :=
  ⟨fun h => t.GetMessage K h⟩

def PutpcxImpl.toTSPLCommand (K : Decls) (t : PutpcxImpl) : TSPLCommand :=
  ⟨fun h => t.GetMessage K h⟩

/-- A Go slice header over `TSPLCommand`: backing array, length, capacity.  The
nil slice is the zero header. -/
structure Slice where
  ptr : Nat
  len : Nat
  cap : Nat
deriving DecidableEq

/-- Backing arrays of command slices: element by array and index (a nil interface
is `none`), and the next unused array. -/
structure Arrays where
  elem : Nat → Nat → Option TSPLCommand
  next : Nat

def Arrays.empty : Arrays := ⟨fun _ _ => none, 0⟩

/-- The elements a slice shows, in order. -/
def Arrays.view (A : Arrays) (s : Slice) : List (Option TSPLCommand) :=
  (List.range s.len).map (A.elem s.ptr)

/-- Go `append(s, x)`: writes in place when the capacity allows, otherwise copies
into a fresh array.  `grow` is the runtime's choice of the new capacity from the
old one; the runtime guarantees room for the new length. -/
def Arrays.append (grow : Nat → Nat) (A : Arrays) (s : Slice) (x : TSPLCommand) :
    Slice × Arrays :=
  if s.len + 1 ≤ s.cap then
    (⟨s.ptr, s.len + 1, s.cap⟩,
      ⟨Function.update A.elem s.ptr (Function.update (A.elem s.ptr) s.len (some x)), A.next⟩)
  else
    (⟨A.next, s.len + 1, max (grow s.cap) (s.len + 1)⟩,
      ⟨Function.update A.elem A.next
          (fun i => if i < s.len then A.elem s.ptr i else if i = s.len then some x else none),
        A.next + 1⟩)

structure TSPLLabel where
  commandList : Slice
deriving DecidableEq

def NewTSPLLabel : TSPLLabel := ⟨⟨0, 0, 0⟩⟩

/-- The body of the `range` loop of `getTSPLCode` over the remaining commands,
`buf` being the buffer written so far. -/
def getTSPLCode.loop (h : Heap) : List (Option TSPLCommand) → List Byte → Option Ret
  | [], buf => some ⟨buf, none⟩
  | none :: _, _ => none
  | some c :: rest, buf =>
    match c.GetMessage h with
    | none => none
    | some r =>
      match r.err with
      | some err => some ⟨[], some err⟩
      | none => getTSPLCode.loop h rest (buf ++ r.bytes)

def TSPLLabel.getTSPLCode (A : Arrays) (h : Heap) (T : TSPLLabel) : Option Ret :=
  getTSPLCode.loop h (A.view T.commandList) []

def TSPLLabel.Cmd (grow : Nat → Nat) (T : TSPLLabel) (command : Option TSPLCommand)
    (A : Arrays) : TSPLLabel × Arrays :=
  match command with
  | some c => (⟨(A.append grow T.commandList c).1⟩, (A.append grow T.commandList c).2)
  | none => (T, A)

def TSPLLabel.GetLabelData (A : Arrays) (h : Heap) (T : TSPLLabel) : Option Ret :=
  T.getTSPLCode A h

/-- The chain `L.Cmd(c1)...Cmd(cn)`. -/
def TSPLLabel.Cmds (grow : Nat → Nat) (T : TSPLLabel) (A : Arrays) :
    List (Option TSPLCommand) → TSPLLabel × Arrays
  | [] => (T, A)
  | c :: rest => TSPLLabel.Cmds grow (T.Cmd grow c A).1 (T.Cmd grow c A).2 rest

/-! ## Builder chains used in the statements -/

/-- The chain `Bitmap().XCoordinate(x).YCoordinate(y).Width(width).Height(height).Mode(mode).BitmapData(data)`. -/
def bitmapChain (x y width height : Int) (mode : BitmapMode) (data : List Byte) (h : Heap) :
    BitmapImpl × Heap :=
  let s1 := Bitmap.XCoordinate x h
  let s2 := s1.1.YCoordinate y s1.2
  let s3 := s2.1.Width width s2.2
  let s4 := s3.1.Height height s3.2
  let s5 := s4.1.Mode mode s4.2
  s5.1.BitmapData data s5.2

/-- The chain `DownloadDataCmd().Name(name).Data(data)`. -/
def downloadChain (name : GoString) (data : List Byte) (h : Heap) : DownloadDataImpl × Heap :=
  let s1 := DownloadDataCmd.Name name h
  s1.1.Data data s1.2

/-- A heap holding one configured Bitmap and one configured Download-data
command, for concrete evaluation. -/
def sampleHeap : Heap :=
  (downloadChain (str "IMAGE1") [1, 2, 3]
    (bitmapChain 0 0 100 50 BITMAP_MODE_OVERWRITE [0xFF] Heap.empty).2).2

/-- The configured Bitmap command of `sampleHeap`. -/
def sampleBitmap : BitmapImpl :=
  (bitmapChain 0 0 100 50 BITMAP_MODE_OVERWRITE [0xFF] Heap.empty).1

/-- The configured Download-data command of `sampleHeap`. -/
def sampleDownload : DownloadDataImpl :=
  (downloadChain (str "IMAGE1") [1, 2, 3]
    (bitmapChain 0 0 100 50 BITMAP_MODE_OVERWRITE [0xFF] Heap.empty).2).1

/-- Capacity doubling, the growth of small slices, for concrete evaluation. -/
def growDouble (cap : Nat) : Nat := 2 * cap

/-- The chain `Bitmap().XCoordinate(0).YCoordinate(0).Width(100).Height(50).BitmapData([0xFF])`:
every required field but the mode. -/
def bitmapNoMode (h : Heap) : BitmapImpl × Heap :=
  let s1 := Bitmap.XCoordinate 0 h
  let s2 := s1.1.YCoordinate 0 s1.2
  let s3 := s2.1.Width 100 s2.2
  let s4 := s3.1.Height 50 s3.2
  s4.1.BitmapData [0xFF] s4.2

/-- The chain `Bitmap().XCoordinate(0).YCoordinate(0).Width(100).Height(50).Mode(BITMAP_MODE_OVERWRITE)`:
every required field but the payload. -/
def bitmapNoData (h : Heap) : BitmapImpl × Heap :=
  let s1 := Bitmap.XCoordinate 0 h
  let s2 := s1.1.YCoordinate 0 s1.2
  let s3 := s2.1.Width 100 s2.2
  let s4 := s3.1.Height 50 s3.2
  s4.1.Mode BITMAP_MODE_OVERWRITE s4.2

/-- The chain `Putbmp().XCoordinate(0).YCoordinate(0)`: every required field but
the file name. -/
def putbmpNoFileName (h : Heap) : PutbmpImpl × Heap :=
  let s1 := Putbmp.XCoordinate 0 h
  s1.1.YCoordinate 0 s1.2

/-- The chain `Putpcx().XCoordinate(0).YCoordinate(0)`: every required field but
the file name. -/
def putpcxNoFileName (h : Heap) : PutpcxImpl × Heap :=
  let s1 := Putpcx.XCoordinate 0 h
  s1.1.YCoordinate 0 s1.2

/-- The chain `Block().XCoordinate(x).YCoordinate(y).Width(width).Height(height).FontName(font).Rotation(rotation).XMultiplier(xm).YMultiplier(ym).Content(content, quote)`:
the nine required fields. -/
def blockChain (x y width height : Int) (font : GoString) (rotation : Int) (xm ym : Float64)
    (content : GoString) (quote : Bool) (h : Heap) : BlockImpl × Heap :=
  let s1 := Block.XCoordinate x h
  let s2 := s1.1.YCoordinate y s1.2
  let s3 := s2.1.Width width s2.2
  let s4 := s3.1.Height height s3.2
  let s5 := s4.1.FontName font s4.2
  let s6 := s5.1.Rotation rotation s5.2
  let s7 := s6.1.XMultiplier xm s6.2
  let s8 := s7.1.YMultiplier ym s7.2
  s8.1.Content content quote s8.2

/-- The double nearest to the decimal literal `0.999`. -/
def float_0_999 : Float64 := .finite (8998192055486251 / 9007199254740992)

/-- The double nearest to the decimal literal `10.001`. -/
def float_10_001 : Float64 := .finite (5630062484166541 / 562949953421312)

/-- A configured Block: rotation 90, multipliers 1 and 10, quoted content. -/
def sampleBlock : BlockImpl × Heap :=
  blockChain 10 20 300 40 (str "3") 90 (.finite 1) (.finite 10) (str "Hello") true Heap.empty

/-- A configured Block whose rotation, 45, is not a quarter turn. -/
def sampleBlockTilted : BlockImpl × Heap :=
  blockChain 10 20 300 40 (str "3") 45 (.finite 1) (.finite 10) (str "Hello") true Heap.empty

/-- The call `b.GetMessage()` on a builder value in the heap it lives in. -/
def DownloadDataImpl.render (K : Decls) (s : DownloadDataImpl × Heap) : Option Ret :=
  s.1.GetMessage K s.2

/-- The call `b.GetMessage()` on a builder value in the heap it lives in. -/
def BitmapImpl.render (K : Decls) (s : BitmapImpl × Heap) : Option Ret :=
  s.1.GetMessage K s.2

/-- The call `b.GetMessage()` on a builder value in the heap it lives in. -/
def BlockImpl.render (K : Decls) (s : BlockImpl × Heap) : Option Ret :=
  s.1.GetMessage K s.2

/-- The call `b.GetMessage()` on a builder value in the heap it lives in. -/
def PutbmpImpl.render (K : Decls) (s : PutbmpImpl × Heap) : Option Ret :=
  s.1.GetMessage K s.2

/-- The call `b.GetMessage()` on a builder value in the heap it lives in. -/
def PutpcxImpl.render (K : Decls) (s : PutpcxImpl × Heap) : Option Ret :=
  s.1.GetMessage K s.2

/-- The chain `Putbmp().XCoordinate(x).YCoordinate(y).FileName(filename)`: the
three required fields. -/
def putbmpChain (x y : Int) (filename : GoString) (h : Heap) : PutbmpImpl × Heap :=
  let s1 := Putbmp.XCoordinate x h
  let s2 := s1.1.YCoordinate y s1.2
  s2.1.FileName filename s2.2

/-- The chain `Putpcx().XCoordinate(x).YCoordinate(y).FileName(filename)`. -/
def putpcxChain (x y : Int) (filename : GoString) (h : Heap) : PutpcxImpl × Heap :=
  let s1 := Putpcx.XCoordinate x h
  let s2 := s1.1.YCoordinate y s1.2
  s2.1.FileName filename s2.2

/-- The chain `DownloadDataCmd().Storage(storage).Name(name).Data(data)`. -/
def downloadStorageChain (storage : DownloadDataStorage) (name : GoString) (data : List Byte)
    (h : Heap) : DownloadDataImpl × Heap :=
  let s1 := DownloadDataCmd.Storage storage h
  let s2 := s1.1.Name name s1.2
  s2.1.Data data s2.2

/-- The nine required Block fields followed by `Space(n)` only. -/
def blockWithSpace (x y width height : Int) (font : GoString) (rotation : Int)
    (xm ym : Float64) (content : GoString) (quote : Bool) (n : Int) (h : Heap) :
    BlockImpl × Heap :=
  let s := blockChain x y width height font rotation xm ym content quote h
  s.1.Space n s.2

/-- The nine required Block fields followed by `Alignment(n)` only. -/
def blockWithAlignment (x y width height : Int) (font : GoString) (rotation : Int)
    (xm ym : Float64) (content : GoString) (quote : Bool) (n : BlockAlignment) (h : Heap) :
    BlockImpl × Heap :=
  let s := blockChain x y width height font rotation xm ym content quote h
  s.1.Alignment n s.2

/-- The three required Put-bitmap fields followed by `Bpp(n)` only. -/
def putbmpWithBpp (x y : Int) (filename : GoString) (n : PutbmpBpp) (h : Heap) :
    PutbmpImpl × Heap :=
  let s := putbmpChain x y filename h
  s.1.Bpp n s.2

/-- The three required Put-bitmap fields followed by `Contrast(n)` only. -/
def putbmpWithContrast (x y : Int) (filename : GoString) (n : Int) (h : Heap) :
    PutbmpImpl × Heap :=
  let s := putbmpChain x y filename h
  s.1.Contrast n s.2

/-- The three required Put-bitmap fields followed by `Bpp(b)` and `Contrast(c)`. -/
def putbmpWithBoth (x y : Int) (filename : GoString) (b : PutbmpBpp) (c : Int) (h : Heap) :
    PutbmpImpl × Heap :=
  let s := putbmpWithBpp x y filename b h
  s.1.Contrast c s.2

/-- A configured Block whose rotation, 45, is not a quarter turn and whose
multipliers, 0.999 and 10.001, are both out of range. -/
def sampleBlockAllInvalid : BlockImpl × Heap :=
  blockChain 10 20 300 40 (str "3") 45 float_0_999 float_10_001 (str "Hello") true Heap.empty

/-- A configured Block with an allowed rotation and both multipliers out of
range. -/
def sampleBlockBadMultipliers : BlockImpl × Heap :=
  blockChain 10 20 300 40 (str "3") 90 float_0_999 float_10_001 (str "Hello") true Heap.empty

/-- A slice header is backed by an allocated array of at least its length, or has
no capacity at all (as the nil slice has). -/
def Arrays.valid (A : Arrays) (s : Slice) : Prop :=
  s.len ≤ s.cap ∧ (s.cap = 0 ∨ s.ptr < A.next)

/-- The two steps `L1 = L.Cmd(a)` then `L2 = L.Cmd(b)` on the same label `L`:
returns `L1`, `L2` and the backing arrays after both calls. -/
def cmdFork (grow : Nat → Nat) (T : TSPLLabel) (a b : TSPLCommand) (A : Arrays) :
    TSPLLabel × TSPLLabel × Arrays :=
  let s1 := T.Cmd grow (some a) A
  let s2 := T.Cmd grow (some b) s1.2
  (s1.1, s2.1, s2.2)

/-- The label `NewTSPLLabel().Cmd(c).Cmd(c).Cmd(c)` with `c` the sample Bitmap:
length 3 in an array of capacity 4. -/
def sampleLabel3 : TSPLLabel × Arrays :=
  NewTSPLLabel.Cmds growDouble Arrays.empty
    ([sampleBitmap.toTSPLCommand wire, sampleBitmap.toTSPLCommand wire,
      sampleBitmap.toTSPLCommand wire].map some)

/-- The label `NewTSPLLabel().Cmd(c).Cmd(c)` with `c` the sample Bitmap: length 2
in an array of capacity 2. -/
def sampleLabel2 : TSPLLabel × Arrays :=
  NewTSPLLabel.Cmds growDouble Arrays.empty
    ([sampleBitmap.toTSPLCommand wire, sampleBitmap.toTSPLCommand wire].map some)

/-- A pointer is nil or the address of a cell that has been allocated. -/
def Store.allocated {α : Type} (s : Store α) (p : Option Nat) : Prop :=
  match p with
  | none => True
  | some q => q < s.next

instance Store.decidableAllocated {α : Type} (s : Store α) (p : Option Nat) :
    Decidable (s.allocated p) :=
  match p with
  | none => isTrue trivial
  | some q => inferInstanceAs (Decidable (q < s.next))

/-- Every pointer of the builder is nil or allocated in the heap. -/
def DownloadDataImpl.allocated (d : DownloadDataImpl) (h : Heap) : Prop :=
  h.strings.allocated d.storage ∧ h.strings.allocated d.name ∧ h.byteSlices.allocated d.data

instance DownloadDataImpl.decidableAllocated (d : DownloadDataImpl) (h : Heap) :
    Decidable (d.allocated h) := by
  unfold DownloadDataImpl.allocated; infer_instance

/-- Every pointer of the builder is nil or allocated in the heap. -/
def BitmapImpl.allocated (t : BitmapImpl) (h : Heap) : Prop :=
  h.ints.allocated t.xCoordinate ∧ h.ints.allocated t.yCoordinate ∧ h.ints.allocated t.width
    ∧ h.ints.allocated t.height ∧ h.ints.allocated t.mode
    ∧ h.byteSlices.allocated t.bitmapData

instance BitmapImpl.decidableAllocated (t : BitmapImpl) (h : Heap) :
    Decidable (t.allocated h) := by
  unfold BitmapImpl.allocated; infer_instance

/-- Every pointer of the builder is nil or allocated in the heap. -/
def PutbmpImpl.allocated (t : PutbmpImpl) (h : Heap) : Prop :=
  h.ints.allocated t.xCoordinate ∧ h.ints.allocated t.yCoordinate
    ∧ h.strings.allocated t.fileName ∧ h.ints.allocated t.bpp ∧ h.ints.allocated t.contrast

instance PutbmpImpl.decidableAllocated (t : PutbmpImpl) (h : Heap) :
    Decidable (t.allocated h) := by
  unfold PutbmpImpl.allocated; infer_instance

/-- Every pointer of the builder is nil or allocated in the heap. -/
def PutpcxImpl.allocated (t : PutpcxImpl) (h : Heap) : Prop :=
  h.ints.allocated t.xCoordinate ∧ h.ints.allocated t.yCoordinate
    ∧ h.strings.allocated t.fileName ∧ h.ints.allocated t.bpp ∧ h.ints.allocated t.contrast

instance PutpcxImpl.decidableAllocated (t : PutpcxImpl) (h : Heap) :
    Decidable (t.allocated h) := by
  unfold PutpcxImpl.allocated; infer_instance

/-- Every pointer of the builder is nil or allocated in the heap. -/
def BlockImpl.allocated (t : BlockImpl) (h : Heap) : Prop :=
  h.ints.allocated t.xCoordinate ∧ h.ints.allocated t.yCoordinate ∧ h.ints.allocated t.width
    ∧ h.ints.allocated t.height ∧ h.strings.allocated t.fontName
    ∧ h.ints.allocated t.rotation ∧ h.floats.allocated t.xMultiplication
    ∧ h.floats.allocated t.yMultiplication ∧ h.ints.allocated t.space
    ∧ h.ints.allocated t.alignment ∧ h.ints.allocated t.fit ∧ h.strings.allocated t.content

instance BlockImpl.decidableAllocated (t : BlockImpl) (h : Heap) :
    Decidable (t.allocated h) := by
  unfold BlockImpl.allocated; infer_instance

/-- The heap `h1` holds every cell allocated in `h` with its value in `h`. -/
def Heap.keeps (h h1 : Heap) : Prop :=
  (∀ q, q < h.ints.next → h1.ints.read q = h.ints.read q)
    ∧ (∀ q, q < h.strings.next → h1.strings.read q = h.strings.read q)
    ∧ (∀ q, q < h.byteSlices.next → h1.byteSlices.read q = h.byteSlices.read q)
    ∧ (∀ q, q < h.floats.next → h1.floats.read q = h.floats.read q)

/-- The fully configured Bitmap `Bitmap().XCoordinate(1)...`, x = 1. -/
def sampleBitmapX1 : BitmapImpl × Heap :=
  bitmapChain 1 0 100 50 BITMAP_MODE_OVERWRITE [0xFF] Heap.empty

/-! ## Basic facts about stores -/

@[simp] theorem Store.read_write_same {α : Type} (s : Store α) (p : Nat) (v : α) :
    (s.write p v).read p = v := by
  simp [Store.read, Store.write]

theorem Store.read_write_other {α : Type} (s : Store α) (p q : Nat) (v : α) (hpq : q ≠ p) :
    (s.write p v).read q = s.read q := by
  simp [Store.read, Store.write, Function.update_noteq hpq]

@[simp] theorem Store.read_assign {α : Type} (s : Store α) (p : Option Nat) (zero v : α) :
    (s.assign p zero v).2.read (s.assign p zero v).1 = v := by
  cases p <;> simp [Store.assign]

/-! ## Basic facts about slices and the sequencer loop -/

theorem Arrays.view_append (grow : Nat → Nat) (A : Arrays) (s : Slice) (x : TSPLCommand) :
    (A.append grow s x).2.view (A.append grow s x).1 = A.view s ++ [some x] := by
  unfold Arrays.append
  by_cases hc : s.len + 1 ≤ s.cap
  · simp only [hc, if_true, Arrays.view, List.range_succ, List.map_append, List.map_cons,
      List.map_nil, Function.update_same]
    congr 1
    apply List.map_congr_left
    intro i hi
    have hne : i ≠ s.len := Nat.ne_of_lt (List.mem_range.mp hi)
    simp [Function.update_noteq hne]
  · simp only [hc, if_false, Arrays.view, List.range_succ, List.map_append, List.map_cons,
      List.map_nil, Function.update_same]
    congr 1
    · apply List.map_congr_left
      intro i hi
      simp [List.mem_range.mp hi]
    · simp

theorem TSPLLabel.view_Cmds (grow : Nat → Nat) (cs : List TSPLCommand) :
    ∀ (T : TSPLLabel) (A : Arrays),
      (T.Cmds grow A (cs.map some)).2.view (T.Cmds grow A (cs.map some)).1.commandList
        = A.view T.commandList ++ cs.map some := by
  induction cs with
  | nil => intro T A; simp [TSPLLabel.Cmds]
  | cons c rest ih =>
    intro T A
    simp only [List.map_cons, TSPLLabel.Cmds]
    rw [ih]
    simp [TSPLLabel.Cmd, Arrays.view_append]

theorem getTSPLCode.loop_ok (h : Heap) (cs : List TSPLCommand) (bs : List (List Byte))
    (hok : List.Forall₂ (fun c b => c.GetMessage h = some ⟨b, none⟩) cs bs) :
    ∀ (rest : List (Option TSPLCommand)) (buf : List Byte),
      getTSPLCode.loop h (cs.map some ++ rest) buf
        = getTSPLCode.loop h rest (buf ++ bs.flatten) := by
  induction hok with
  | nil => intro rest buf; simp
  | @cons c b cs1 bs1 hcb _ ih =>
    intro rest buf
    have step : getTSPLCode.loop h (some c :: (List.map some cs1 ++ rest)) buf
        = getTSPLCode.loop h (List.map some cs1 ++ rest) (buf ++ b) := by
      simp only [getTSPLCode.loop, hcb]
    rw [List.map_cons, List.cons_append, step, ih, List.flatten_cons, List.append_assoc]

/-! ## Basic facts about the BLOCK checks -/

theorem multiplierInRange_iff (v : Float64) :
    multiplierInRange v = true ↔ ∃ q : ℚ, v = Float64.finite q ∧ 1 ≤ q ∧ q ≤ 10 := by
  cases v <;>
    simp [multiplierInRange, Float64.ge, Float64.le, Float64.ofInt, Float64.val,
      BLOCK_MULTIPLIER_MIN, BLOCK_MULTIPLIER_MAX]

theorem findIntInSlice_iff (slice : List Int) (v : Int) :
    findIntInSlice slice v = true ↔ v ∈ slice := by
  simp [findIntInSlice]

set_option maxRecDepth 20000 in
theorem xMultiplication_message :
    str "ParseError BLOCK Command: " ++
      (str "xMultiplication parameter must be between " ++ Itoa BLOCK_MULTIPLIER_MIN
        ++ str " and " ++ Itoa BLOCK_MULTIPLIER_MAX)
      = str "ParseError BLOCK Command: xMultiplication parameter must be between 1 and 10" := by
  decide

set_option maxRecDepth 20000 in
theorem yMultiplication_message :
    str "ParseError BLOCK Command: " ++
      (str "yMultiplication parameter must be between " ++ Itoa BLOCK_MULTIPLIER_MIN
        ++ str " and " ++ Itoa BLOCK_MULTIPLIER_MAX)
      = str "ParseError BLOCK Command: yMultiplication parameter must be between 1 and 10" := by
  decide

/-- With the nine required pointers set, `GetMessage` is the ladder of the three
range checks followed by the serialisation. -/
theorem block_GetMessage_of_required (K : Decls) (h : Heap) (t : BlockImpl)
    (px py pw ph pf pr pxm pym pc : Nat)
    (hx : t.xCoordinate = some px) (hy : t.yCoordinate = some py) (hw : t.width = some pw)
    (hh : t.height = some ph) (hf : t.fontName = some pf) (hr : t.rotation = some pr)
    (hxm : t.xMultiplication = some pxm) (hym : t.yMultiplication = some pym)
    (hc : t.content = some pc) :
    t.GetMessage K h =
      if findIntInSlice K.ROTATION_ANGLES (h.ints.read pr) = false then
        (sliceTo (rotationErrStr K.ROTATION_ANGLES)
          (((rotationErrStr K.ROTATION_ANGLES).length : Int) - 1)).map
          (fun cut => ⟨[], some (str "ParseError BLOCK Command: " ++
            (str "rotation must be one of [" ++ cut ++ str "]"))⟩)
      else if multiplierInRange (h.floats.read pxm) = false then
        some ⟨[], some (str "ParseError BLOCK Command: " ++
          (str "xMultiplication parameter must be between " ++ Itoa BLOCK_MULTIPLIER_MIN ++
            str " and " ++ Itoa BLOCK_MULTIPLIER_MAX))⟩
      else if multiplierInRange (h.floats.read pym) = false then
        some ⟨[], some (str "ParseError BLOCK Command: " ++
          (str "yMultiplication parameter must be between " ++ Itoa BLOCK_MULTIPLIER_MIN ++
            str " and " ++ Itoa BLOCK_MULTIPLIER_MAX))⟩
      else
        some ⟨BLOCK_NAME ++ K.EMPTY_SPACE ++ Itoa (h.ints.read px) ++ K.VALUE_SEPARATOR
          ++ Itoa (h.ints.read py) ++ K.VALUE_SEPARATOR ++ Itoa (h.ints.read pw)
          ++ K.VALUE_SEPARATOR ++ Itoa (h.ints.read ph)
          ++ (K.VALUE_SEPARATOR ++ K.DOUBLE_QUOTE) ++ h.strings.read pf
          ++ (K.DOUBLE_QUOTE ++ K.VALUE_SEPARATOR) ++ Itoa (h.ints.read pr)
          ++ K.VALUE_SEPARATOR ++ K.formatFloatWithUnits (h.floats.read pxm) false
          ++ K.VALUE_SEPARATOR ++ K.formatFloatWithUnits (h.floats.read pym) false
          ++ (match t.space with
              | some p => K.VALUE_SEPARATOR ++ Itoa (h.ints.read p)
              | none => [])
          ++ (match t.alignment with
              | some p => K.VALUE_SEPARATOR ++ Itoa (h.ints.read p)
              | none => [])
          ++ (match t.fit with
              | some p => K.VALUE_SEPARATOR ++ Itoa (h.ints.read p)
              | none => [])
          ++ K.VALUE_SEPARATOR
          ++ (if t.contentQuote then K.DOUBLE_QUOTE else [])
          ++ h.strings.read pc
          ++ (if t.contentQuote then K.DOUBLE_QUOTE else [])
          ++ K.LINE_ENDING_BYTES, none⟩ := by
  by_cases h1 : findIntInSlice K.ROTATION_ANGLES (h.ints.read pr) = false
  · simp [BlockImpl.GetMessage, hx, hy, hw, hh, hf, hr, hxm, hym, hc, h1, Option.map]
    cases sliceTo (rotationErrStr K.ROTATION_ANGLES)
      (((rotationErrStr K.ROTATION_ANGLES).length : Int) - 1) <;> rfl
  · by_cases h2 : multiplierInRange (h.floats.read pxm) = false
    · simp [BlockImpl.GetMessage, hx, hy, hw, hh, hf, hr, hxm, hym, hc, h1, h2]
    · by_cases h3 : multiplierInRange (h.floats.read pym) = false
      · simp [BlockImpl.GetMessage, hx, hy, hw, hh, hf, hr, hxm, hym, hc, h1, h2, h3]
      · simp only [Bool.not_eq_false] at h1 h2 h3
        cases hs : t.space <;> cases ha : t.alignment <;> cases hfit : t.fit <;>
          cases hq : t.contentQuote <;>
          simp [BlockImpl.GetMessage, hx, hy, hw, hh, hf, hr, hxm, hym, hc, h1, h2, h3, hs, ha,
            hfit, hq, Store.deref]

theorem rotationErrStr_foldl (angles : List Int) :
    ∀ acc : GoString,
      angles.foldl (fun err_str v => (err_str ++ Itoa v) ++ str ",") acc
        = acc ++ (angles.map (fun v => Itoa v ++ str ",")).flatten := by
  induction angles with
  | nil => intro acc; simp
  | cons a rest ih =>
    intro acc
    rw [List.foldl_cons, ih]
    simp [List.append_assoc]

theorem flatten_with_commas (a : Int) (rest : List Int) :
    ((a :: rest).map (fun v => Itoa v ++ str ",")).flatten
      = (str ",").intercalate ((a :: rest).map Itoa) ++ str "," := by
  induction rest generalizing a with
  | nil => simp [List.intercalate]
  | cons b rest ih =>
    have hb := ih b
    simp only [List.map_cons, List.flatten_cons] at hb ⊢
    rw [hb]
    simp [List.intercalate, List.append_assoc]

/-- The slice `err_str[:len(err_str)-1]` of the accumulated text: the angles joined
by commas when the table is not empty, a panic when it is. -/
theorem sliceTo_rotationErrStr (angles : List Int) :
    sliceTo (rotationErrStr angles) (((rotationErrStr angles).length : Int) - 1)
      = if angles = [] then none else some ((str ",").intercalate (angles.map Itoa)) := by
  cases angles with
  | nil => simp [rotationErrStr, sliceTo]
  | cons a rest =>
    have hlen : (str ",").length = 1 := by decide
    simp only [rotationErrStr, rotationErrStr_foldl, List.nil_append, flatten_with_commas,
      List.length_append, hlen, reduceCtorEq, if_false, sliceTo]
    have hcast : ((((str ",").intercalate ((a :: rest).map Itoa)).length + 1 : Nat) : Int) - 1
        = ((((str ",").intercalate ((a :: rest).map Itoa)).length : Nat) : Int) := by
      push_cast; ring
    rw [hcast]
    simp

/-- Assigning twice through the same field leaves the pointer and the cells that a
single assignment of the last value leaves. -/
theorem Store.assign_twice {α : Type} (s : Store α) (p : Option Nat) (zero v1 v2 : α) :
    (s.assign p zero v1).2.assign (some (s.assign p zero v1).1) zero v2
      = s.assign p zero v2 := by
  cases p <;> simp [Store.assign, Store.alloc, Store.write]

theorem bitmap_GetMessage_of_required (K : Decls) (h : Heap) (t : BitmapImpl)
    (px py pw ph pm pd : Nat)
    (hx : t.xCoordinate = some px) (hy : t.yCoordinate = some py) (hw : t.width = some pw)
    (hh : t.height = some ph) (hm : t.mode = some pm) (hd : t.bitmapData = some pd) :
    t.GetMessage K h
      = some ⟨BITMAP_NAME ++ K.EMPTY_SPACE ++ Itoa (h.ints.read px) ++ K.VALUE_SEPARATOR
          ++ Itoa (h.ints.read py) ++ K.VALUE_SEPARATOR ++ Itoa (h.ints.read pw)
          ++ K.VALUE_SEPARATOR ++ Itoa (h.ints.read ph) ++ K.VALUE_SEPARATOR
          ++ Itoa (h.ints.read pm) ++ K.VALUE_SEPARATOR ++ h.byteSlices.read pd
          ++ K.LINE_ENDING_BYTES, none⟩ := by
  simp [BitmapImpl.GetMessage, hx, hy, hw, hh, hm, hd, Store.deref]

theorem putbmp_GetMessage_of_required (K : Decls) (h : Heap) (t : PutbmpImpl)
    (px py pf : Nat)
    (hx : t.xCoordinate = some px) (hy : t.yCoordinate = some py) (hf : t.fileName = some pf)
    (hne : h.strings.read pf ≠ []) :
    t.GetMessage K h
      = some ⟨PUTBMP_NAME ++ K.EMPTY_SPACE ++ Itoa (h.ints.read px) ++ K.VALUE_SEPARATOR
          ++ Itoa (h.ints.read py) ++ K.VALUE_SEPARATOR ++ K.DOUBLE_QUOTE
          ++ h.strings.read pf ++ K.DOUBLE_QUOTE
          ++ (match t.bpp with
              | some p => K.VALUE_SEPARATOR ++ Itoa (h.ints.read p)
              | none => [])
          ++ (match t.contrast with
              | some p => K.VALUE_SEPARATOR ++ Itoa (h.ints.read p)
              | none => [])
          ++ K.LINE_ENDING_BYTES, none⟩ := by
  cases hb : t.bpp <;> cases hc : t.contrast <;>
    simp [PutbmpImpl.GetMessage, hx, hy, hf, hne, hb, hc, Store.deref]

theorem putpcx_GetMessage_of_required (K : Decls) (h : Heap) (t : PutpcxImpl)
    (px py pf : Nat)
    (hx : t.xCoordinate = some px) (hy : t.yCoordinate = some py) (hf : t.fileName = some pf)
    (hne : h.strings.read pf ≠ []) :
    t.GetMessage K h
      = some ⟨PUTPCX_NAME ++ K.EMPTY_SPACE ++ Itoa (h.ints.read px) ++ K.VALUE_SEPARATOR
          ++ Itoa (h.ints.read py) ++ K.VALUE_SEPARATOR ++ K.DOUBLE_QUOTE
          ++ h.strings.read pf ++ K.DOUBLE_QUOTE ++ K.LINE_ENDING_BYTES, none⟩ := by
  simp [PutpcxImpl.GetMessage, hx, hy, hf, hne, Store.deref]

theorem download_GetMessage_of_required (K : Decls) (h : Heap) (d : DownloadDataImpl)
    (pn pd : Nat) (hn : d.name = some pn) (hd : d.data = some pd)
    (hne : h.strings.read pn ≠ []) :
    d.GetMessage K h
      = some ⟨DOWNLOAD_DATANAME ++ K.EMPTY_SPACE
          ++ (match d.storage with
              | some ps => h.strings.read ps ++ K.VALUE_SEPARATOR
              | none => [])
          ++ K.DOUBLE_QUOTE ++ h.strings.read pn ++ K.DOUBLE_QUOTE ++ K.VALUE_SEPARATOR
          ++ Itoa (h.byteSlices.read pd).length ++ K.VALUE_SEPARATOR ++ h.byteSlices.read pd
          ++ K.LINE_ENDING_BYTES, none⟩ := by
  cases hs : d.storage <;>
    simp [DownloadDataImpl.GetMessage, hn, hd, hne, hs, Store.deref]

/-- The builder and the cells that `blockChain` leaves: five fresh int cells, two
fresh string cells and two fresh float cells, in the order of the setters. -/
theorem blockChain_fields (x y width height : Int) (font : GoString) (rotation : Int)
    (xm ym : Float64) (content : GoString) (quote : Bool) (h : Heap) :
    (blockChain x y width height font rotation xm ym content quote h).1
      = ⟨some h.ints.next, some (h.ints.next + 1), some (h.ints.next + 2),
          some (h.ints.next + 3), some h.strings.next, some (h.ints.next + 4),
          some h.floats.next, some (h.floats.next + 1), none, none, none,
          some (h.strings.next + 1), quote⟩ := by
  simp [blockChain, BlockImpl.XCoordinate, BlockImpl.YCoordinate, BlockImpl.Width,
    BlockImpl.Height, BlockImpl.FontName, BlockImpl.Rotation, BlockImpl.XMultiplier,
    BlockImpl.YMultiplier, BlockImpl.Content, Block, Store.assign, Store.alloc, Store.write,
    Nat.add_assoc]

theorem blockChain_reads (x y width height : Int) (font : GoString) (rotation : Int)
    (xm ym : Float64) (content : GoString) (quote : Bool) (h : Heap) :
    (blockChain x y width height font rotation xm ym content quote h).2.ints.read h.ints.next = x
    ∧ (blockChain x y width height font rotation xm ym content quote h).2.ints.read
        (h.ints.next + 1) = y
    ∧ (blockChain x y width height font rotation xm ym content quote h).2.ints.read
        (h.ints.next + 2) = width
    ∧ (blockChain x y width height font rotation xm ym content quote h).2.ints.read
        (h.ints.next + 3) = height
    ∧ (blockChain x y width height font rotation xm ym content quote h).2.ints.read
        (h.ints.next + 4) = rotation
    ∧ (blockChain x y width height font rotation xm ym content quote h).2.strings.read
        h.strings.next = font
    ∧ (blockChain x y width height font rotation xm ym content quote h).2.strings.read
        (h.strings.next + 1) = content
    ∧ (blockChain x y width height font rotation xm ym content quote h).2.floats.read
        h.floats.next = xm
    ∧ (blockChain x y width height font rotation xm ym content quote h).2.floats.read
        (h.floats.next + 1) = ym
    ∧ (blockChain x y width height font rotation xm ym content quote h).2.ints.next
        = h.ints.next + 5 := by
  simp [blockChain, BlockImpl.XCoordinate, BlockImpl.YCoordinate, BlockImpl.Width,
    BlockImpl.Height, BlockImpl.FontName, BlockImpl.Rotation, BlockImpl.XMultiplier,
    BlockImpl.YMultiplier, BlockImpl.Content, Block, Store.assign, Store.alloc, Store.write,
    Store.read, Function.update, Nat.add_assoc]

/-- Appending through a valid header leaves the elements that header shows. -/
theorem Arrays.view_after_append (grow : Nat → Nat) (A : Arrays) (s : Slice) (x : TSPLCommand)
    (hv : A.valid s) : (A.append grow s x).2.view s = A.view s := by
  unfold Arrays.append
  by_cases hc : s.len + 1 ≤ s.cap
  · simp only [hc, if_true, Arrays.view, Function.update_same]
    apply List.map_congr_left
    intro i hi
    have hne : i ≠ s.len := Nat.ne_of_lt (List.mem_range.mp hi)
    simp [Function.update_noteq hne]
  · simp only [hc, if_false, Arrays.view]
    apply List.map_congr_left
    intro i hi
    have hlt : i < s.len := List.mem_range.mp hi
    rcases hv.2 with h0 | hp
    · have : s.len ≤ s.cap := hv.1
      omega
    · have hne : s.ptr ≠ A.next := Nat.ne_of_lt hp
      simp [Function.update_noteq hne]

/-- A header at capacity is copied by `append`: the result lives in the fresh
array, and a second append through the old header does not touch it. -/
theorem Arrays.view_fork_at_capacity (grow : Nat → Nat) (A : Arrays) (s : Slice)
    (a b : TSPLCommand) (hfull : s.len = s.cap) :
    (((A.append grow s a).2).append grow s b).2.view (A.append grow s a).1
      = A.view s ++ [some a] := by
  have hc : ¬ s.len + 1 ≤ s.cap := by omega
  have h1 : (A.append grow s a).1 = ⟨A.next, s.len + 1, max (grow s.cap) (s.len + 1)⟩ := by
    simp [Arrays.append, hc]
  have h2 : (A.append grow s a).2.next = A.next + 1 := by
    simp [Arrays.append, hc]
  have hview := Arrays.view_append grow A s a
  rw [← hview]
  have hstep : (((A.append grow s a).2).append grow s b).2.elem A.next
      = (A.append grow s a).2.elem A.next := by
    simp [Arrays.append, hc]
  rw [h1]
  simp only [Arrays.view, hstep]

theorem Arrays.valid_after_append (grow : Nat → Nat) (A : Arrays) (s s1 : Slice)
    (x : TSPLCommand) (hv : A.valid s) : (A.append grow s1 x).2.valid s := by
  refine ⟨hv.1, ?_⟩
  rcases hv.2 with h0 | hp
  · exact Or.inl h0
  · right
    unfold Arrays.append
    by_cases hc : s1.len + 1 ≤ s1.cap
    · simpa [hc] using hp
    · simp only [hc, if_false]
      omega

/-! ## Frame facts: what a render reads -/

theorem Store.read_assign_nil {α : Type} (s : Store α) (zero v : α) (q : Nat)
    (hq : q < s.next) : (s.assign none zero v).2.read q = s.read q := by
  have hne : q ≠ s.next := Nat.ne_of_lt hq
  simp [Store.assign, Store.alloc, Store.write, Store.read, Function.update_noteq hne]

theorem Heap.keeps_ints (h : Heap) (zero v : Int) :
    h.keeps { h with ints := (h.ints.assign none zero v).2 } :=
  ⟨fun q hq => Store.read_assign_nil h.ints zero v q hq, fun _ _ => rfl, fun _ _ => rfl,
    fun _ _ => rfl⟩

theorem Heap.keeps_strings (h : Heap) (zero v : GoString) :
    h.keeps { h with strings := (h.strings.assign none zero v).2 } :=
  ⟨fun _ _ => rfl, fun q hq => Store.read_assign_nil h.strings zero v q hq, fun _ _ => rfl,
    fun _ _ => rfl⟩

theorem Heap.keeps_byteSlices (h : Heap) (zero v : List Byte) :
    h.keeps { h with byteSlices := (h.byteSlices.assign none zero v).2 } :=
  ⟨fun _ _ => rfl, fun _ _ => rfl,
    fun q hq => Store.read_assign_nil h.byteSlices zero v q hq, fun _ _ => rfl⟩

theorem Heap.keeps_floats (h : Heap) (zero v : Float64) :
    h.keeps { h with floats := (h.floats.assign none zero v).2 } :=
  ⟨fun _ _ => rfl, fun _ _ => rfl, fun _ _ => rfl,
    fun q hq => Store.read_assign_nil h.floats zero v q hq⟩

theorem download_GetMessage_frame (K : Decls) (h h1 : Heap) (d : DownloadDataImpl)
    (hal : d.allocated h) (hk : h.keeps h1) : d.GetMessage K h1 = d.GetMessage K h := by
  obtain ⟨-, hs, hb, -⟩ := hk
  obtain ⟨a1, a2, a3⟩ := hal
  rcases hn : d.name with _ | pn
  · simp [DownloadDataImpl.GetMessage, hn]
  rcases hd : d.data with _ | pd
  · simp [DownloadDataImpl.GetMessage, hn, hd]
  rw [hn] at a2
  rw [hd] at a3
  have e1 := hs pn a2
  have e2 := hb pd a3
  rcases hst : d.storage with _ | ps
  · simp [DownloadDataImpl.GetMessage, hn, hd, hst, e1, e2, Store.deref]
  · rw [hst] at a1
    have e3 := hs ps a1
    simp [DownloadDataImpl.GetMessage, hn, hd, hst, e1, e2, e3, Store.deref]

theorem bitmap_GetMessage_frame (K : Decls) (h h1 : Heap) (t : BitmapImpl)
    (hal : t.allocated h) (hk : h.keeps h1) : t.GetMessage K h1 = t.GetMessage K h := by
  obtain ⟨hi, -, hb, -⟩ := hk
  obtain ⟨a1, a2, a3, a4, a5, a6⟩ := hal
  rcases hx : t.xCoordinate with _ | px
  · simp [BitmapImpl.GetMessage, hx]
  rcases hy : t.yCoordinate with _ | py
  · simp [BitmapImpl.GetMessage, hy]
  rcases hw : t.width with _ | pw
  · simp [BitmapImpl.GetMessage, hw]
  rcases hh : t.height with _ | ph
  · simp [BitmapImpl.GetMessage, hh]
  rcases hm : t.mode with _ | pm
  · simp [BitmapImpl.GetMessage, hm]
  rcases hd : t.bitmapData with _ | pd
  · simp [BitmapImpl.GetMessage, hd]
  rw [hx] at a1; rw [hy] at a2; rw [hw] at a3; rw [hh] at a4; rw [hm] at a5; rw [hd] at a6
  rw [bitmap_GetMessage_of_required K h1 t px py pw ph pm pd hx hy hw hh hm hd,
    bitmap_GetMessage_of_required K h t px py pw ph pm pd hx hy hw hh hm hd,
    hi px a1, hi py a2, hi pw a3, hi ph a4, hi pm a5, hb pd a6]

theorem putbmp_GetMessage_frame (K : Decls) (h h1 : Heap) (t : PutbmpImpl)
    (hal : t.allocated h) (hk : h.keeps h1) : t.GetMessage K h1 = t.GetMessage K h := by
  obtain ⟨hi, hs, -, -⟩ := hk
  obtain ⟨a1, a2, a3, a4, a5⟩ := hal
  rcases hx : t.xCoordinate with _ | px
  · simp [PutbmpImpl.GetMessage, hx]
  rcases hy : t.yCoordinate with _ | py
  · simp [PutbmpImpl.GetMessage, hy]
  rcases hf : t.fileName with _ | pf
  · simp [PutbmpImpl.GetMessage, hf]
  rw [hx] at a1; rw [hy] at a2; rw [hf] at a3
  have e1 := hi px a1
  have e2 := hi py a2
  have e3 := hs pf a3
  rcases hb : t.bpp with _ | pb <;> rcases hc : t.contrast with _ | pc
  · simp [PutbmpImpl.GetMessage, hx, hy, hf, hb, hc, e1, e2, e3, Store.deref]
  · rw [hc] at a5
    simp [PutbmpImpl.GetMessage, hx, hy, hf, hb, hc, e1, e2, e3, hi pc a5, Store.deref]
  · rw [hb] at a4
    simp [PutbmpImpl.GetMessage, hx, hy, hf, hb, hc, e1, e2, e3, hi pb a4, Store.deref]
  · rw [hb] at a4; rw [hc] at a5
    simp [PutbmpImpl.GetMessage, hx, hy, hf, hb, hc, e1, e2, e3, hi pb a4, hi pc a5,
      Store.deref]

theorem putpcx_GetMessage_frame (K : Decls) (h h1 : Heap) (t : PutpcxImpl)
    (hal : t.allocated h) (hk : h.keeps h1) : t.GetMessage K h1 = t.GetMessage K h := by
  obtain ⟨hi, hs, -, -⟩ := hk
  obtain ⟨a1, a2, a3, -, -⟩ := hal
  rcases hx : t.xCoordinate with _ | px
  · simp [PutpcxImpl.GetMessage, hx]
  rcases hy : t.yCoordinate with _ | py
  · simp [PutpcxImpl.GetMessage, hy]
  rcases hf : t.fileName with _ | pf
  · simp [PutpcxImpl.GetMessage, hf]
  rw [hx] at a1; rw [hy] at a2; rw [hf] at a3
  simp [PutpcxImpl.GetMessage, hx, hy, hf, hi px a1, hi py a2, hs pf a3, Store.deref]

theorem block_GetMessage_frame (K : Decls) (h h1 : Heap) (t : BlockImpl)
    (hal : t.allocated h) (hk : h.keeps h1) : t.GetMessage K h1 = t.GetMessage K h := by
  obtain ⟨hi, hs, -, hfl⟩ := hk
  obtain ⟨a1, a2, a3, a4, a5, a6, a7, a8, a9, a10, a11, a12⟩ := hal
  rcases hx : t.xCoordinate with _ | px
  · simp [BlockImpl.GetMessage, hx]
  rcases hy : t.yCoordinate with _ | py
  · simp [BlockImpl.GetMessage, hy]
  rcases hw : t.width with _ | pw
  · simp [BlockImpl.GetMessage, hw]
  rcases hh : t.height with _ | ph
  · simp [BlockImpl.GetMessage, hh]
  rcases hf : t.fontName with _ | pf
  · simp [BlockImpl.GetMessage, hf]
  rcases hr : t.rotation with _ | pr
  · simp [BlockImpl.GetMessage, hr]
  rcases hxm : t.xMultiplication with _ | pxm
  · simp [BlockImpl.GetMessage, hxm]
  rcases hym : t.yMultiplication with _ | pym
  · simp [BlockImpl.GetMessage, hym]
  rcases hc : t.content with _ | pc
  · simp [BlockImpl.GetMessage, hc]
  rw [hx] at a1; rw [hy] at a2; rw [hw] at a3; rw [hh] at a4; rw [hf] at a5; rw [hr] at a6
  rw [hxm] at a7; rw [hym] at a8; rw [hc] at a12
  rw [block_GetMessage_of_required K h1 t px py pw ph pf pr pxm pym pc
      hx hy hw hh hf hr hxm hym hc,
    block_GetMessage_of_required K h t px py pw ph pf pr pxm pym pc
      hx hy hw hh hf hr hxm hym hc,
    hi px a1, hi py a2, hi pw a3, hi ph a4, hs pf a5, hi pr a6, hfl pxm a7, hfl pym a8,
    hs pc a12]
  rcases hsp : t.space with _ | p1
  · rcases hali : t.alignment with _ | p2
    · rcases hfit : t.fit with _ | p3
      · rfl
      · rw [hfit] at a11
        simp only [hi p3 a11]
    · rw [hali] at a10
      rcases hfit : t.fit with _ | p3
      · simp only [hi p2 a10]
      · rw [hfit] at a11
        simp only [hi p2 a10, hi p3 a11]
  · rw [hsp] at a9
    rcases hali : t.alignment with _ | p2
    · rcases hfit : t.fit with _ | p3
      · simp only [hi p1 a9]
      · rw [hfit] at a11
        simp only [hi p1 a9, hi p3 a11]
    · rw [hali] at a10
      rcases hfit : t.fit with _ | p3
      · simp only [hi p1 a9, hi p2 a10]
      · rw [hfit] at a11
        simp only [hi p1 a9, hi p2 a10, hi p3 a11]

/-! ## Allocation is an invariant of the builders -/

theorem Store.allocated_assign {α : Type} (s : Store α) (p0 : Option Nat) (zero v : α)
    (p : Option Nat) (hp : s.allocated p) : (s.assign p0 zero v).2.allocated p := by
  cases p with
  | none => trivial
  | some q =>
    have hq : q < s.next := hp
    cases p0 with
    | none => simp only [Store.allocated, Store.assign, Store.alloc, Store.write]; omega
    | some q0 => simpa [Store.allocated, Store.assign, Store.write] using hq

theorem Store.allocated_assign_self {α : Type} (s : Store α) (p0 : Option Nat) (zero v : α)
    (hp0 : s.allocated p0) :
    (s.assign p0 zero v).2.allocated (some (s.assign p0 zero v).1) := by
  cases p0 with
  | none => simp [Store.allocated, Store.assign, Store.alloc, Store.write]
  | some q0 =>
    have hq : q0 < s.next := hp0
    simpa [Store.allocated, Store.assign, Store.write] using hq

/-- The zero value has no pointer, and every setter returns a builder whose
pointers are nil or allocated in the heap it returns. -/
theorem download_allocated_invariant (h : Heap) :
    DownloadDataCmd.allocated h
    ∧ (∀ (b : DownloadDataImpl) (v : DownloadDataStorage), b.allocated h →
        (b.Storage v h).1.allocated (b.Storage v h).2)
    ∧ (∀ (b : DownloadDataImpl) (v : GoString), b.allocated h →
        (b.Name v h).1.allocated (b.Name v h).2)
    ∧ (∀ (b : DownloadDataImpl) (v : List Byte), b.allocated h →
        (b.Data v h).1.allocated (b.Data v h).2) := by
  refine ⟨?_, ?_, ?_, ?_⟩
  · exact ⟨trivial, trivial, trivial⟩
  · intro b v hal
    obtain ⟨a1, a2, a3⟩ := hal
    exact ⟨Store.allocated_assign_self _ _ _ _ a1, Store.allocated_assign _ _ _ _ _ a2, a3⟩
  · intro b v hal
    obtain ⟨a1, a2, a3⟩ := hal
    exact ⟨Store.allocated_assign _ _ _ _ _ a1, Store.allocated_assign_self _ _ _ _ a2, a3⟩
  · intro b v hal
    obtain ⟨a1, a2, a3⟩ := hal
    exact ⟨a1, a2, Store.allocated_assign_self _ _ _ _ a3⟩

/-- The zero value has no pointer, and every setter returns a builder whose
pointers are nil or allocated in the heap it returns. -/
theorem bitmap_allocated_invariant (h : Heap) :
    Bitmap.allocated h
    ∧ (∀ (b : BitmapImpl) (v : Int), b.allocated h →
        (b.XCoordinate v h).1.allocated (b.XCoordinate v h).2)
    ∧ (∀ (b : BitmapImpl) (v : Int), b.allocated h →
        (b.YCoordinate v h).1.allocated (b.YCoordinate v h).2)
    ∧ (∀ (b : BitmapImpl) (v : Int), b.allocated h →
        (b.Width v h).1.allocated (b.Width v h).2)
    ∧ (∀ (b : BitmapImpl) (v : Int), b.allocated h →
        (b.Height v h).1.allocated (b.Height v h).2)
    ∧ (∀ (b : BitmapImpl) (v : BitmapMode), b.allocated h →
        (b.Mode v h).1.allocated (b.Mode v h).2)
    ∧ (∀ (b : BitmapImpl) (v : List Byte), b.allocated h →
        (b.BitmapData v h).1.allocated (b.BitmapData v h).2) := by
  refine ⟨?_, ?_, ?_, ?_, ?_, ?_, ?_⟩
  · exact ⟨trivial, trivial, trivial, trivial, trivial, trivial⟩
  · intro b v hal
    obtain ⟨a1, a2, a3, a4, a5, a6⟩ := hal
    exact ⟨Store.allocated_assign_self _ _ _ _ a1, Store.allocated_assign _ _ _ _ _ a2, Store.allocated_assign _ _ _ _ _ a3, Store.allocated_assign _ _ _ _ _ a4, Store.allocated_assign _ _ _ _ _ a5, a6⟩
  · intro b v hal
    obtain ⟨a1, a2, a3, a4, a5, a6⟩ := hal
    exact ⟨Store.allocated_assign _ _ _ _ _ a1, Store.allocated_assign_self _ _ _ _ a2, Store.allocated_assign _ _ _ _ _ a3, Store.allocated_assign _ _ _ _ _ a4, Store.allocated_assign _ _ _ _ _ a5, a6⟩
  · intro b v hal
    obtain ⟨a1, a2, a3, a4, a5, a6⟩ := hal
    exact ⟨Store.allocated_assign _ _ _ _ _ a1, Store.allocated_assign _ _ _ _ _ a2, Store.allocated_assign_self _ _ _ _ a3, Store.allocated_assign _ _ _ _ _ a4, Store.allocated_assign _ _ _ _ _ a5, a6⟩
  · intro b v hal
    obtain ⟨a1, a2, a3, a4, a5, a6⟩ := hal
    exact ⟨Store.allocated_assign _ _ _ _ _ a1, Store.allocated_assign _ _ _ _ _ a2, Store.allocated_assign _ _ _ _ _ a3, Store.allocated_assign_self _ _ _ _ a4, Store.allocated_assign _ _ _ _ _ a5, a6⟩
  · intro b v hal
    obtain ⟨a1, a2, a3, a4, a5, a6⟩ := hal
    exact ⟨Store.allocated_assign _ _ _ _ _ a1, Store.allocated_assign _ _ _ _ _ a2, Store.allocated_assign _ _ _ _ _ a3, Store.allocated_assign _ _ _ _ _ a4, Store.allocated_assign_self _ _ _ _ a5, a6⟩
  · intro b v hal
    obtain ⟨a1, a2, a3, a4, a5, a6⟩ := hal
    exact ⟨a1, a2, a3, a4, a5, Store.allocated_assign_self _ _ _ _ a6⟩

/-- The zero value has no pointer, and every setter returns a builder whose
pointers are nil or allocated in the heap it returns. -/
theorem putbmp_allocated_invariant (h : Heap) :
    Putbmp.allocated h
    ∧ (∀ (b : PutbmpImpl) (v : Int), b.allocated h →
        (b.XCoordinate v h).1.allocated (b.XCoordinate v h).2)
    ∧ (∀ (b : PutbmpImpl) (v : Int), b.allocated h →
        (b.YCoordinate v h).1.allocated (b.YCoordinate v h).2)
    ∧ (∀ (b : PutbmpImpl) (v : GoString), b.allocated h →
        (b.FileName v h).1.allocated (b.FileName v h).2)
    ∧ (∀ (b : PutbmpImpl) (v : PutbmpBpp), b.allocated h →
        (b.Bpp v h).1.allocated (b.Bpp v h).2)
    ∧ (∀ (b : PutbmpImpl) (v : Int), b.allocated h →
        (b.Contrast v h).1.allocated (b.Contrast v h).2) := by
  refine ⟨?_, ?_, ?_, ?_, ?_, ?_⟩
  · exact ⟨trivial, trivial, trivial, trivial, trivial⟩
  · intro b v hal
    obtain ⟨a1, a2, a3, a4, a5⟩ := hal
    exact ⟨Store.allocated_assign_self _ _ _ _ a1, Store.allocated_assign _ _ _ _ _ a2, a3, Store.allocated_assign _ _ _ _ _ a4, Store.allocated_assign _ _ _ _ _ a5⟩
  · intro b v hal
    obtain ⟨a1, a2, a3, a4, a5⟩ := hal
    exact ⟨Store.allocated_assign _ _ _ _ _ a1, Store.allocated_assign_self _ _ _ _ a2, a3, Store.allocated_assign _ _ _ _ _ a4, Store.allocated_assign _ _ _ _ _ a5⟩
  · intro b v hal
    obtain ⟨a1, a2, a3, a4, a5⟩ := hal
    exact ⟨a1, a2, Store.allocated_assign_self _ _ _ _ a3, a4, a5⟩
  · intro b v hal
    obtain ⟨a1, a2, a3, a4, a5⟩ := hal
    exact ⟨Store.allocated_assign _ _ _ _ _ a1, Store.allocated_assign _ _ _ _ _ a2, a3, Store.allocated_assign_self _ _ _ _ a4, Store.allocated_assign _ _ _ _ _ a5⟩
  · intro b v hal
    obtain ⟨a1, a2, a3, a4, a5⟩ := hal
    exact ⟨Store.allocated_assign _ _ _ _ _ a1, Store.allocated_assign _ _ _ _ _ a2, a3, Store.allocated_assign _ _ _ _ _ a4, Store.allocated_assign_self _ _ _ _ a5⟩

/-- The zero value has no pointer, and every setter returns a builder whose
pointers are nil or allocated in the heap it returns. -/
theorem putpcx_allocated_invariant (h : Heap) :
    Putpcx.allocated h
    ∧ (∀ (b : PutpcxImpl) (v : Int), b.allocated h →
        (b.XCoordinate v h).1.allocated (b.XCoordinate v h).2)
    ∧ (∀ (b : PutpcxImpl) (v : Int), b.allocated h →
        (b.YCoordinate v h).1.allocated (b.YCoordinate v h).2)
    ∧ (∀ (b : PutpcxImpl) (v : GoString), b.allocated h →
        (b.FileName v h).1.allocated (b.FileName v h).2) := by
  refine ⟨?_, ?_, ?_, ?_⟩
  · exact ⟨trivial, trivial, trivial, trivial, trivial⟩
  · intro b v hal
    obtain ⟨a1, a2, a3, a4, a5⟩ := hal
    exact ⟨Store.allocated_assign_self _ _ _ _ a1, Store.allocated_assign _ _ _ _ _ a2, a3, Store.allocated_assign _ _ _ _ _ a4, Store.allocated_assign _ _ _ _ _ a5⟩
  · intro b v hal
    obtain ⟨a1, a2, a3, a4, a5⟩ := hal
    exact ⟨Store.allocated_assign _ _ _ _ _ a1, Store.allocated_assign_self _ _ _ _ a2, a3, Store.allocated_assign _ _ _ _ _ a4, Store.allocated_assign _ _ _ _ _ a5⟩
  · intro b v hal
    obtain ⟨a1, a2, a3, a4, a5⟩ := hal
    exact ⟨a1, a2, Store.allocated_assign_self _ _ _ _ a3, a4, a5⟩

/-- The zero value has no pointer, and every setter returns a builder whose
pointers are nil or allocated in the heap it returns. -/
theorem block_allocated_invariant (h : Heap) :
    Block.allocated h
    ∧ (∀ (b : BlockImpl) (v : Int), b.allocated h →
        (b.XCoordinate v h).1.allocated (b.XCoordinate v h).2)
    ∧ (∀ (b : BlockImpl) (v : Int), b.allocated h →
        (b.YCoordinate v h).1.allocated (b.YCoordinate v h).2)
    ∧ (∀ (b : BlockImpl) (v : Int), b.allocated h →
        (b.Width v h).1.allocated (b.Width v h).2)
    ∧ (∀ (b : BlockImpl) (v : Int), b.allocated h →
        (b.Height v h).1.allocated (b.Height v h).2)
    ∧ (∀ (b : BlockImpl) (v : GoString), b.allocated h →
        (b.FontName v h).1.allocated (b.FontName v h).2)
    ∧ (∀ (b : BlockImpl) (v : Int), b.allocated h →
        (b.Rotation v h).1.allocated (b.Rotation v h).2)
    ∧ (∀ (b : BlockImpl) (v : Float64), b.allocated h →
        (b.XMultiplier v h).1.allocated (b.XMultiplier v h).2)
    ∧ (∀ (b : BlockImpl) (v : Float64), b.allocated h →
        (b.YMultiplier v h).1.allocated (b.YMultiplier v h).2)
    ∧ (∀ (b : BlockImpl) (v : Int), b.allocated h →
        (b.Space v h).1.allocated (b.Space v h).2)
    ∧ (∀ (b : BlockImpl) (v : BlockAlignment), b.allocated h →
        (b.Alignment v h).1.allocated (b.Alignment v h).2)
    ∧ (∀ (b : BlockImpl) (v : BlockFit), b.allocated h →
        (b.Fit v h).1.allocated (b.Fit v h).2)
    ∧ (∀ (b : BlockImpl) (c : GoString) (q : Bool), b.allocated h →
        (b.Content c q h).1.allocated (b.Content c q h).2) := by
  refine ⟨?_, ?_, ?_, ?_, ?_, ?_, ?_, ?_, ?_, ?_, ?_, ?_, ?_⟩
  · exact ⟨trivial, trivial, trivial, trivial, trivial, trivial, trivial, trivial, trivial, trivial, trivial, trivial⟩
  · intro b v hal
    obtain ⟨a1, a2, a3, a4, a5, a6, a7, a8, a9, a10, a11, a12⟩ := hal
    exact ⟨Store.allocated_assign_self _ _ _ _ a1, Store.allocated_assign _ _ _ _ _ a2, Store.allocated_assign _ _ _ _ _ a3, Store.allocated_assign _ _ _ _ _ a4, a5, Store.allocated_assign _ _ _ _ _ a6, a7, a8, Store.allocated_assign _ _ _ _ _ a9, Store.allocated_assign _ _ _ _ _ a10, Store.allocated_assign _ _ _ _ _ a11, a12⟩
  · intro b v hal
    obtain ⟨a1, a2, a3, a4, a5, a6, a7, a8, a9, a10, a11, a12⟩ := hal
    exact ⟨Store.allocated_assign _ _ _ _ _ a1, Store.allocated_assign_self _ _ _ _ a2, Store.allocated_assign _ _ _ _ _ a3, Store.allocated_assign _ _ _ _ _ a4, a5, Store.allocated_assign _ _ _ _ _ a6, a7, a8, Store.allocated_assign _ _ _ _ _ a9, Store.allocated_assign _ _ _ _ _ a10, Store.allocated_assign _ _ _ _ _ a11, a12⟩
  · intro b v hal
    obtain ⟨a1, a2, a3, a4, a5, a6, a7, a8, a9, a10, a11, a12⟩ := hal
    exact ⟨Store.allocated_assign _ _ _ _ _ a1, Store.allocated_assign _ _ _ _ _ a2, Store.allocated_assign_self _ _ _ _ a3, Store.allocated_assign _ _ _ _ _ a4, a5, Store.allocated_assign _ _ _ _ _ a6, a7, a8, Store.allocated_assign _ _ _ _ _ a9, Store.allocated_assign _ _ _ _ _ a10, Store.allocated_assign _ _ _ _ _ a11, a12⟩
  · intro b v hal
    obtain ⟨a1, a2, a3, a4, a5, a6, a7, a8, a9, a10, a11, a12⟩ := hal
    exact ⟨Store.allocated_assign _ _ _ _ _ a1, Store.allocated_assign _ _ _ _ _ a2, Store.allocated_assign _ _ _ _ _ a3, Store.allocated_assign_self _ _ _ _ a4, a5, Store.allocated_assign _ _ _ _ _ a6, a7, a8, Store.allocated_assign _ _ _ _ _ a9, Store.allocated_assign _ _ _ _ _ a10, Store.allocated_assign _ _ _ _ _ a11, a12⟩
  · intro b v hal
    obtain ⟨a1, a2, a3, a4, a5, a6, a7, a8, a9, a10, a11, a12⟩ := hal
    exact ⟨a1, a2, a3, a4, Store.allocated_assign_self _ _ _ _ a5, a6, a7, a8, a9, a10, a11, Store.allocated_assign _ _ _ _ _ a12⟩
  · intro b v hal
    obtain ⟨a1, a2, a3, a4, a5, a6, a7, a8, a9, a10, a11, a12⟩ := hal
    exact ⟨Store.allocated_assign _ _ _ _ _ a1, Store.allocated_assign _ _ _ _ _ a2, Store.allocated_assign _ _ _ _ _ a3, Store.allocated_assign _ _ _ _ _ a4, a5, Store.allocated_assign_self _ _ _ _ a6, a7, a8, Store.allocated_assign _ _ _ _ _ a9, Store.allocated_assign _ _ _ _ _ a10, Store.allocated_assign _ _ _ _ _ a11, a12⟩
  · intro b v hal
    obtain ⟨a1, a2, a3, a4, a5, a6, a7, a8, a9, a10, a11, a12⟩ := hal
    exact ⟨a1, a2, a3, a4, a5, a6, Store.allocated_assign_self _ _ _ _ a7, Store.allocated_assign _ _ _ _ _ a8, a9, a10, a11, a12⟩
  · intro b v hal
    obtain ⟨a1, a2, a3, a4, a5, a6, a7, a8, a9, a10, a11, a12⟩ := hal
    exact ⟨a1, a2, a3, a4, a5, a6, Store.allocated_assign _ _ _ _ _ a7, Store.allocated_assign_self _ _ _ _ a8, a9, a10, a11, a12⟩
  · intro b v hal
    obtain ⟨a1, a2, a3, a4, a5, a6, a7, a8, a9, a10, a11, a12⟩ := hal
    exact ⟨Store.allocated_assign _ _ _ _ _ a1, Store.allocated_assign _ _ _ _ _ a2, Store.allocated_assign _ _ _ _ _ a3, Store.allocated_assign _ _ _ _ _ a4, a5, Store.allocated_assign _ _ _ _ _ a6, a7, a8, Store.allocated_assign_self _ _ _ _ a9, Store.allocated_assign _ _ _ _ _ a10, Store.allocated_assign _ _ _ _ _ a11, a12⟩
  · intro b v hal
    obtain ⟨a1, a2, a3, a4, a5, a6, a7, a8, a9, a10, a11, a12⟩ := hal
    exact ⟨Store.allocated_assign _ _ _ _ _ a1, Store.allocated_assign _ _ _ _ _ a2, Store.allocated_assign _ _ _ _ _ a3, Store.allocated_assign _ _ _ _ _ a4, a5, Store.allocated_assign _ _ _ _ _ a6, a7, a8, Store.allocated_assign _ _ _ _ _ a9, Store.allocated_assign_self _ _ _ _ a10, Store.allocated_assign _ _ _ _ _ a11, a12⟩
  · intro b v hal
    obtain ⟨a1, a2, a3, a4, a5, a6, a7, a8, a9, a10, a11, a12⟩ := hal
    exact ⟨Store.allocated_assign _ _ _ _ _ a1, Store.allocated_assign _ _ _ _ _ a2, Store.allocated_assign _ _ _ _ _ a3, Store.allocated_assign _ _ _ _ _ a4, a5, Store.allocated_assign _ _ _ _ _ a6, a7, a8, Store.allocated_assign _ _ _ _ _ a9, Store.allocated_assign _ _ _ _ _ a10, Store.allocated_assign_self _ _ _ _ a11, a12⟩
  · intro b c q hal
    obtain ⟨a1, a2, a3, a4, a5, a6, a7, a8, a9, a10, a11, a12⟩ := hal
    exact ⟨a1, a2, a3, a4, Store.allocated_assign _ _ _ _ _ a5, a6, a7, a8, a9, a10, a11, Store.allocated_assign_self _ _ _ _ a12⟩

/-- The nil slice is valid, and `append` returns a valid header. -/
theorem Arrays.valid_append_result (grow : Nat → Nat) (A : Arrays) (s : Slice) (x : TSPLCommand)
    (hv : A.valid s) :
    A.valid NewTSPLLabel.commandList
    ∧ (A.append grow s x).2.valid (A.append grow s x).1 := by
  refine ⟨⟨Nat.le_refl _, Or.inl rfl⟩, ?_⟩
  unfold Arrays.append
  by_cases hc : s.len + 1 ≤ s.cap
  · simp only [hc, if_true]
    refine ⟨hc, ?_⟩
    rcases hv.2 with h0 | hp
    · omega
    · exact Or.inr hp
  · simp only [hc, if_false]
    exact ⟨Nat.le_max_right _ _, Or.inr (Nat.lt_succ_self _)⟩

/-! ## Theorems -/

/-- C1: from the zero value, setting a non-empty name and any payload and then
rendering (storage unset) succeeds with `DOWNLOAD`, the space token, the quoted
name, a separator, the decimal payload length, a separator, the raw payload and the
terminator; with space, comma and double quote as the tokens, name `IMAGE1` and
payload `01 02 03` give the text `DOWNLOAD "IMAGE1",3,` then the payload and the
terminator. -/
theorem download_data_render (K : Decls) (h : Heap) (name : GoString) (data : List Byte)
    (hname : name ≠ []) :
    DownloadDataImpl.render K (downloadChain name data h)
      = some ⟨str "DOWNLOAD" ++ K.EMPTY_SPACE ++ K.DOUBLE_QUOTE ++ name ++ K.DOUBLE_QUOTE
          ++ K.VALUE_SEPARATOR ++ Itoa data.length ++ K.VALUE_SEPARATOR ++ data
          ++ K.LINE_ENDING_BYTES, none⟩
    ∧ (K.EMPTY_SPACE = str " " → K.VALUE_SEPARATOR = str "," → K.DOUBLE_QUOTE = [34] →
        DownloadDataImpl.render K (downloadChain (str "IMAGE1") [1, 2, 3] h)
          = some ⟨str "DOWNLOAD \"IMAGE1\",3," ++ [1, 2, 3] ++ K.LINE_ENDING_BYTES, none⟩) := by
  have key : ∀ (nm : GoString) (dt : List Byte), nm ≠ [] →
      DownloadDataImpl.render K (downloadChain nm dt h)
      = some ⟨str "DOWNLOAD" ++ K.EMPTY_SPACE ++ K.DOUBLE_QUOTE ++ nm ++ K.DOUBLE_QUOTE
          ++ K.VALUE_SEPARATOR ++ Itoa dt.length ++ K.VALUE_SEPARATOR ++ dt
          ++ K.LINE_ENDING_BYTES, none⟩ := by
    intro nm dt hnm
    simp [DownloadDataImpl.render, downloadChain, DownloadDataImpl.GetMessage,
      DownloadDataImpl.Name, DownloadDataImpl.Data, DownloadDataCmd, DOWNLOAD_DATANAME,
      Store.deref, hnm]
  refine ⟨key name data hname, ?_⟩
  intro h1 h2 h3
  have e : str "DOWNLOAD" ++ str " " ++ [34] ++ str "IMAGE1" ++ [34] ++ str ","
      ++ Itoa (([1, 2, 3] : List Byte).length) ++ str "," ++ ([1, 2, 3] : List Byte)
      = str "DOWNLOAD \"IMAGE1\",3," ++ [1, 2, 3] := by decide
  rw [key (str "IMAGE1") [1, 2, 3] (by decide), h1, h2, h3, e]

/-- C2: a Bitmap command whose six fields are all set renders successfully to
`BITMAP`, the space token, the decimal x, y, width, height and mode joined and
followed by separators, then the raw payload and the terminator.  This holds for
any builder state with the six pointers set and for the chain of the six setters
from the zero value; with space and comma as the tokens, x=0, y=0, width=100,
height=50, mode overwrite and payload `FF` give `BITMAP 0,0,100,50,0,` then `FF`
and the terminator. -/
theorem bitmap_render (K : Decls) (h : Heap) (t : BitmapImpl) (px py pw ph pm pd : Nat)
    (hx : t.xCoordinate = some px) (hy : t.yCoordinate = some py) (hw : t.width = some pw)
    (hh : t.height = some ph) (hm : t.mode = some pm) (hd : t.bitmapData = some pd) :
    t.GetMessage K h
      = some ⟨str "BITMAP" ++ K.EMPTY_SPACE ++ Itoa (h.ints.read px) ++ K.VALUE_SEPARATOR
          ++ Itoa (h.ints.read py) ++ K.VALUE_SEPARATOR ++ Itoa (h.ints.read pw)
          ++ K.VALUE_SEPARATOR ++ Itoa (h.ints.read ph) ++ K.VALUE_SEPARATOR
          ++ Itoa (h.ints.read pm) ++ K.VALUE_SEPARATOR ++ h.byteSlices.read pd
          ++ K.LINE_ENDING_BYTES, none⟩
    ∧ (∀ (x y width height : Int) (mode : BitmapMode) (data : List Byte),
        (bitmapChain x y width height mode data h).1.GetMessage K
            (bitmapChain x y width height mode data h).2
          = some ⟨str "BITMAP" ++ K.EMPTY_SPACE ++ Itoa x ++ K.VALUE_SEPARATOR
              ++ Itoa y ++ K.VALUE_SEPARATOR ++ Itoa width ++ K.VALUE_SEPARATOR
              ++ Itoa height ++ K.VALUE_SEPARATOR ++ Itoa mode ++ K.VALUE_SEPARATOR
              ++ data ++ K.LINE_ENDING_BYTES, none⟩)
    ∧ (K.EMPTY_SPACE = str " " → K.VALUE_SEPARATOR = str "," →
        (bitmapChain 0 0 100 50 BITMAP_MODE_OVERWRITE [0xFF] h).1.GetMessage K
            (bitmapChain 0 0 100 50 BITMAP_MODE_OVERWRITE [0xFF] h).2
          = some ⟨str "BITMAP 0,0,100,50,0," ++ [0xFF] ++ K.LINE_ENDING_BYTES, none⟩) := by
  have chain : ∀ (x y width height : Int) (mode : BitmapMode) (data : List Byte),
      (bitmapChain x y width height mode data h).1.GetMessage K
          (bitmapChain x y width height mode data h).2
        = some ⟨str "BITMAP" ++ K.EMPTY_SPACE ++ Itoa x ++ K.VALUE_SEPARATOR
            ++ Itoa y ++ K.VALUE_SEPARATOR ++ Itoa width ++ K.VALUE_SEPARATOR
            ++ Itoa height ++ K.VALUE_SEPARATOR ++ Itoa mode ++ K.VALUE_SEPARATOR
            ++ data ++ K.LINE_ENDING_BYTES, none⟩ := by
    intro x y width height mode data
    simp [bitmapChain, BitmapImpl.GetMessage, BitmapImpl.XCoordinate, BitmapImpl.YCoordinate,
      BitmapImpl.Width, BitmapImpl.Height, BitmapImpl.Mode, BitmapImpl.BitmapData, Bitmap,
      BITMAP_NAME, Store.deref, Store.assign, Store.alloc, Store.write, Store.read,
      Function.update, Nat.add_assoc]
  refine ⟨?_, chain, ?_⟩
  · simp [BitmapImpl.GetMessage, hx, hy, hw, hh, hm, hd, BITMAP_NAME, Store.deref]
  · intro h1 h2
    have e : str "BITMAP" ++ str " " ++ Itoa 0 ++ str "," ++ Itoa 0 ++ str "," ++ Itoa 100
        ++ str "," ++ Itoa 50 ++ str "," ++ Itoa BITMAP_MODE_OVERWRITE ++ str ","
        ++ ([0xFF] : List Byte) = str "BITMAP 0,0,100,50,0," ++ [0xFF] := by decide
    rw [chain, h1, h2, e]

/-- Witness for C2: the chain of six setters from the zero value on the empty heap
yields a builder with all six fields set. -/
theorem bitmap_render_witness :
    (bitmapChain 0 0 100 50 BITMAP_MODE_OVERWRITE [0xFF] Heap.empty).1.GetMessage wire
        (bitmapChain 0 0 100 50 BITMAP_MODE_OVERWRITE [0xFF] Heap.empty).2
      = some ⟨str "BITMAP 0,0,100,50,0," ++ [0xFF] ++ [13, 10], none⟩ := by
  have w := (bitmap_render wire (bitmapChain 0 0 100 50 BITMAP_MODE_OVERWRITE [0xFF] Heap.empty).2
    (bitmapChain 0 0 100 50 BITMAP_MODE_OVERWRITE [0xFF] Heap.empty).1 0 1 2 3 4 0
    rfl rfl rfl rfl rfl rfl).1
  rw [w]
  decide

/-- Witness for C1: name `IMAGE1` is non-empty, and on the empty heap with the
spec's tokens the command renders to the expected text. -/
theorem download_data_render_witness :
    str "IMAGE1" ≠ [] ∧
    DownloadDataImpl.render wire (downloadChain (str "IMAGE1") [1, 2, 3] Heap.empty)
      = some ⟨str "DOWNLOAD \"IMAGE1\",3," ++ [1, 2, 3] ++ [13, 10], none⟩ :=
  ⟨by decide,
    (download_data_render wire Heap.empty (str "IMAGE1") [1, 2, 3] (by decide)).2 rfl rfl rfl⟩

/-- C3: concatenation law.  When every command of `cs` renders successfully, with
bytes `bs` in the same order, the label `NewTSPLLabel().Cmd(c1)...Cmd(cn)` renders
successfully to the concatenation of `bs`; so does any label showing exactly
these commands.  For two commands the result is the first render followed by the
second, and the empty label renders to the empty byte sequence. -/
theorem label_concatenation (grow : Nat → Nat) (A : Arrays) (h : Heap)
    (cs : List TSPLCommand) (bs : List (List Byte))
    (hok : List.Forall₂ (fun c b => c.GetMessage h = some ⟨b, none⟩) cs bs) :
    (NewTSPLLabel.Cmds grow A (cs.map some)).1.GetLabelData
        (NewTSPLLabel.Cmds grow A (cs.map some)).2 h = some ⟨bs.flatten, none⟩
    ∧ (∀ (T : TSPLLabel) (A1 : Arrays), A1.view T.commandList = cs.map some →
        T.GetLabelData A1 h = some ⟨bs.flatten, none⟩)
    ∧ (∀ (c1 c2 : TSPLCommand) (b1 b2 : List Byte),
        c1.GetMessage h = some ⟨b1, none⟩ → c2.GetMessage h = some ⟨b2, none⟩ →
        ((NewTSPLLabel.Cmd grow (some c1) A).1.Cmd grow (some c2)
            (NewTSPLLabel.Cmd grow (some c1) A).2).1.GetLabelData
          ((NewTSPLLabel.Cmd grow (some c1) A).1.Cmd grow (some c2)
            (NewTSPLLabel.Cmd grow (some c1) A).2).2 h = some ⟨b1 ++ b2, none⟩)
    ∧ NewTSPLLabel.GetLabelData A h = some ⟨[], none⟩ := by
  have gen : ∀ (ds : List TSPLCommand) (es : List (List Byte)),
      List.Forall₂ (fun c b => c.GetMessage h = some ⟨b, none⟩) ds es →
      ∀ (T : TSPLLabel) (A1 : Arrays), A1.view T.commandList = ds.map some →
        T.GetLabelData A1 h = some ⟨es.flatten, none⟩ := by
    intro ds es hds T A1 hv
    have hl := getTSPLCode.loop_ok h ds es hds [] []
    simp only [List.append_nil, List.nil_append] at hl
    simp [TSPLLabel.GetLabelData, TSPLLabel.getTSPLCode, hv, hl, getTSPLCode.loop]
  have hnew : ∀ (ds : List TSPLCommand),
      (NewTSPLLabel.Cmds grow A (ds.map some)).2.view
        (NewTSPLLabel.Cmds grow A (ds.map some)).1.commandList = ds.map some := by
    intro ds
    rw [TSPLLabel.view_Cmds]
    simp [NewTSPLLabel, Arrays.view]
  refine ⟨gen cs bs hok _ _ (hnew cs), gen cs bs hok, ?_, ?_⟩
  · intro c1 c2 b1 b2 h1 h2
    have h12 := gen [c1, c2] [b1, b2]
      (List.Forall₂.cons h1 (List.Forall₂.cons h2 List.Forall₂.nil)) _ _ (hnew [c1, c2])
    simpa [TSPLLabel.Cmds] using h12
  · simp [TSPLLabel.GetLabelData, TSPLLabel.getTSPLCode, NewTSPLLabel, Arrays.view,
      getTSPLCode.loop]

/-- Witness for C3: the sample Bitmap and Download-data commands both render, and
the label made of the two renders to the two texts one after the other. -/
theorem label_concatenation_witness :
    (NewTSPLLabel.Cmds growDouble Arrays.empty
        ([sampleBitmap.toTSPLCommand wire, sampleDownload.toTSPLCommand wire].map some)).1.GetLabelData
      (NewTSPLLabel.Cmds growDouble Arrays.empty
        ([sampleBitmap.toTSPLCommand wire, sampleDownload.toTSPLCommand wire].map some)).2 sampleHeap
      = some ⟨[str "BITMAP 0,0,100,50,0," ++ [0xFF] ++ [13, 10],
          str "DOWNLOAD \"IMAGE1\",3," ++ [1, 2, 3] ++ [13, 10]].flatten, none⟩ :=
  (label_concatenation growDouble Arrays.empty sampleHeap
    [sampleBitmap.toTSPLCommand wire, sampleDownload.toTSPLCommand wire]
    [str "BITMAP 0,0,100,50,0," ++ [0xFF] ++ [13, 10],
      str "DOWNLOAD \"IMAGE1\",3," ++ [1, 2, 3] ++ [13, 10]]
    (List.Forall₂.cons (by decide) (List.Forall₂.cons (by decide) List.Forall₂.nil))).1

/-- C4: short-circuit.  If a label shows commands `pre`, all rendering
successfully, then a command `c` whose render returns the error `e`, then anything,
`GetLabelData` returns the error `e` and no bytes; this holds for every label value
and in particular for the chain `NewTSPLLabel().Cmd(..)...`, and for two commands of
which the second fails. -/
theorem label_short_circuit (A : Arrays) (h : Heap) (T : TSPLLabel)
    (pre : List TSPLCommand) (bs : List (List Byte)) (c : TSPLCommand) (b : List Byte)
    (e : GoString) (post : List (Option TSPLCommand))
    (hpre : List.Forall₂ (fun c b => c.GetMessage h = some ⟨b, none⟩) pre bs)
    (hc : c.GetMessage h = some ⟨b, some e⟩)
    (hv : A.view T.commandList = pre.map some ++ some c :: post) :
    T.GetLabelData A h = some ⟨[], some e⟩
    ∧ (∀ (grow : Nat → Nat) (A0 : Arrays) (later : List TSPLCommand),
        (NewTSPLLabel.Cmds grow A0 ((pre ++ c :: later).map some)).1.GetLabelData
          (NewTSPLLabel.Cmds grow A0 ((pre ++ c :: later).map some)).2 h = some ⟨[], some e⟩)
    ∧ (∀ (grow : Nat → Nat) (A0 : Arrays) (c1 : TSPLCommand) (b1 : List Byte),
        c1.GetMessage h = some ⟨b1, none⟩ →
        ((NewTSPLLabel.Cmd grow (some c1) A0).1.Cmd grow (some c)
            (NewTSPLLabel.Cmd grow (some c1) A0).2).1.GetLabelData
          ((NewTSPLLabel.Cmd grow (some c1) A0).1.Cmd grow (some c)
            (NewTSPLLabel.Cmd grow (some c1) A0).2).2 h = some ⟨[], some e⟩) := by
  have gen : ∀ (ds : List TSPLCommand) (es : List (List Byte)),
      List.Forall₂ (fun c b => c.GetMessage h = some ⟨b, none⟩) ds es →
      ∀ (rest : List (Option TSPLCommand)) (T1 : TSPLLabel) (A1 : Arrays),
        A1.view T1.commandList = ds.map some ++ some c :: rest →
        T1.GetLabelData A1 h = some ⟨[], some e⟩ := by
    intro ds es hds rest T1 A1 hv1
    simp [TSPLLabel.GetLabelData, TSPLLabel.getTSPLCode, hv1,
      getTSPLCode.loop_ok h ds es hds, getTSPLCode.loop, hc]
  have hnew : ∀ (grow : Nat → Nat) (A0 : Arrays) (ds : List TSPLCommand),
      (NewTSPLLabel.Cmds grow A0 (ds.map some)).2.view
        (NewTSPLLabel.Cmds grow A0 (ds.map some)).1.commandList = ds.map some := by
    intro grow A0 ds
    rw [TSPLLabel.view_Cmds]
    simp [NewTSPLLabel, Arrays.view]
  refine ⟨gen pre bs hpre post T A hv, ?_, ?_⟩
  · intro grow A0 later
    apply gen pre bs hpre (later.map some)
    rw [hnew]
    simp
  · intro grow A0 c1 b1 h1
    have h12 := gen [c1] [b1] (List.Forall₂.cons h1 List.Forall₂.nil) [] _ _
      (hnew grow A0 [c1, c])
    simpa [TSPLLabel.Cmds] using h12

/-- Witness for C4: a label of the sample Bitmap followed by an unconfigured
Put-PCX command returns the Put-PCX error and no bytes. -/
theorem label_short_circuit_witness :
    (NewTSPLLabel.Cmds growDouble Arrays.empty
        ([sampleBitmap.toTSPLCommand wire, Putpcx.toTSPLCommand wire].map some)).1.GetLabelData
      (NewTSPLLabel.Cmds growDouble Arrays.empty
        ([sampleBitmap.toTSPLCommand wire, Putpcx.toTSPLCommand wire].map some)).2 sampleHeap
      = some ⟨[], some (str "ParseError PUTPCX Command: " ++ requiredFieldsText)⟩ :=
  (label_short_circuit
    (NewTSPLLabel.Cmds growDouble Arrays.empty
      ([sampleBitmap.toTSPLCommand wire, Putpcx.toTSPLCommand wire].map some)).2
    sampleHeap
    (NewTSPLLabel.Cmds growDouble Arrays.empty
      ([sampleBitmap.toTSPLCommand wire, Putpcx.toTSPLCommand wire].map some)).1
    [sampleBitmap.toTSPLCommand wire] [str "BITMAP 0,0,100,50,0," ++ [0xFF] ++ [13, 10]]
    (Putpcx.toTSPLCommand wire) [] (str "ParseError PUTPCX Command: " ++ requiredFieldsText) []
    (List.Forall₂.cons (by decide) List.Forall₂.nil) (by decide) rfl).1

/-- C5: appending a nil command returns the label unchanged, with the same backing
arrays, so the label renders to the same bytes or the same error as before. -/
theorem label_cmd_nil (grow : Nat → Nat) (T : TSPLLabel) (A : Arrays) (h : Heap) :
    T.Cmd grow none A = (T, A)
    ∧ (T.Cmd grow none A).2.view (T.Cmd grow none A).1.commandList = A.view T.commandList
    ∧ (T.Cmd grow none A).1.GetLabelData (T.Cmd grow none A).2 h = T.GetLabelData A h :=
  ⟨rfl, rfl, rfl⟩

/-- C6: for each of the five command kinds, a required field left unset makes
`GetMessage` return an error and no bytes: name or data for Download-data; x, y,
width, height, mode or bitmapData for Bitmap; x, y, width, height, fontName,
rotation, xMultiplication, yMultiplication or content for Block; x, y or fileName
for Put-bitmap and Put-PCX.  An empty name or file name does the same for
Download-data, Put-bitmap and Put-PCX. -/
theorem required_field_unset_fails (K : Decls) (h : Heap) :
    (∀ d : DownloadDataImpl, d.name = none ∨ d.data = none →
      d.GetMessage K h
        = some ⟨[], some (str "ParseError DOWNLOAD Command: name should be specified")⟩)
    ∧ (∀ t : BitmapImpl,
        t.xCoordinate = none ∨ t.yCoordinate = none ∨ t.width = none ∨ t.height = none
          ∨ t.mode = none ∨ t.bitmapData = none →
        t.GetMessage K h
          = some ⟨[], some (str "ParseError BLOCK Command: " ++ requiredFieldsText)⟩)
    ∧ (∀ t : BlockImpl,
        t.xCoordinate = none ∨ t.yCoordinate = none ∨ t.width = none ∨ t.height = none
          ∨ t.fontName = none ∨ t.rotation = none ∨ t.xMultiplication = none
          ∨ t.yMultiplication = none ∨ t.content = none →
        t.GetMessage K h
          = some ⟨[], some (str "ParseError BLOCK Command: " ++ requiredFieldsText)⟩)
    ∧ (∀ t : PutbmpImpl, t.xCoordinate = none ∨ t.yCoordinate = none ∨ t.fileName = none →
        t.GetMessage K h
          = some ⟨[], some (str "ParseError PUTBMP Command: " ++ requiredFieldsText)⟩)
    ∧ (∀ t : PutpcxImpl, t.xCoordinate = none ∨ t.yCoordinate = none ∨ t.fileName = none →
        t.GetMessage K h
          = some ⟨[], some (str "ParseError PUTPCX Command: " ++ requiredFieldsText)⟩)
    ∧ (∀ (d : DownloadDataImpl) (p : Nat), d.name = some p → h.strings.read p = [] →
        d.GetMessage K h
          = some ⟨[], some (str "ParseError DOWNLOAD Command: name should be specified")⟩)
    ∧ (∀ (t : PutbmpImpl) (p : Nat), t.fileName = some p → h.strings.read p = [] →
        t.GetMessage K h
          = some ⟨[], some (str "ParseError PUTBMP Command: " ++ requiredFieldsText)⟩)
    ∧ (∀ (t : PutpcxImpl) (p : Nat), t.fileName = some p → h.strings.read p = [] →
        t.GetMessage K h
          = some ⟨[], some (str "ParseError PUTPCX Command: " ++ requiredFieldsText)⟩) := by
  refine ⟨?_, ?_, ?_, ?_, ?_, ?_, ?_, ?_⟩
  · intro d hd
    rcases hd with hd | hd <;> simp [DownloadDataImpl.GetMessage, hd]
  · intro t ht
    rcases ht with ht | ht | ht | ht | ht | ht <;> simp [BitmapImpl.GetMessage, ht]
  · intro t ht
    rcases ht with ht | ht | ht | ht | ht | ht | ht | ht | ht <;>
      simp [BlockImpl.GetMessage, ht]
  · intro t ht
    rcases ht with ht | ht | ht <;> simp [PutbmpImpl.GetMessage, ht]
  · intro t ht
    rcases ht with ht | ht | ht <;> simp [PutpcxImpl.GetMessage, ht]
  · intro d p hp he
    simp [DownloadDataImpl.GetMessage, hp, he]
  · intro t p hp he
    simp [PutbmpImpl.GetMessage, hp, he]
  · intro t p hp he
    simp [PutpcxImpl.GetMessage, hp, he]

/-- Witness for C6: the five zero-value builders and the three chains that set an
empty name or file name all return an error and no bytes. -/
theorem required_field_unset_fails_witness :
    (DownloadDataCmd.GetMessage wire Heap.empty).map (fun r => r.bytes) = some []
    ∧ (Bitmap.GetMessage wire Heap.empty).map (fun r => r.bytes) = some []
    ∧ (Block.GetMessage wire Heap.empty).map (fun r => r.bytes) = some []
    ∧ (Putbmp.GetMessage wire Heap.empty).map (fun r => r.bytes) = some []
    ∧ (Putpcx.GetMessage wire Heap.empty).map (fun r => r.bytes) = some []
    ∧ ((DownloadDataCmd.Name [] Heap.empty).1.GetMessage wire
        (DownloadDataCmd.Name [] Heap.empty).2).map (fun r => r.bytes) = some []
    ∧ ((Putbmp.FileName [] Heap.empty).1.GetMessage wire
        (Putbmp.FileName [] Heap.empty).2).map (fun r => r.bytes) = some []
    ∧ ((Putpcx.FileName [] Heap.empty).1.GetMessage wire
        (Putpcx.FileName [] Heap.empty).2).map (fun r => r.bytes) = some [] := by
  have w := required_field_unset_fails wire
  refine ⟨?_, ?_, ?_, ?_, ?_, ?_, ?_, ?_⟩
  · rw [(w Heap.empty).1 DownloadDataCmd (Or.inl rfl)]; rfl
  · rw [(w Heap.empty).2.1 Bitmap (Or.inl rfl)]; rfl
  · rw [(w Heap.empty).2.2.1 Block (Or.inl rfl)]; rfl
  · rw [(w Heap.empty).2.2.2.1 Putbmp (Or.inl rfl)]; rfl
  · rw [(w Heap.empty).2.2.2.2.1 Putpcx (Or.inl rfl)]; rfl
  · rw [(w (DownloadDataCmd.Name [] Heap.empty).2).2.2.2.2.2.1
      (DownloadDataCmd.Name [] Heap.empty).1 0 rfl rfl]; rfl
  · rw [(w (Putbmp.FileName [] Heap.empty).2).2.2.2.2.2.2.1
      (Putbmp.FileName [] Heap.empty).1 0 rfl rfl]; rfl
  · rw [(w (Putpcx.FileName [] Heap.empty).2).2.2.2.2.2.2.2
      (Putpcx.FileName [] Heap.empty).1 0 rfl rfl]; rfl

set_option maxRecDepth 20000 in
/-- C7, the code at the failing inputs: a Bitmap with only the mode unset, or only
the payload unset, fails with the message of the BLOCK command, which contains
neither `mode`, nor `bitmapData`, nor `BITMAP`; a Put-bitmap and a Put-PCX with
only the file name unset fail with a message that does not contain `fileName`; a
Download-data with only the payload unset fails with a message that does not
contain `data`. -/
theorem missing_field_message_misnames :
    ((bitmapNoMode Heap.empty).1.GetMessage wire (bitmapNoMode Heap.empty).2
        = some ⟨[], some (str "ParseError BLOCK Command: xCoordinate, yCoordinate, width, height, fontName, rotation, xMultiplication, yMultiplication and content should be specified")⟩
      ∧ (bitmapNoData Heap.empty).1.GetMessage wire (bitmapNoData Heap.empty).2
        = some ⟨[], some (str "ParseError BLOCK Command: xCoordinate, yCoordinate, width, height, fontName, rotation, xMultiplication, yMultiplication and content should be specified")⟩
      ∧ ¬ (str "mode" <:+: str "ParseError BLOCK Command: xCoordinate, yCoordinate, width, height, fontName, rotation, xMultiplication, yMultiplication and content should be specified")
      ∧ ¬ (str "bitmapData" <:+: str "ParseError BLOCK Command: xCoordinate, yCoordinate, width, height, fontName, rotation, xMultiplication, yMultiplication and content should be specified")
      ∧ ¬ (str "BITMAP" <:+: str "ParseError BLOCK Command: xCoordinate, yCoordinate, width, height, fontName, rotation, xMultiplication, yMultiplication and content should be specified"))
    ∧ ((putbmpNoFileName Heap.empty).1.GetMessage wire (putbmpNoFileName Heap.empty).2
        = some ⟨[], some (str "ParseError PUTBMP Command: xCoordinate, yCoordinate, width, height, fontName, rotation, xMultiplication, yMultiplication and content should be specified")⟩
      ∧ ¬ (str "fileName" <:+: str "ParseError PUTBMP Command: xCoordinate, yCoordinate, width, height, fontName, rotation, xMultiplication, yMultiplication and content should be specified"))
    ∧ ((putpcxNoFileName Heap.empty).1.GetMessage wire (putpcxNoFileName Heap.empty).2
        = some ⟨[], some (str "ParseError PUTPCX Command: xCoordinate, yCoordinate, width, height, fontName, rotation, xMultiplication, yMultiplication and content should be specified")⟩
      ∧ ¬ (str "fileName" <:+: str "ParseError PUTPCX Command: xCoordinate, yCoordinate, width, height, fontName, rotation, xMultiplication, yMultiplication and content should be specified"))
    ∧ ((DownloadDataCmd.Name (str "IMAGE1") Heap.empty).1.GetMessage wire
          (DownloadDataCmd.Name (str "IMAGE1") Heap.empty).2
        = some ⟨[], some (str "ParseError DOWNLOAD Command: name should be specified")⟩
      ∧ ¬ (str "data" <:+: str "ParseError DOWNLOAD Command: name should be specified")) := by
  refine ⟨⟨?_, ?_, ?_, ?_, ?_⟩, ⟨?_, ?_⟩, ⟨?_, ?_⟩, ⟨?_, ?_⟩⟩ <;> decide

/-- C8: for a Block with the nine required fields set and an allowed rotation,
`GetMessage` succeeds exactly when both multipliers are finite values between 1
and 10 inclusive.  An x-multiplier out of range gives the xMultiplication error,
and with the x-multiplier in range a y-multiplier out of range gives the
yMultiplication error, both naming the bounds 1 and 10.  Multipliers 1 and 10
succeed; 0.999 and 10.001 fail, for either multiplier. -/
theorem block_multiplier_bounds (K : Decls) (h : Heap) (t : BlockImpl)
    (px py pw ph pf pr pxm pym pc : Nat)
    (hx : t.xCoordinate = some px) (hy : t.yCoordinate = some py) (hw : t.width = some pw)
    (hh : t.height = some ph) (hf : t.fontName = some pf) (hr : t.rotation = some pr)
    (hxm : t.xMultiplication = some pxm) (hym : t.yMultiplication = some pym)
    (hc : t.content = some pc) (hrot : h.ints.read pr ∈ K.ROTATION_ANGLES) :
    ((∃ bytes, t.GetMessage K h = some ⟨bytes, none⟩) ↔
      ((∃ q : ℚ, h.floats.read pxm = Float64.finite q ∧ 1 ≤ q ∧ q ≤ 10) ∧
        (∃ q : ℚ, h.floats.read pym = Float64.finite q ∧ 1 ≤ q ∧ q ≤ 10)))
    ∧ ((¬ ∃ q : ℚ, h.floats.read pxm = Float64.finite q ∧ 1 ≤ q ∧ q ≤ 10) →
        t.GetMessage K h = some ⟨[], some
          (str "ParseError BLOCK Command: xMultiplication parameter must be between 1 and 10")⟩)
    ∧ ((∃ q : ℚ, h.floats.read pxm = Float64.finite q ∧ 1 ≤ q ∧ q ≤ 10) →
        (¬ ∃ q : ℚ, h.floats.read pym = Float64.finite q ∧ 1 ≤ q ∧ q ≤ 10) →
        t.GetMessage K h = some ⟨[], some
          (str "ParseError BLOCK Command: yMultiplication parameter must be between 1 and 10")⟩)
    ∧ (∀ a b : ℚ, (a = 1 ∨ a = 10) → (b = 1 ∨ b = 10) →
        h.floats.read pxm = Float64.finite a → h.floats.read pym = Float64.finite b →
        ∃ bytes, t.GetMessage K h = some ⟨bytes, none⟩)
    ∧ ((h.floats.read pxm = float_0_999 ∨ h.floats.read pxm = float_10_001) →
        t.GetMessage K h = some ⟨[], some
          (str "ParseError BLOCK Command: xMultiplication parameter must be between 1 and 10")⟩)
    ∧ ((∃ q : ℚ, h.floats.read pxm = Float64.finite q ∧ 1 ≤ q ∧ q ≤ 10) →
        (h.floats.read pym = float_0_999 ∨ h.floats.read pym = float_10_001) →
        t.GetMessage K h = some ⟨[], some
          (str "ParseError BLOCK Command: yMultiplication parameter must be between 1 and 10")⟩) := by
  have hfind : findIntInSlice K.ROTATION_ANGLES (h.ints.read pr) = true :=
    (findIntInSlice_iff _ _).mpr hrot
  have hget := block_GetMessage_of_required K h t px py pw ph pf pr pxm pym pc
    hx hy hw hh hf hr hxm hym hc
  simp only [hfind, Bool.true_eq_false, if_false] at hget
  have hxbad : (¬ ∃ q : ℚ, h.floats.read pxm = Float64.finite q ∧ 1 ≤ q ∧ q ≤ 10) →
      t.GetMessage K h = some ⟨[], some
        (str "ParseError BLOCK Command: xMultiplication parameter must be between 1 and 10")⟩ := by
    intro hbad
    have h2 : multiplierInRange (h.floats.read pxm) = false := by
      rw [← Bool.not_eq_true, multiplierInRange_iff]; exact hbad
    rw [hget, if_pos h2, xMultiplication_message]
  have hybad : (∃ q : ℚ, h.floats.read pxm = Float64.finite q ∧ 1 ≤ q ∧ q ≤ 10) →
      (¬ ∃ q : ℚ, h.floats.read pym = Float64.finite q ∧ 1 ≤ q ∧ q ≤ 10) →
      t.GetMessage K h = some ⟨[], some
        (str "ParseError BLOCK Command: yMultiplication parameter must be between 1 and 10")⟩ := by
    intro hgood hbad
    have h2 : multiplierInRange (h.floats.read pxm) = true :=
      (multiplierInRange_iff _).mpr hgood
    have h3 : multiplierInRange (h.floats.read pym) = false := by
      rw [← Bool.not_eq_true, multiplierInRange_iff]; exact hbad
    rw [hget, if_neg (by simp [h2]), if_pos h3, yMultiplication_message]
  have hgood : (∃ q : ℚ, h.floats.read pxm = Float64.finite q ∧ 1 ≤ q ∧ q ≤ 10) →
      (∃ q : ℚ, h.floats.read pym = Float64.finite q ∧ 1 ≤ q ∧ q ≤ 10) →
      ∃ bytes, t.GetMessage K h = some ⟨bytes, none⟩ := by
    intro hgx hgy
    have h2 : multiplierInRange (h.floats.read pxm) = true :=
      (multiplierInRange_iff _).mpr hgx
    have h3 : multiplierInRange (h.floats.read pym) = true :=
      (multiplierInRange_iff _).mpr hgy
    rw [hget, if_neg (by simp [h2]), if_neg (by simp [h3])]
    exact ⟨_, rfl⟩
  have hlo : ¬ ∃ q : ℚ, float_0_999 = Float64.finite q ∧ 1 ≤ q ∧ q ≤ 10 := by
    rintro ⟨q, hq, h1, -⟩
    simp only [float_0_999, Float64.finite.injEq] at hq
    rw [← hq] at h1
    norm_num at h1
  have hhi : ¬ ∃ q : ℚ, float_10_001 = Float64.finite q ∧ 1 ≤ q ∧ q ≤ 10 := by
    rintro ⟨q, hq, -, h1⟩
    simp only [float_10_001, Float64.finite.injEq] at hq
    rw [← hq] at h1
    norm_num at h1
  refine ⟨⟨?_, fun hb => hgood hb.1 hb.2⟩, hxbad, hybad, ?_, ?_, ?_⟩
  · rintro ⟨bytes, hb⟩
    by_contra hne
    by_cases hgx : ∃ q : ℚ, h.floats.read pxm = Float64.finite q ∧ 1 ≤ q ∧ q ≤ 10
    · have hgy : ¬ ∃ q : ℚ, h.floats.read pym = Float64.finite q ∧ 1 ≤ q ∧ q ≤ 10 :=
        fun hy1 => hne ⟨hgx, hy1⟩
      rw [hybad hgx hgy] at hb
      simp at hb
    · rw [hxbad hgx] at hb
      simp at hb
  · intro a b ha hb hxa hyb
    apply hgood
    · refine ⟨a, hxa, ?_⟩
      rcases ha with ha | ha <;> rw [ha] <;> norm_num
    · refine ⟨b, hyb, ?_⟩
      rcases hb with hb | hb <;> rw [hb] <;> norm_num
  · intro hx1
    apply hxbad
    rcases hx1 with hx1 | hx1 <;> rw [hx1]
    · exact hlo
    · exact hhi
  · intro hgx hy1
    apply hybad hgx
    rcases hy1 with hy1 | hy1 <;> rw [hy1]
    · exact hlo
    · exact hhi

/-- Witness for C8: the sample Block has its nine required fields set, rotation 90
is allowed, and with multipliers 1 and 10 it renders successfully. -/
theorem block_multiplier_bounds_witness :
    ∃ bytes, sampleBlock.1.GetMessage wire sampleBlock.2 = some ⟨bytes, none⟩ :=
  (block_multiplier_bounds wire sampleBlock.2 sampleBlock.1 0 1 2 3 0 4 0 1 1
    rfl rfl rfl rfl rfl rfl rfl rfl rfl (by decide)).2.2.2.1 1 10 (Or.inl rfl) (Or.inr rfl)
    rfl rfl

/-- C9: for a Block with the nine required fields set and both multipliers between
1 and 10, `GetMessage` succeeds when the rotation is in `ROTATION_ANGLES`; for any
other rotation, the table being non-empty, it fails with the message
`ParseError BLOCK Command: rotation must be one of [`, the allowed angles in decimal
in table order joined by single commas, then `]`.  (With an empty table the slice
`err_str[:len(err_str)-1]` is out of range and the call panics.) -/
theorem block_rotation_check (K : Decls) (h : Heap) (t : BlockImpl)
    (px py pw ph pf pr pxm pym pc : Nat)
    (hx : t.xCoordinate = some px) (hy : t.yCoordinate = some py) (hw : t.width = some pw)
    (hh : t.height = some ph) (hf : t.fontName = some pf) (hr : t.rotation = some pr)
    (hxm : t.xMultiplication = some pxm) (hym : t.yMultiplication = some pym)
    (hc : t.content = some pc)
    (hmx : ∃ q : ℚ, h.floats.read pxm = Float64.finite q ∧ 1 ≤ q ∧ q ≤ 10)
    (hmy : ∃ q : ℚ, h.floats.read pym = Float64.finite q ∧ 1 ≤ q ∧ q ≤ 10) :
    (h.ints.read pr ∈ K.ROTATION_ANGLES → ∃ bytes, t.GetMessage K h = some ⟨bytes, none⟩)
    ∧ (h.ints.read pr ∉ K.ROTATION_ANGLES → K.ROTATION_ANGLES ≠ [] →
        t.GetMessage K h = some ⟨[], some
          (str "ParseError BLOCK Command: rotation must be one of ["
            ++ (str ",").intercalate (K.ROTATION_ANGLES.map Itoa) ++ str "]")⟩)
    ∧ (K.ROTATION_ANGLES = [] → t.GetMessage K h = none) := by
  have hget := block_GetMessage_of_required K h t px py pw ph pf pr pxm pym pc
    hx hy hw hh hf hr hxm hym hc
  refine ⟨?_, ?_, ?_⟩
  · intro hin
    have h1 : findIntInSlice K.ROTATION_ANGLES (h.ints.read pr) = true :=
      (findIntInSlice_iff _ _).mpr hin
    have h2 : multiplierInRange (h.floats.read pxm) = true :=
      (multiplierInRange_iff _).mpr hmx
    have h3 : multiplierInRange (h.floats.read pym) = true :=
      (multiplierInRange_iff _).mpr hmy
    rw [hget, if_neg (by simp [h1]), if_neg (by simp [h2]), if_neg (by simp [h3])]
    exact ⟨_, rfl⟩
  · intro hout hne
    have h1 : findIntInSlice K.ROTATION_ANGLES (h.ints.read pr) = false := by
      rw [← Bool.not_eq_true, findIntInSlice_iff]; exact hout
    have hpre : str "ParseError BLOCK Command: " ++ str "rotation must be one of ["
        = str "ParseError BLOCK Command: rotation must be one of [" := by decide
    rw [hget, if_pos h1, sliceTo_rotationErrStr, if_neg hne, ← hpre]
    simp [List.append_assoc]
  · intro hnil
    have h1 : findIntInSlice K.ROTATION_ANGLES (h.ints.read pr) = false := by
      simp [findIntInSlice, hnil]
    rw [hget, if_pos h1, sliceTo_rotationErrStr, if_pos hnil]
    rfl

/-- Witness for C9: the tilted sample Block has its nine required fields set and
multipliers 1 and 10; its rotation 45 is not in the non-empty table, and the
error lists the four quarter turns. -/
theorem block_rotation_check_witness :
    sampleBlockTilted.1.GetMessage wire sampleBlockTilted.2 = some ⟨[], some
      (str "ParseError BLOCK Command: rotation must be one of [0,90,180,270]")⟩ := by
  have w := (block_rotation_check wire sampleBlockTilted.2 sampleBlockTilted.1
    0 1 2 3 0 4 0 1 1 rfl rfl rfl rfl rfl rfl rfl rfl rfl
    ⟨1, rfl, by norm_num⟩ ⟨10, rfl, by norm_num⟩).2.1 (by decide) (by decide)
  rw [w]
  decide

/-- C10: idempotent overwrite.  For each of the five command kinds, every builder
state `b` in every heap, every setter `S` and all values `v1`, `v2`, the command
`b.S(v1).S(v2)` renders to the same result, bytes or error, as `b.S(v2)`; for
`Content` of Block this includes the quote flag. -/
theorem setter_overwrite (K : Decls) (h : Heap) :
    (∀ (b : DownloadDataImpl) (v1 v2 : DownloadDataStorage),
      DownloadDataImpl.render K ((b.Storage v1 h).1.Storage v2 (b.Storage v1 h).2)
        = DownloadDataImpl.render K (b.Storage v2 h))
    ∧ (∀ (b : DownloadDataImpl) (v1 v2 : GoString),
      DownloadDataImpl.render K ((b.Name v1 h).1.Name v2 (b.Name v1 h).2)
        = DownloadDataImpl.render K (b.Name v2 h))
    ∧ (∀ (b : DownloadDataImpl) (v1 v2 : List Byte),
      DownloadDataImpl.render K ((b.Data v1 h).1.Data v2 (b.Data v1 h).2)
        = DownloadDataImpl.render K (b.Data v2 h))
    ∧ (∀ (b : BitmapImpl) (v1 v2 : Int),
      BitmapImpl.render K ((b.XCoordinate v1 h).1.XCoordinate v2 (b.XCoordinate v1 h).2)
        = BitmapImpl.render K (b.XCoordinate v2 h))
    ∧ (∀ (b : BitmapImpl) (v1 v2 : Int),
      BitmapImpl.render K ((b.YCoordinate v1 h).1.YCoordinate v2 (b.YCoordinate v1 h).2)
        = BitmapImpl.render K (b.YCoordinate v2 h))
    ∧ (∀ (b : BitmapImpl) (v1 v2 : Int),
      BitmapImpl.render K ((b.Width v1 h).1.Width v2 (b.Width v1 h).2)
        = BitmapImpl.render K (b.Width v2 h))
    ∧ (∀ (b : BitmapImpl) (v1 v2 : Int),
      BitmapImpl.render K ((b.Height v1 h).1.Height v2 (b.Height v1 h).2)
        = BitmapImpl.render K (b.Height v2 h))
    ∧ (∀ (b : BitmapImpl) (v1 v2 : BitmapMode),
      BitmapImpl.render K ((b.Mode v1 h).1.Mode v2 (b.Mode v1 h).2)
        = BitmapImpl.render K (b.Mode v2 h))
    ∧ (∀ (b : BitmapImpl) (v1 v2 : List Byte),
      BitmapImpl.render K ((b.BitmapData v1 h).1.BitmapData v2 (b.BitmapData v1 h).2)
        = BitmapImpl.render K (b.BitmapData v2 h))
    ∧ (∀ (b : BlockImpl) (v1 v2 : Int),
      BlockImpl.render K ((b.XCoordinate v1 h).1.XCoordinate v2 (b.XCoordinate v1 h).2)
        = BlockImpl.render K (b.XCoordinate v2 h))
    ∧ (∀ (b : BlockImpl) (v1 v2 : Int),
      BlockImpl.render K ((b.YCoordinate v1 h).1.YCoordinate v2 (b.YCoordinate v1 h).2)
        = BlockImpl.render K (b.YCoordinate v2 h))
    ∧ (∀ (b : BlockImpl) (v1 v2 : Int),
      BlockImpl.render K ((b.Width v1 h).1.Width v2 (b.Width v1 h).2)
        = BlockImpl.render K (b.Width v2 h))
    ∧ (∀ (b : BlockImpl) (v1 v2 : Int),
      BlockImpl.render K ((b.Height v1 h).1.Height v2 (b.Height v1 h).2)
        = BlockImpl.render K (b.Height v2 h))
    ∧ (∀ (b : BlockImpl) (v1 v2 : GoString),
      BlockImpl.render K ((b.FontName v1 h).1.FontName v2 (b.FontName v1 h).2)
        = BlockImpl.render K (b.FontName v2 h))
    ∧ (∀ (b : BlockImpl) (v1 v2 : Int),
      BlockImpl.render K ((b.Rotation v1 h).1.Rotation v2 (b.Rotation v1 h).2)
        = BlockImpl.render K (b.Rotation v2 h))
    ∧ (∀ (b : BlockImpl) (v1 v2 : Float64),
      BlockImpl.render K ((b.XMultiplier v1 h).1.XMultiplier v2 (b.XMultiplier v1 h).2)
        = BlockImpl.render K (b.XMultiplier v2 h))
    ∧ (∀ (b : BlockImpl) (v1 v2 : Float64),
      BlockImpl.render K ((b.YMultiplier v1 h).1.YMultiplier v2 (b.YMultiplier v1 h).2)
        = BlockImpl.render K (b.YMultiplier v2 h))
    ∧ (∀ (b : BlockImpl) (v1 v2 : Int),
      BlockImpl.render K ((b.Space v1 h).1.Space v2 (b.Space v1 h).2)
        = BlockImpl.render K (b.Space v2 h))
    ∧ (∀ (b : BlockImpl) (v1 v2 : BlockAlignment),
      BlockImpl.render K ((b.Alignment v1 h).1.Alignment v2 (b.Alignment v1 h).2)
        = BlockImpl.render K (b.Alignment v2 h))
    ∧ (∀ (b : BlockImpl) (v1 v2 : BlockFit),
      BlockImpl.render K ((b.Fit v1 h).1.Fit v2 (b.Fit v1 h).2)
        = BlockImpl.render K (b.Fit v2 h))
    ∧ (∀ (b : BlockImpl) (c1 c2 : GoString) (q1 q2 : Bool),
      BlockImpl.render K ((b.Content c1 q1 h).1.Content c2 q2 (b.Content c1 q1 h).2)
        = BlockImpl.render K (b.Content c2 q2 h))
    ∧ (∀ (b : PutbmpImpl) (v1 v2 : Int),
      PutbmpImpl.render K ((b.XCoordinate v1 h).1.XCoordinate v2 (b.XCoordinate v1 h).2)
        = PutbmpImpl.render K (b.XCoordinate v2 h))
    ∧ (∀ (b : PutbmpImpl) (v1 v2 : Int),
      PutbmpImpl.render K ((b.YCoordinate v1 h).1.YCoordinate v2 (b.YCoordinate v1 h).2)
        = PutbmpImpl.render K (b.YCoordinate v2 h))
    ∧ (∀ (b : PutbmpImpl) (v1 v2 : GoString),
      PutbmpImpl.render K ((b.FileName v1 h).1.FileName v2 (b.FileName v1 h).2)
        = PutbmpImpl.render K (b.FileName v2 h))
    ∧ (∀ (b : PutbmpImpl) (v1 v2 : PutbmpBpp),
      PutbmpImpl.render K ((b.Bpp v1 h).1.Bpp v2 (b.Bpp v1 h).2)
        = PutbmpImpl.render K (b.Bpp v2 h))
    ∧ (∀ (b : PutbmpImpl) (v1 v2 : Int),
      PutbmpImpl.render K ((b.Contrast v1 h).1.Contrast v2 (b.Contrast v1 h).2)
        = PutbmpImpl.render K (b.Contrast v2 h))
    ∧ (∀ (b : PutpcxImpl) (v1 v2 : Int),
      PutpcxImpl.render K ((b.XCoordinate v1 h).1.XCoordinate v2 (b.XCoordinate v1 h).2)
        = PutpcxImpl.render K (b.XCoordinate v2 h))
    ∧ (∀ (b : PutpcxImpl) (v1 v2 : Int),
      PutpcxImpl.render K ((b.YCoordinate v1 h).1.YCoordinate v2 (b.YCoordinate v1 h).2)
        = PutpcxImpl.render K (b.YCoordinate v2 h))
    ∧ (∀ (b : PutpcxImpl) (v1 v2 : GoString),
      PutpcxImpl.render K ((b.FileName v1 h).1.FileName v2 (b.FileName v1 h).2)
        = PutpcxImpl.render K (b.FileName v2 h)) := by
  refine ⟨?_, ?_, ?_, ?_, ?_, ?_, ?_, ?_, ?_, ?_, ?_, ?_, ?_, ?_, ?_, ?_, ?_, ?_, ?_, ?_, ?_, ?_, ?_, ?_, ?_, ?_, ?_, ?_, ?_⟩ <;> intros <;>
    simp only [DownloadDataImpl.Storage, DownloadDataImpl.Name, DownloadDataImpl.Data, BitmapImpl.XCoordinate, BitmapImpl.YCoordinate, BitmapImpl.Width, BitmapImpl.Height, BitmapImpl.Mode, BitmapImpl.BitmapData, BlockImpl.XCoordinate, BlockImpl.YCoordinate, BlockImpl.Width, BlockImpl.Height, BlockImpl.FontName, BlockImpl.Rotation, BlockImpl.XMultiplier, BlockImpl.YMultiplier, BlockImpl.Space, BlockImpl.Alignment, BlockImpl.Fit, PutbmpImpl.XCoordinate, PutbmpImpl.YCoordinate, PutbmpImpl.FileName, PutbmpImpl.Bpp, PutbmpImpl.Contrast, PutpcxImpl.XCoordinate, PutpcxImpl.YCoordinate, PutpcxImpl.FileName, BlockImpl.Content,
      Store.assign_twice]

/-- C12, counterexample: Bitmap commands with all six fields set and mode 7, or
mode -1, neither of them one of overwrite, OR, XOR, render successfully; no
validation error is returned. -/
theorem bitmap_mode_outside_enum_renders :
    ((7 : BitmapMode) ∉ [BITMAP_MODE_OVERWRITE, BITMAP_MODE_OR, BITMAP_MODE_XOR]
      ∧ BitmapImpl.render wire (bitmapChain 0 0 100 50 7 [0xFF] Heap.empty)
          = some ⟨str "BITMAP 0,0,100,50,7," ++ [0xFF] ++ [13, 10], none⟩)
    ∧ ((-1 : BitmapMode) ∉ [BITMAP_MODE_OVERWRITE, BITMAP_MODE_OR, BITMAP_MODE_XOR]
      ∧ BitmapImpl.render wire (bitmapChain 0 0 100 50 (-1) [0xFF] Heap.empty)
          = some ⟨str "BITMAP 0,0,100,50,-1," ++ [0xFF] ++ [13, 10], none⟩) := by
  refine ⟨⟨?_, ?_⟩, ⟨?_, ?_⟩⟩ <;> decide

/-- C12, amended: Bitmap render does not validate the mode.  For a Bitmap with all
six fields set, `GetMessage` returns no error, and for every integer `m` the
command obtained by `Mode(m)` renders successfully with the decimal text of `m` in
the mode position, whether or not `m` is one of overwrite, OR, XOR. -/
theorem bitmap_mode_not_validated (K : Decls) (h : Heap) (t : BitmapImpl)
    (px py pw ph pm pd : Nat)
    (hx : t.xCoordinate = some px) (hy : t.yCoordinate = some py) (hw : t.width = some pw)
    (hh : t.height = some ph) (hm : t.mode = some pm) (hd : t.bitmapData = some pd) :
    (∃ bytes, t.GetMessage K h = some ⟨bytes, none⟩)
    ∧ (∀ m : BitmapMode,
        BitmapImpl.render K (t.Mode m h)
          = some ⟨str "BITMAP" ++ K.EMPTY_SPACE ++ Itoa ((t.Mode m h).2.ints.read px)
              ++ K.VALUE_SEPARATOR ++ Itoa ((t.Mode m h).2.ints.read py)
              ++ K.VALUE_SEPARATOR ++ Itoa ((t.Mode m h).2.ints.read pw)
              ++ K.VALUE_SEPARATOR ++ Itoa ((t.Mode m h).2.ints.read ph)
              ++ K.VALUE_SEPARATOR ++ Itoa m ++ K.VALUE_SEPARATOR
              ++ h.byteSlices.read pd ++ K.LINE_ENDING_BYTES, none⟩) := by
  refine ⟨⟨_, bitmap_GetMessage_of_required K h t px py pw ph pm pd hx hy hw hh hm hd⟩, ?_⟩
  intro m
  have hg := bitmap_GetMessage_of_required K (t.Mode m h).2 (t.Mode m h).1 px py pw ph pm pd
    (by simp [BitmapImpl.Mode, hx]) (by simp [BitmapImpl.Mode, hy])
    (by simp [BitmapImpl.Mode, hw]) (by simp [BitmapImpl.Mode, hh])
    (by simp [BitmapImpl.Mode, hm, Store.assign]) (by simp [BitmapImpl.Mode, hd])
  have hr : (t.Mode m h).2.ints.read pm = m := by
    simp [BitmapImpl.Mode, hm, Store.assign]
  have hb : (t.Mode m h).2.byteSlices = h.byteSlices := by
    simp [BitmapImpl.Mode]
  rw [BitmapImpl.render, hg, hr, hb]
  rfl

/-- Witness for C12: the configured sample Bitmap has its six fields set; setting
its mode to -1 gives a command that renders `BITMAP 0,0,100,50,-1,` and the
payload. -/
theorem bitmap_mode_not_validated_witness :
    BitmapImpl.render wire (sampleBitmap.Mode (-1) sampleHeap)
      = some ⟨str "BITMAP 0,0,100,50,-1," ++ [0xFF] ++ [13, 10], none⟩ := by
  have w := (bitmap_mode_not_validated wire sampleHeap sampleBitmap 0 1 2 3 4 0
    rfl rfl rfl rfl rfl rfl).2 (-1)
  rw [w]
  decide

/-- C13, counterexample: a Put-bitmap with x, y and a non-empty file name set and
bits-per-pixel 3, which is neither 1 nor 8, renders successfully. -/
theorem putbmp_bpp_three_renders :
    (3 : PutbmpBpp) ∉ [PUTBMP_BPP_1BIT, PUTBMP_BPP_8BIT]
    ∧ PutbmpImpl.render wire
        ((putbmpChain 0 0 (str "LOGO.BMP") Heap.empty).1.Bpp 3
          (putbmpChain 0 0 (str "LOGO.BMP") Heap.empty).2)
      = some ⟨str "PUTBMP 0,0,\"LOGO.BMP\",3" ++ [13, 10], none⟩ := by
  refine ⟨?_, ?_⟩ <;> decide

/-- C13, amended: Put-bitmap render does not validate bits-per-pixel.  For a
Put-bitmap with x, y and a non-empty file name set, `GetMessage` returns no error
whatever bpp and contrast hold.  For every integer `b` the command obtained by
`Bpp(b)` renders successfully with the decimal text of `b` right after the quoted
file name, and for every integer `c` the command obtained by `Contrast(c)` renders
successfully with the decimal text of `c` last before the terminator.  For the
chain of the setters the bytes are `PUTBMP`, x, y, the quoted name, `b` and `c`. -/
theorem putbmp_bpp_not_validated (K : Decls) (h : Heap) (t : PutbmpImpl) (px py pf : Nat)
    (hx : t.xCoordinate = some px) (hy : t.yCoordinate = some py) (hf : t.fileName = some pf)
    (hne : h.strings.read pf ≠ []) :
    t.GetMessage K h
      = some ⟨str "PUTBMP" ++ K.EMPTY_SPACE ++ Itoa (h.ints.read px) ++ K.VALUE_SEPARATOR
          ++ Itoa (h.ints.read py) ++ K.VALUE_SEPARATOR ++ K.DOUBLE_QUOTE
          ++ h.strings.read pf ++ K.DOUBLE_QUOTE
          ++ (match t.bpp with
              | some p => K.VALUE_SEPARATOR ++ Itoa (h.ints.read p)
              | none => [])
          ++ (match t.contrast with
              | some p => K.VALUE_SEPARATOR ++ Itoa (h.ints.read p)
              | none => [])
          ++ K.LINE_ENDING_BYTES, none⟩
    ∧ (∀ b : PutbmpBpp,
        PutbmpImpl.render K (t.Bpp b h)
          = some ⟨str "PUTBMP" ++ K.EMPTY_SPACE ++ Itoa ((t.Bpp b h).2.ints.read px)
              ++ K.VALUE_SEPARATOR ++ Itoa ((t.Bpp b h).2.ints.read py)
              ++ K.VALUE_SEPARATOR ++ K.DOUBLE_QUOTE ++ h.strings.read pf ++ K.DOUBLE_QUOTE
              ++ K.VALUE_SEPARATOR ++ Itoa b
              ++ (match t.contrast with
                  | some p => K.VALUE_SEPARATOR ++ Itoa ((t.Bpp b h).2.ints.read p)
                  | none => [])
              ++ K.LINE_ENDING_BYTES, none⟩)
    ∧ (∀ c : Int,
        PutbmpImpl.render K (t.Contrast c h)
          = some ⟨str "PUTBMP" ++ K.EMPTY_SPACE ++ Itoa ((t.Contrast c h).2.ints.read px)
              ++ K.VALUE_SEPARATOR ++ Itoa ((t.Contrast c h).2.ints.read py)
              ++ K.VALUE_SEPARATOR ++ K.DOUBLE_QUOTE ++ h.strings.read pf ++ K.DOUBLE_QUOTE
              ++ (match t.bpp with
                  | some p => K.VALUE_SEPARATOR ++ Itoa ((t.Contrast c h).2.ints.read p)
                  | none => [])
              ++ K.VALUE_SEPARATOR ++ Itoa c
              ++ K.LINE_ENDING_BYTES, none⟩)
    ∧ (∀ (x y : Int) (filename : GoString) (b : PutbmpBpp) (c : Int), filename ≠ [] →
        PutbmpImpl.render K (putbmpWithBpp x y filename b h)
          = some ⟨str "PUTBMP" ++ K.EMPTY_SPACE ++ Itoa x ++ K.VALUE_SEPARATOR ++ Itoa y
              ++ K.VALUE_SEPARATOR ++ K.DOUBLE_QUOTE ++ filename ++ K.DOUBLE_QUOTE
              ++ K.VALUE_SEPARATOR ++ Itoa b ++ K.LINE_ENDING_BYTES, none⟩
        ∧ PutbmpImpl.render K (putbmpWithBoth x y filename b c h)
          = some ⟨str "PUTBMP" ++ K.EMPTY_SPACE ++ Itoa x ++ K.VALUE_SEPARATOR ++ Itoa y
              ++ K.VALUE_SEPARATOR ++ K.DOUBLE_QUOTE ++ filename ++ K.DOUBLE_QUOTE
              ++ K.VALUE_SEPARATOR ++ Itoa b ++ K.VALUE_SEPARATOR ++ Itoa c
              ++ K.LINE_ENDING_BYTES, none⟩) := by
  refine ⟨putbmp_GetMessage_of_required K h t px py pf hx hy hf hne, ?_, ?_, ?_⟩
  · intro b
    have hg := putbmp_GetMessage_of_required K (t.Bpp b h).2 (t.Bpp b h).1 px py pf
      (by simp [PutbmpImpl.Bpp, hx]) (by simp [PutbmpImpl.Bpp, hy])
      (by simp [PutbmpImpl.Bpp, hf]) (by simpa [PutbmpImpl.Bpp] using hne)
    have hb : (t.Bpp b h).1.bpp = some (h.ints.assign t.bpp 0 b).1 := by
      simp [PutbmpImpl.Bpp]
    have hc : (t.Bpp b h).1.contrast = t.contrast := by
      simp [PutbmpImpl.Bpp]
    have hr : (t.Bpp b h).2.ints.read (h.ints.assign t.bpp 0 b).1 = b := by
      simp [PutbmpImpl.Bpp]
    have hs : (t.Bpp b h).2.strings = h.strings := by
      simp [PutbmpImpl.Bpp]
    rw [PutbmpImpl.render, hg, hb, hc, hs]
    cases t.contrast <;> simp [hr, PUTBMP_NAME, List.append_assoc]
  · intro c
    have hg := putbmp_GetMessage_of_required K (t.Contrast c h).2 (t.Contrast c h).1 px py pf
      (by simp [PutbmpImpl.Contrast, hx]) (by simp [PutbmpImpl.Contrast, hy])
      (by simp [PutbmpImpl.Contrast, hf]) (by simpa [PutbmpImpl.Contrast] using hne)
    have hb : (t.Contrast c h).1.bpp = t.bpp := by
      simp [PutbmpImpl.Contrast]
    have hc : (t.Contrast c h).1.contrast = some (h.ints.assign t.contrast 0 c).1 := by
      simp [PutbmpImpl.Contrast]
    have hr : (t.Contrast c h).2.ints.read (h.ints.assign t.contrast 0 c).1 = c := by
      simp [PutbmpImpl.Contrast]
    have hs : (t.Contrast c h).2.strings = h.strings := by
      simp [PutbmpImpl.Contrast]
    rw [PutbmpImpl.render, hg, hb, hc, hs]
    cases t.bpp <;> simp [hr, PUTBMP_NAME, List.append_assoc]
  · intro x y filename b c hnm
    constructor
    · simp [PutbmpImpl.render, putbmpWithBpp, putbmpChain, PutbmpImpl.GetMessage,
        PutbmpImpl.XCoordinate, PutbmpImpl.YCoordinate, PutbmpImpl.FileName, PutbmpImpl.Bpp,
        Putbmp, PUTBMP_NAME, Store.deref, Store.assign, Store.alloc, Store.write, Store.read,
        Function.update, Nat.add_assoc, hnm]
    · simp [PutbmpImpl.render, putbmpWithBoth, putbmpWithBpp, putbmpChain,
        PutbmpImpl.GetMessage, PutbmpImpl.XCoordinate, PutbmpImpl.YCoordinate,
        PutbmpImpl.FileName, PutbmpImpl.Bpp, PutbmpImpl.Contrast, Putbmp, PUTBMP_NAME,
        Store.deref, Store.assign, Store.alloc, Store.write, Store.read, Function.update,
        Nat.add_assoc, hnm]

/-- Witness for C13: the chain setting x, y and the file name `LOGO.BMP` has the
three fields set and a non-empty name; `Bpp(5)` on it renders
`PUTBMP 0,0,"LOGO.BMP",5`, and in the same heap the chain with `Bpp(5)` and
`Contrast(7)` renders `PUTBMP 0,0,"LOGO.BMP",5,7`. -/
theorem putbmp_bpp_not_validated_witness :
    PutbmpImpl.render wire
        ((putbmpChain 0 0 (str "LOGO.BMP") Heap.empty).1.Bpp 5
          (putbmpChain 0 0 (str "LOGO.BMP") Heap.empty).2)
      = some ⟨str "PUTBMP 0,0,\"LOGO.BMP\",5" ++ [13, 10], none⟩
    ∧ PutbmpImpl.render wire
        (putbmpWithBoth 0 0 (str "LOGO.BMP") 5 7
          (putbmpChain 0 0 (str "LOGO.BMP") Heap.empty).2)
      = some ⟨str "PUTBMP 0,0,\"LOGO.BMP\",5,7" ++ [13, 10], none⟩ := by
  have w := putbmp_bpp_not_validated wire (putbmpChain 0 0 (str "LOGO.BMP") Heap.empty).2
    (putbmpChain 0 0 (str "LOGO.BMP") Heap.empty).1 0 1 0 rfl rfl rfl (by decide)
  constructor
  · rw [w.2.1 5]
    decide
  · rw [(w.2.2.2 0 0 (str "LOGO.BMP") 5 7 (by decide)).2]
    decide

/-- C14: a valid Block (nine required fields set, rotation in the table, both
multipliers between 1 and 10) renders to `BLOCK`, the space token, x, y, width and
height in decimal, the quoted font name, the rotation, the two formatted
multipliers, then a separator and the decimal value for each of space, alignment
and fit that is set, in that order, then a separator, the content, wrapped in
double quotes exactly when the quote flag is true, and the terminator.  For the
chain of the nine setters the values are the arguments and the flag is the one
passed to `Content`. -/
theorem block_render (K : Decls) (h : Heap) (t : BlockImpl)
    (px py pw ph pf pr pxm pym pc : Nat)
    (hx : t.xCoordinate = some px) (hy : t.yCoordinate = some py) (hw : t.width = some pw)
    (hh : t.height = some ph) (hf : t.fontName = some pf) (hr : t.rotation = some pr)
    (hxm : t.xMultiplication = some pxm) (hym : t.yMultiplication = some pym)
    (hc : t.content = some pc) (hrot : h.ints.read pr ∈ K.ROTATION_ANGLES)
    (hmx : ∃ q : ℚ, h.floats.read pxm = Float64.finite q ∧ 1 ≤ q ∧ q ≤ 10)
    (hmy : ∃ q : ℚ, h.floats.read pym = Float64.finite q ∧ 1 ≤ q ∧ q ≤ 10) :
    t.GetMessage K h
      = some ⟨str "BLOCK" ++ K.EMPTY_SPACE ++ Itoa (h.ints.read px) ++ K.VALUE_SEPARATOR
          ++ Itoa (h.ints.read py) ++ K.VALUE_SEPARATOR ++ Itoa (h.ints.read pw)
          ++ K.VALUE_SEPARATOR ++ Itoa (h.ints.read ph) ++ K.VALUE_SEPARATOR
          ++ K.DOUBLE_QUOTE ++ h.strings.read pf ++ K.DOUBLE_QUOTE ++ K.VALUE_SEPARATOR
          ++ Itoa (h.ints.read pr) ++ K.VALUE_SEPARATOR
          ++ K.formatFloatWithUnits (h.floats.read pxm) false ++ K.VALUE_SEPARATOR
          ++ K.formatFloatWithUnits (h.floats.read pym) false
          ++ (match t.space with
              | some p => K.VALUE_SEPARATOR ++ Itoa (h.ints.read p)
              | none => [])
          ++ (match t.alignment with
              | some p => K.VALUE_SEPARATOR ++ Itoa (h.ints.read p)
              | none => [])
          ++ (match t.fit with
              | some p => K.VALUE_SEPARATOR ++ Itoa (h.ints.read p)
              | none => [])
          ++ K.VALUE_SEPARATOR
          ++ (if t.contentQuote then K.DOUBLE_QUOTE ++ h.strings.read pc ++ K.DOUBLE_QUOTE
              else h.strings.read pc)
          ++ K.LINE_ENDING_BYTES, none⟩
    ∧ (∀ (x y width height : Int) (font : GoString) (rotation : Int) (xm ym : Float64)
        (content : GoString) (quote : Bool), rotation ∈ K.ROTATION_ANGLES →
        (∃ q : ℚ, xm = Float64.finite q ∧ 1 ≤ q ∧ q ≤ 10) →
        (∃ q : ℚ, ym = Float64.finite q ∧ 1 ≤ q ∧ q ≤ 10) →
        BlockImpl.render K (blockChain x y width height font rotation xm ym content quote h)
          = some ⟨str "BLOCK" ++ K.EMPTY_SPACE ++ Itoa x ++ K.VALUE_SEPARATOR
              ++ Itoa y ++ K.VALUE_SEPARATOR ++ Itoa width ++ K.VALUE_SEPARATOR
              ++ Itoa height ++ K.VALUE_SEPARATOR ++ K.DOUBLE_QUOTE ++ font
              ++ K.DOUBLE_QUOTE ++ K.VALUE_SEPARATOR ++ Itoa rotation ++ K.VALUE_SEPARATOR
              ++ K.formatFloatWithUnits xm false ++ K.VALUE_SEPARATOR
              ++ K.formatFloatWithUnits ym false ++ K.VALUE_SEPARATOR
              ++ (if quote then K.DOUBLE_QUOTE ++ content ++ K.DOUBLE_QUOTE else content)
              ++ K.LINE_ENDING_BYTES, none⟩) := by
  have gen : ∀ (h1 : Heap) (t1 : BlockImpl) (qx qy qw qh qf qr qxm qym qc : Nat),
      t1.xCoordinate = some qx → t1.yCoordinate = some qy → t1.width = some qw →
      t1.height = some qh → t1.fontName = some qf → t1.rotation = some qr →
      t1.xMultiplication = some qxm → t1.yMultiplication = some qym → t1.content = some qc →
      h1.ints.read qr ∈ K.ROTATION_ANGLES →
      (∃ q : ℚ, h1.floats.read qxm = Float64.finite q ∧ 1 ≤ q ∧ q ≤ 10) →
      (∃ q : ℚ, h1.floats.read qym = Float64.finite q ∧ 1 ≤ q ∧ q ≤ 10) →
      t1.GetMessage K h1
        = some ⟨str "BLOCK" ++ K.EMPTY_SPACE ++ Itoa (h1.ints.read qx) ++ K.VALUE_SEPARATOR
            ++ Itoa (h1.ints.read qy) ++ K.VALUE_SEPARATOR ++ Itoa (h1.ints.read qw)
            ++ K.VALUE_SEPARATOR ++ Itoa (h1.ints.read qh) ++ K.VALUE_SEPARATOR
            ++ K.DOUBLE_QUOTE ++ h1.strings.read qf ++ K.DOUBLE_QUOTE ++ K.VALUE_SEPARATOR
            ++ Itoa (h1.ints.read qr) ++ K.VALUE_SEPARATOR
            ++ K.formatFloatWithUnits (h1.floats.read qxm) false ++ K.VALUE_SEPARATOR
            ++ K.formatFloatWithUnits (h1.floats.read qym) false
            ++ (match t1.space with
                | some p => K.VALUE_SEPARATOR ++ Itoa (h1.ints.read p)
                | none => [])
            ++ (match t1.alignment with
                | some p => K.VALUE_SEPARATOR ++ Itoa (h1.ints.read p)
                | none => [])
            ++ (match t1.fit with
                | some p => K.VALUE_SEPARATOR ++ Itoa (h1.ints.read p)
                | none => [])
            ++ K.VALUE_SEPARATOR
            ++ (if t1.contentQuote then
                  K.DOUBLE_QUOTE ++ h1.strings.read qc ++ K.DOUBLE_QUOTE
                else h1.strings.read qc)
            ++ K.LINE_ENDING_BYTES, none⟩ := by
    intro h1 t1 qx qy qw qh qf qr qxm qym qc e1 e2 e3 e4 e5 e6 e7 e8 e9 hin hgx hgy
    have f1 : findIntInSlice K.ROTATION_ANGLES (h1.ints.read qr) = true :=
      (findIntInSlice_iff _ _).mpr hin
    have f2 : multiplierInRange (h1.floats.read qxm) = true :=
      (multiplierInRange_iff _).mpr hgx
    have f3 : multiplierInRange (h1.floats.read qym) = true :=
      (multiplierInRange_iff _).mpr hgy
    rw [block_GetMessage_of_required K h1 t1 qx qy qw qh qf qr qxm qym qc
      e1 e2 e3 e4 e5 e6 e7 e8 e9, if_neg (by simp [f1]), if_neg (by simp [f2]),
      if_neg (by simp [f3])]
    cases t1.contentQuote <;> cases t1.space <;> cases t1.alignment <;> cases t1.fit <;>
      simp [BLOCK_NAME, List.append_assoc]
  refine ⟨gen h t px py pw ph pf pr pxm pym pc hx hy hw hh hf hr hxm hym hc hrot hmx hmy, ?_⟩
  intro x y width height font rotation xm ym content quote hin hgx hgy
  obtain ⟨r1, r2, r3, r4, r5, r6, r7, r8, r9, -⟩ :=
    blockChain_reads x y width height font rotation xm ym content quote h
  have hfld := blockChain_fields x y width height font rotation xm ym content quote h
  have hg := gen (blockChain x y width height font rotation xm ym content quote h).2
    (blockChain x y width height font rotation xm ym content quote h).1
    h.ints.next (h.ints.next + 1) (h.ints.next + 2) (h.ints.next + 3) h.strings.next
    (h.ints.next + 4) h.floats.next (h.floats.next + 1) (h.strings.next + 1)
    (by rw [hfld]) (by rw [hfld]) (by rw [hfld]) (by rw [hfld]) (by rw [hfld])
    (by rw [hfld]) (by rw [hfld]) (by rw [hfld]) (by rw [hfld])
    (by rw [r5]; exact hin) (by rw [r8]; exact hgx) (by rw [r9]; exact hgy)
  rw [BlockImpl.render, hg, r1, r2, r3, r4, r5, r6, r7, r8, r9, hfld]
  simp

/-- Witness for C14: the sample Block (rotation 90, multipliers 1 and 10, quoted
content) is valid and renders `BLOCK 10,20,300,40,"3",90,1,10,"Hello"`. -/
theorem block_render_witness :
    sampleBlock.1.GetMessage wire sampleBlock.2
      = some ⟨str "BLOCK 10,20,300,40,\"3\",90,1,10,\"Hello\"" ++ [13, 10], none⟩ := by
  have w := (block_render wire sampleBlock.2 sampleBlock.1 0 1 2 3 0 4 0 1 1
    rfl rfl rfl rfl rfl rfl rfl rfl rfl (by decide) ⟨1, rfl, by norm_num⟩
    ⟨10, rfl, by norm_num⟩).1
  rw [w]
  decide

/-- C15: Put-bitmap and Put-PCX render successfully exactly when x and y are set
and the file name is set and non-empty; the result is then the command name
(`PUTBMP` or `PUTPCX`), the space token, decimal x and y and the quoted file name
joined by separators, for Put-bitmap a separator and the decimal bpp when bpp is
set and a separator and the decimal contrast when contrast is set, in that order,
and the terminator.  No payload bytes occur. -/
theorem putbmp_putpcx_render (K : Decls) (h : Heap) :
    (∀ t : PutbmpImpl,
      ((∃ bytes, t.GetMessage K h = some ⟨bytes, none⟩) ↔
        (∃ px py pf, t.xCoordinate = some px ∧ t.yCoordinate = some py ∧
          t.fileName = some pf ∧ h.strings.read pf ≠ []))
      ∧ (∀ px py pf, t.xCoordinate = some px → t.yCoordinate = some py →
          t.fileName = some pf → h.strings.read pf ≠ [] →
          t.GetMessage K h
            = some ⟨str "PUTBMP" ++ K.EMPTY_SPACE ++ Itoa (h.ints.read px)
                ++ K.VALUE_SEPARATOR ++ Itoa (h.ints.read py) ++ K.VALUE_SEPARATOR
                ++ K.DOUBLE_QUOTE ++ h.strings.read pf ++ K.DOUBLE_QUOTE
                ++ (match t.bpp with
                    | some p => K.VALUE_SEPARATOR ++ Itoa (h.ints.read p)
                    | none => [])
                ++ (match t.contrast with
                    | some p => K.VALUE_SEPARATOR ++ Itoa (h.ints.read p)
                    | none => [])
                ++ K.LINE_ENDING_BYTES, none⟩))
    ∧ (∀ t : PutpcxImpl,
      ((∃ bytes, t.GetMessage K h = some ⟨bytes, none⟩) ↔
        (∃ px py pf, t.xCoordinate = some px ∧ t.yCoordinate = some py ∧
          t.fileName = some pf ∧ h.strings.read pf ≠ []))
      ∧ (∀ px py pf, t.xCoordinate = some px → t.yCoordinate = some py →
          t.fileName = some pf → h.strings.read pf ≠ [] →
          t.GetMessage K h
            = some ⟨str "PUTPCX" ++ K.EMPTY_SPACE ++ Itoa (h.ints.read px)
                ++ K.VALUE_SEPARATOR ++ Itoa (h.ints.read py) ++ K.VALUE_SEPARATOR
                ++ K.DOUBLE_QUOTE ++ h.strings.read pf ++ K.DOUBLE_QUOTE
                ++ K.LINE_ENDING_BYTES, none⟩)) := by
  constructor
  · intro t
    refine ⟨⟨?_, ?_⟩, ?_⟩
    · rintro ⟨bytes, hb⟩
      cases hx : t.xCoordinate with
      | none => simp [PutbmpImpl.GetMessage, hx] at hb
      | some px =>
        cases hy : t.yCoordinate with
        | none => simp [PutbmpImpl.GetMessage, hy] at hb
        | some py =>
          cases hf : t.fileName with
          | none => simp [PutbmpImpl.GetMessage, hf] at hb
          | some pf =>
            refine ⟨px, py, pf, rfl, rfl, rfl, ?_⟩
            intro hemp
            simp [PutbmpImpl.GetMessage, hf, hemp] at hb
    · rintro ⟨px, py, pf, hx, hy, hf, hne⟩
      exact ⟨_, putbmp_GetMessage_of_required K h t px py pf hx hy hf hne⟩
    · intro px py pf hx hy hf hne
      exact putbmp_GetMessage_of_required K h t px py pf hx hy hf hne
  · intro t
    refine ⟨⟨?_, ?_⟩, ?_⟩
    · rintro ⟨bytes, hb⟩
      cases hx : t.xCoordinate with
      | none => simp [PutpcxImpl.GetMessage, hx] at hb
      | some px =>
        cases hy : t.yCoordinate with
        | none => simp [PutpcxImpl.GetMessage, hy] at hb
        | some py =>
          cases hf : t.fileName with
          | none => simp [PutpcxImpl.GetMessage, hf] at hb
          | some pf =>
            refine ⟨px, py, pf, rfl, rfl, rfl, ?_⟩
            intro hemp
            simp [PutpcxImpl.GetMessage, hf, hemp] at hb
    · rintro ⟨px, py, pf, hx, hy, hf, hne⟩
      exact ⟨_, putpcx_GetMessage_of_required K h t px py pf hx hy hf hne⟩
    · intro px py pf hx hy hf hne
      exact putpcx_GetMessage_of_required K h t px py pf hx hy hf hne

/-- Witness for C15: the chains setting x, y and the file name `LOGO.BMP` (for
Put-bitmap followed by `Bpp(8)` and `Contrast(5)`) and `LOGO.PCX` render
`PUTBMP 10,20,"LOGO.BMP",8,5` and `PUTPCX 10,20,"LOGO.PCX"`. -/
theorem putbmp_putpcx_render_witness :
    PutbmpImpl.render wire
        (((putbmpChain 10 20 (str "LOGO.BMP") Heap.empty).1.Bpp 8
            (putbmpChain 10 20 (str "LOGO.BMP") Heap.empty).2).1.Contrast 5
          ((putbmpChain 10 20 (str "LOGO.BMP") Heap.empty).1.Bpp 8
            (putbmpChain 10 20 (str "LOGO.BMP") Heap.empty).2).2)
      = some ⟨str "PUTBMP 10,20,\"LOGO.BMP\",8,5" ++ [13, 10], none⟩
    ∧ PutpcxImpl.render wire (putpcxChain 10 20 (str "LOGO.PCX") Heap.empty)
      = some ⟨str "PUTPCX 10,20,\"LOGO.PCX\"" ++ [13, 10], none⟩ := by
  constructor
  · have w := ((putbmp_putpcx_render wire
      (((putbmpChain 10 20 (str "LOGO.BMP") Heap.empty).1.Bpp 8
          (putbmpChain 10 20 (str "LOGO.BMP") Heap.empty).2).1.Contrast 5
        ((putbmpChain 10 20 (str "LOGO.BMP") Heap.empty).1.Bpp 8
          (putbmpChain 10 20 (str "LOGO.BMP") Heap.empty).2).2).2).1
      (((putbmpChain 10 20 (str "LOGO.BMP") Heap.empty).1.Bpp 8
          (putbmpChain 10 20 (str "LOGO.BMP") Heap.empty).2).1.Contrast 5
        ((putbmpChain 10 20 (str "LOGO.BMP") Heap.empty).1.Bpp 8
          (putbmpChain 10 20 (str "LOGO.BMP") Heap.empty).2).2).1).2
      0 1 0 rfl rfl rfl (by decide)
    rw [PutbmpImpl.render, w]
    decide
  · have w := ((putbmp_putpcx_render wire (putpcxChain 10 20 (str "LOGO.PCX") Heap.empty).2).2
      (putpcxChain 10 20 (str "LOGO.PCX") Heap.empty).1).2 0 1 0 rfl rfl rfl (by decide)
    rw [PutpcxImpl.render, w]
    decide

set_option maxRecDepth 20000 in
/-- C16, the code at the failing input: with storage set to the in-memory selector
(the empty string) the command renders `DOWNLOAD ,"IMAGE1",3,` and the payload:
the empty selector is followed by a separator, so the bytes differ from those of
the same command with storage unset, `DOWNLOAD "IMAGE1",3,` and the payload. -/
theorem download_dram_storage_differs :
    DownloadDataImpl.render wire
        (downloadStorageChain DOWNLOAD_DATASTORGAE_DRAM (str "IMAGE1") [1, 2, 3] Heap.empty)
      = some ⟨str "DOWNLOAD ,\"IMAGE1\",3," ++ [1, 2, 3] ++ [13, 10], none⟩
    ∧ DownloadDataImpl.render wire (downloadChain (str "IMAGE1") [1, 2, 3] Heap.empty)
      = some ⟨str "DOWNLOAD \"IMAGE1\",3," ++ [1, 2, 3] ++ [13, 10], none⟩
    ∧ DownloadDataImpl.render wire
        (downloadStorageChain DOWNLOAD_DATASTORGAE_DRAM (str "IMAGE1") [1, 2, 3] Heap.empty)
      ≠ DownloadDataImpl.render wire (downloadChain (str "IMAGE1") [1, 2, 3] Heap.empty) := by
  refine ⟨?_, ?_, ?_⟩ <;> decide

/-- C18: with the storage selector set to `s`, a Download-data command with a
non-empty name and a payload renders to `DOWNLOAD`, the space token, `s` unquoted,
a separator, the quoted name, a separator, the decimal payload length, a separator,
the payload and the terminator; the no-storage rendering is the same text without
`s` and its separator.  With space, comma and double quote as the tokens the flash
and expansion-module selectors give `DOWNLOAD F,"IMAGE1",3,` and
`DOWNLOAD E,"IMAGE1",3,` before the payload. -/
theorem download_storage_render (K : Decls) (h : Heap) (s : DownloadDataStorage)
    (name : GoString) (data : List Byte) (hname : name ≠ []) :
    DownloadDataImpl.render K (downloadStorageChain s name data h)
      = some ⟨(str "DOWNLOAD" ++ K.EMPTY_SPACE) ++ (s ++ K.VALUE_SEPARATOR)
          ++ (K.DOUBLE_QUOTE ++ name ++ K.DOUBLE_QUOTE ++ K.VALUE_SEPARATOR
            ++ Itoa data.length ++ K.VALUE_SEPARATOR ++ data ++ K.LINE_ENDING_BYTES), none⟩
    ∧ DownloadDataImpl.render K (downloadChain name data h)
      = some ⟨(str "DOWNLOAD" ++ K.EMPTY_SPACE)
          ++ (K.DOUBLE_QUOTE ++ name ++ K.DOUBLE_QUOTE ++ K.VALUE_SEPARATOR
            ++ Itoa data.length ++ K.VALUE_SEPARATOR ++ data ++ K.LINE_ENDING_BYTES), none⟩
    ∧ (∀ (d : DownloadDataImpl) (ps pn pd : Nat), d.storage = some ps → d.name = some pn →
        d.data = some pd → h.strings.read pn ≠ [] →
        d.GetMessage K h
          = some ⟨str "DOWNLOAD" ++ K.EMPTY_SPACE ++ h.strings.read ps ++ K.VALUE_SEPARATOR
              ++ K.DOUBLE_QUOTE ++ h.strings.read pn ++ K.DOUBLE_QUOTE ++ K.VALUE_SEPARATOR
              ++ Itoa (h.byteSlices.read pd).length ++ K.VALUE_SEPARATOR
              ++ h.byteSlices.read pd ++ K.LINE_ENDING_BYTES, none⟩)
    ∧ (K.EMPTY_SPACE = str " " → K.VALUE_SEPARATOR = str "," → K.DOUBLE_QUOTE = [34] →
        DownloadDataImpl.render K
            (downloadStorageChain DOWNLOAD_DATASTORAGE_FLASH (str "IMAGE1") [1, 2, 3] h)
          = some ⟨str "DOWNLOAD F,\"IMAGE1\",3," ++ [1, 2, 3] ++ K.LINE_ENDING_BYTES, none⟩
        ∧ DownloadDataImpl.render K
            (downloadStorageChain DOWNLOAD_DATASTORAGE_EXPANSION_MODULE (str "IMAGE1")
              [1, 2, 3] h)
          = some ⟨str "DOWNLOAD E,\"IMAGE1\",3," ++ [1, 2, 3] ++ K.LINE_ENDING_BYTES, none⟩) := by
  have key : ∀ (s1 : DownloadDataStorage) (nm : GoString) (dt : List Byte), nm ≠ [] →
      DownloadDataImpl.render K (downloadStorageChain s1 nm dt h)
        = some ⟨(str "DOWNLOAD" ++ K.EMPTY_SPACE) ++ (s1 ++ K.VALUE_SEPARATOR)
            ++ (K.DOUBLE_QUOTE ++ nm ++ K.DOUBLE_QUOTE ++ K.VALUE_SEPARATOR
              ++ Itoa dt.length ++ K.VALUE_SEPARATOR ++ dt ++ K.LINE_ENDING_BYTES), none⟩ := by
    intro s1 nm dt hnm
    simp [DownloadDataImpl.render, downloadStorageChain, DownloadDataImpl.GetMessage,
      DownloadDataImpl.Storage, DownloadDataImpl.Name, DownloadDataImpl.Data, DownloadDataCmd,
      DOWNLOAD_DATANAME, Store.deref, Store.assign, Store.alloc, Store.write, Store.read,
      Function.update, hnm]
  refine ⟨key s name data hname, ?_, ?_, ?_⟩
  · simp [DownloadDataImpl.render, downloadChain, DownloadDataImpl.GetMessage,
      DownloadDataImpl.Name, DownloadDataImpl.Data, DownloadDataCmd, DOWNLOAD_DATANAME,
      Store.deref, hname]
  · intro d ps pn pd hs hn hd hne
    rw [download_GetMessage_of_required K h d pn pd hn hd hne, hs]
    simp [DOWNLOAD_DATANAME, List.append_assoc]
  · intro h1 h2 h3
    have eF : (str "DOWNLOAD" ++ str " ") ++ (DOWNLOAD_DATASTORAGE_FLASH ++ str ",")
        ++ ([34] ++ str "IMAGE1" ++ [34] ++ str ","
          ++ Itoa (([1, 2, 3] : List Byte).length) ++ str "," ++ ([1, 2, 3] : List Byte))
        = str "DOWNLOAD F,\"IMAGE1\",3," ++ [1, 2, 3] := by decide
    have eE : (str "DOWNLOAD" ++ str " ")
        ++ (DOWNLOAD_DATASTORAGE_EXPANSION_MODULE ++ str ",")
        ++ ([34] ++ str "IMAGE1" ++ [34] ++ str ","
          ++ Itoa (([1, 2, 3] : List Byte).length) ++ str "," ++ ([1, 2, 3] : List Byte))
        = str "DOWNLOAD E,\"IMAGE1\",3," ++ [1, 2, 3] := by decide
    constructor
    · rw [key _ _ _ (by decide), h1, h2, h3, ← eF]
      simp [List.append_assoc]
    · rw [key _ _ _ (by decide), h1, h2, h3, ← eE]
      simp [List.append_assoc]

/-- Witness for C18: name `IMAGE1` is non-empty, and on the empty heap with the
spec's tokens the flash selector gives `DOWNLOAD F,"IMAGE1",3,` and the payload. -/
theorem download_storage_render_witness :
    DownloadDataImpl.render wire
        (downloadStorageChain DOWNLOAD_DATASTORAGE_FLASH (str "IMAGE1") [1, 2, 3] Heap.empty)
      = some ⟨str "DOWNLOAD F,\"IMAGE1\",3," ++ [1, 2, 3] ++ [13, 10], none⟩ :=
  ((download_storage_render wire Heap.empty DOWNLOAD_DATASTORAGE_FLASH (str "IMAGE1")
    [1, 2, 3] (by decide)).2.2.2 rfl rfl rfl).1

/-- C19: rendering is not injective in the optional positional fields.  A Block
with the nine required fields and only `Space(n)` set and one with the same required
fields and only `Alignment(n)` set are different builders with the same
`GetMessage` result; when the required fields are valid that result is the
successful render with `n` right after the y-multiplier.  Likewise a Put-bitmap
with only `Bpp(n)` set and one with only `Contrast(n)` set, in particular for
`n = 8`. -/
theorem optional_fields_not_injective (K : Decls) (h : Heap) :
    (∀ (x y width height : Int) (font : GoString) (rotation : Int) (xm ym : Float64)
        (content : GoString) (quote : Bool) (n : Int),
      BlockImpl.render K (blockWithSpace x y width height font rotation xm ym content quote n h)
        = BlockImpl.render K
            (blockWithAlignment x y width height font rotation xm ym content quote n h)
      ∧ (blockWithSpace x y width height font rotation xm ym content quote n h).1
        ≠ (blockWithAlignment x y width height font rotation xm ym content quote n h).1
      ∧ (rotation ∈ K.ROTATION_ANGLES →
          (∃ q : ℚ, xm = Float64.finite q ∧ 1 ≤ q ∧ q ≤ 10) →
          (∃ q : ℚ, ym = Float64.finite q ∧ 1 ≤ q ∧ q ≤ 10) →
          BlockImpl.render K
              (blockWithAlignment x y width height font rotation xm ym content quote n h)
            = some ⟨str "BLOCK" ++ K.EMPTY_SPACE ++ Itoa x ++ K.VALUE_SEPARATOR
                ++ Itoa y ++ K.VALUE_SEPARATOR ++ Itoa width ++ K.VALUE_SEPARATOR
                ++ Itoa height ++ K.VALUE_SEPARATOR ++ K.DOUBLE_QUOTE ++ font
                ++ K.DOUBLE_QUOTE ++ K.VALUE_SEPARATOR ++ Itoa rotation ++ K.VALUE_SEPARATOR
                ++ K.formatFloatWithUnits xm false ++ K.VALUE_SEPARATOR
                ++ K.formatFloatWithUnits ym false ++ K.VALUE_SEPARATOR ++ Itoa n
                ++ K.VALUE_SEPARATOR
                ++ (if quote then K.DOUBLE_QUOTE ++ content ++ K.DOUBLE_QUOTE else content)
                ++ K.LINE_ENDING_BYTES, none⟩))
    ∧ (∀ (x y : Int) (filename : GoString) (n : Int),
      PutbmpImpl.render K (putbmpWithBpp x y filename n h)
        = PutbmpImpl.render K (putbmpWithContrast x y filename n h)
      ∧ (putbmpWithBpp x y filename n h).1 ≠ (putbmpWithContrast x y filename n h).1
      ∧ (filename ≠ [] →
          PutbmpImpl.render K (putbmpWithContrast x y filename n h)
            = some ⟨str "PUTBMP" ++ K.EMPTY_SPACE ++ Itoa x ++ K.VALUE_SEPARATOR ++ Itoa y
                ++ K.VALUE_SEPARATOR ++ K.DOUBLE_QUOTE ++ filename ++ K.DOUBLE_QUOTE
                ++ K.VALUE_SEPARATOR ++ Itoa n ++ K.LINE_ENDING_BYTES, none⟩)) := by
  constructor
  · intro x y width height font rotation xm ym content quote n
    obtain ⟨r1, r2, r3, r4, r5, r6, r7, r8, r9, r10⟩ :=
      blockChain_reads x y width height font rotation xm ym content quote h
    have hfld := blockChain_fields x y width height font rotation xm ym content quote h
    have hheap : (blockWithSpace x y width height font rotation xm ym content quote n h).2
        = (blockWithAlignment x y width height font rotation xm ym content quote n h).2 := by
      simp [blockWithSpace, blockWithAlignment, BlockImpl.Space, BlockImpl.Alignment, hfld]
    have hS : (blockWithSpace x y width height font rotation xm ym content quote n h).1
        = ⟨some h.ints.next, some (h.ints.next + 1), some (h.ints.next + 2),
            some (h.ints.next + 3), some h.strings.next, some (h.ints.next + 4),
            some h.floats.next, some (h.floats.next + 1), some (h.ints.next + 5), none, none,
            some (h.strings.next + 1), quote⟩ := by
      simp [blockWithSpace, BlockImpl.Space, hfld, Store.assign, Store.alloc, Store.write, r10]
    have hA : (blockWithAlignment x y width height font rotation xm ym content quote n h).1
        = ⟨some h.ints.next, some (h.ints.next + 1), some (h.ints.next + 2),
            some (h.ints.next + 3), some h.strings.next, some (h.ints.next + 4),
            some h.floats.next, some (h.floats.next + 1), none, some (h.ints.next + 5), none,
            some (h.strings.next + 1), quote⟩ := by
      simp [blockWithAlignment, BlockImpl.Alignment, hfld, Store.assign, Store.alloc,
        Store.write, r10]
    have hrd : ∀ p, p < h.ints.next + 5 →
        (blockWithAlignment x y width height font rotation xm ym content quote n h).2.ints.read p
          = (blockChain x y width height font rotation xm ym content quote h).2.ints.read p := by
      intro p hp
      simp [blockWithAlignment, BlockImpl.Alignment, hfld, Store.assign, Store.alloc,
        Store.write, Store.read, r10, Function.update, Nat.ne_of_lt hp]
    have hnew :
        (blockWithAlignment x y width height font rotation xm ym content quote n h).2.ints.read
          (h.ints.next + 5) = n := by
      simp [blockWithAlignment, BlockImpl.Alignment, hfld, Store.assign, Store.alloc,
        Store.write, Store.read, r10]
    have hstr : (blockWithAlignment x y width height font rotation xm ym content quote n h).2.strings
        = (blockChain x y width height font rotation xm ym content quote h).2.strings := by
      simp [blockWithAlignment, BlockImpl.Alignment]
    have hflt : (blockWithAlignment x y width height font rotation xm ym content quote n h).2.floats
        = (blockChain x y width height font rotation xm ym content quote h).2.floats := by
      simp [blockWithAlignment, BlockImpl.Alignment]
    have gS := block_GetMessage_of_required K
      (blockWithAlignment x y width height font rotation xm ym content quote n h).2
      (blockWithSpace x y width height font rotation xm ym content quote n h).1
      h.ints.next (h.ints.next + 1) (h.ints.next + 2) (h.ints.next + 3) h.strings.next
      (h.ints.next + 4) h.floats.next (h.floats.next + 1) (h.strings.next + 1)
      (by rw [hS]) (by rw [hS]) (by rw [hS]) (by rw [hS]) (by rw [hS]) (by rw [hS])
      (by rw [hS]) (by rw [hS]) (by rw [hS])
    have gA := block_GetMessage_of_required K
      (blockWithAlignment x y width height font rotation xm ym content quote n h).2
      (blockWithAlignment x y width height font rotation xm ym content quote n h).1
      h.ints.next (h.ints.next + 1) (h.ints.next + 2) (h.ints.next + 3) h.strings.next
      (h.ints.next + 4) h.floats.next (h.floats.next + 1) (h.strings.next + 1)
      (by rw [hA]) (by rw [hA]) (by rw [hA]) (by rw [hA]) (by rw [hA]) (by rw [hA])
      (by rw [hA]) (by rw [hA]) (by rw [hA])
    refine ⟨?_, ?_, ?_⟩
    · rw [BlockImpl.render, BlockImpl.render, hheap, gS, gA, hS, hA]
      simp
    · rw [hS, hA]
      simp
    · intro hin hgx hgy
      have f1 : findIntInSlice K.ROTATION_ANGLES rotation = true :=
        (findIntInSlice_iff _ _).mpr hin
      have f2 : multiplierInRange xm = true := (multiplierInRange_iff _).mpr hgx
      have f3 : multiplierInRange ym = true := (multiplierInRange_iff _).mpr hgy
      have q1 := (hrd h.ints.next (by omega)).trans r1
      have q2 := (hrd (h.ints.next + 1) (by omega)).trans r2
      have q3 := (hrd (h.ints.next + 2) (by omega)).trans r3
      have q4 := (hrd (h.ints.next + 3) (by omega)).trans r4
      have q5 := (hrd (h.ints.next + 4) (by omega)).trans r5
      rw [BlockImpl.render, gA, hA]
      cases quote <;>
        simp [q1, q2, q3, q4, q5, hnew, hstr, hflt, r6, r7, r8, r9, f1, f2, f3, BLOCK_NAME,
          List.append_assoc]
  · intro x y filename n
    refine ⟨?_, ?_, ?_⟩
    · simp [PutbmpImpl.render, putbmpWithBpp, putbmpWithContrast, putbmpChain,
        PutbmpImpl.GetMessage, PutbmpImpl.XCoordinate, PutbmpImpl.YCoordinate,
        PutbmpImpl.FileName, PutbmpImpl.Bpp, PutbmpImpl.Contrast, Putbmp, Store.deref,
        Store.assign, Store.alloc, Store.write, Store.read, Function.update, Nat.add_assoc]
    · simp [putbmpWithBpp, putbmpWithContrast, putbmpChain, PutbmpImpl.XCoordinate,
        PutbmpImpl.YCoordinate, PutbmpImpl.FileName, PutbmpImpl.Bpp, PutbmpImpl.Contrast,
        Putbmp]
    · intro hne
      simp [PutbmpImpl.render, putbmpWithContrast, putbmpChain,
        PutbmpImpl.GetMessage, PutbmpImpl.XCoordinate, PutbmpImpl.YCoordinate,
        PutbmpImpl.FileName, PutbmpImpl.Contrast, Putbmp, PUTBMP_NAME, Store.deref,
        Store.assign, Store.alloc, Store.write, Store.read, Function.update, Nat.add_assoc, hne]

/-- Witness for C19: with the spec's tokens, quarter-turn table and the sample
values, `Space(2)` alone and `Alignment(2)` alone give the same bytes, and so do
`Bpp(8)` alone and `Contrast(8)` alone, `PUTBMP 10,20,"LOGO.BMP",8`. -/
theorem optional_fields_not_injective_witness :
    BlockImpl.render wire
        (blockWithSpace 10 20 300 40 (str "3") 90 (.finite 1) (.finite 10) (str "Hello") true 2
          Heap.empty)
      = BlockImpl.render wire
        (blockWithAlignment 10 20 300 40 (str "3") 90 (.finite 1) (.finite 10) (str "Hello")
          true 2 Heap.empty)
    ∧ PutbmpImpl.render wire (putbmpWithBpp 10 20 (str "LOGO.BMP") 8 Heap.empty)
      = some ⟨str "PUTBMP 10,20,\"LOGO.BMP\",8" ++ [13, 10], none⟩ := by
  constructor
  · exact ((optional_fields_not_injective wire Heap.empty).1 10 20 300 40 (str "3") 90
      (.finite 1) (.finite 10) (str "Hello") true 2).1
  · have w := (optional_fields_not_injective wire Heap.empty).2 10 20 (str "LOGO.BMP") 8
    rw [w.1, w.2.2 (by decide)]
    decide

/-- C20: the validation order of Block is presence, rotation, x-multiplier,
y-multiplier.  A Block lacking a required field gets the presence error whatever
its other fields hold.  With the nine required fields set: a rotation outside the
(non-empty) table gives the rotation error whatever the multipliers are; an allowed
rotation with the x-multiplier out of range gives the xMultiplication error
whatever the y-multiplier is; the yMultiplication error is returned only when the
rotation is allowed and the x-multiplier is in range. -/
theorem block_validation_order (K : Decls) (h : Heap) (t : BlockImpl)
    (px py pw ph pf pr pxm pym pc : Nat)
    (hx : t.xCoordinate = some px) (hy : t.yCoordinate = some py) (hw : t.width = some pw)
    (hh : t.height = some ph) (hf : t.fontName = some pf) (hr : t.rotation = some pr)
    (hxm : t.xMultiplication = some pxm) (hym : t.yMultiplication = some pym)
    (hc : t.content = some pc) :
    (h.ints.read pr ∉ K.ROTATION_ANGLES → K.ROTATION_ANGLES ≠ [] →
      t.GetMessage K h = some ⟨[], some
        (str "ParseError BLOCK Command: rotation must be one of ["
          ++ (str ",").intercalate (K.ROTATION_ANGLES.map Itoa) ++ str "]")⟩)
    ∧ (h.ints.read pr ∈ K.ROTATION_ANGLES →
        (¬ ∃ q : ℚ, h.floats.read pxm = Float64.finite q ∧ 1 ≤ q ∧ q ≤ 10) →
        t.GetMessage K h = some ⟨[], some
          (str "ParseError BLOCK Command: xMultiplication parameter must be between 1 and 10")⟩)
    ∧ (t.GetMessage K h = some ⟨[], some
          (str "ParseError BLOCK Command: yMultiplication parameter must be between 1 and 10")⟩ →
        h.ints.read pr ∈ K.ROTATION_ANGLES
          ∧ (∃ q : ℚ, h.floats.read pxm = Float64.finite q ∧ 1 ≤ q ∧ q ≤ 10)
          ∧ ¬ ∃ q : ℚ, h.floats.read pym = Float64.finite q ∧ 1 ≤ q ∧ q ≤ 10)
    ∧ (∀ t1 : BlockImpl,
        t1.xCoordinate = none ∨ t1.yCoordinate = none ∨ t1.width = none ∨ t1.height = none
          ∨ t1.fontName = none ∨ t1.rotation = none ∨ t1.xMultiplication = none
          ∨ t1.yMultiplication = none ∨ t1.content = none →
        t1.GetMessage K h
          = some ⟨[], some (str "ParseError BLOCK Command: " ++ requiredFieldsText)⟩) := by
  have hget := block_GetMessage_of_required K h t px py pw ph pf pr pxm pym pc
    hx hy hw hh hf hr hxm hym hc
  have hpre : str "ParseError BLOCK Command: " ++ str "rotation must be one of ["
      = str "ParseError BLOCK Command: rotation must be one of [" := by decide
  have hxy : str "ParseError BLOCK Command: xMultiplication parameter must be between 1 and 10"
      ≠ str "ParseError BLOCK Command: yMultiplication parameter must be between 1 and 10" := by
    decide
  refine ⟨?_, ?_, ?_, ?_⟩
  · intro hout hne
    have h1 : findIntInSlice K.ROTATION_ANGLES (h.ints.read pr) = false := by
      rw [← Bool.not_eq_true, findIntInSlice_iff]; exact hout
    rw [hget, if_pos h1, sliceTo_rotationErrStr, if_neg hne, ← hpre]
    simp [List.append_assoc]
  · intro hin hbad
    have h1 : findIntInSlice K.ROTATION_ANGLES (h.ints.read pr) = true :=
      (findIntInSlice_iff _ _).mpr hin
    have h2 : multiplierInRange (h.floats.read pxm) = false := by
      rw [← Bool.not_eq_true, multiplierInRange_iff]; exact hbad
    rw [hget, if_neg (by simp [h1]), if_pos h2, xMultiplication_message]
  · intro hy1
    rw [hget] at hy1
    by_cases h1 : findIntInSlice K.ROTATION_ANGLES (h.ints.read pr) = false
    · rw [if_pos h1, sliceTo_rotationErrStr] at hy1
      exfalso
      by_cases hne : K.ROTATION_ANGLES = []
      · rw [if_pos hne] at hy1
        simp at hy1
      · rw [if_neg hne] at hy1
        simp only [Option.map_some', Option.some.injEq, Ret.mk.injEq, true_and] at hy1
        have hshape : str "ParseError BLOCK Command: " ++
            (str "rotation must be one of ["
              ++ (str ",").intercalate (K.ROTATION_ANGLES.map Itoa) ++ str "]")
            = str "ParseError BLOCK Command: rotation must be one of ["
              ++ ((str ",").intercalate (K.ROTATION_ANGLES.map Itoa) ++ str "]") := by
          rw [← hpre]
          simp [List.append_assoc]
        rw [hshape] at hy1
        have htake := congrArg (List.take 27) hy1
        rw [List.take_append_of_le_length (by decide)] at htake
        exact absurd htake (by decide)
    · by_cases h2 : multiplierInRange (h.floats.read pxm) = false
      · rw [if_neg h1, if_pos h2, xMultiplication_message] at hy1
        simp only [Option.some.injEq, Ret.mk.injEq, true_and] at hy1
        exact absurd hy1 hxy
      · by_cases h3 : multiplierInRange (h.floats.read pym) = false
        · simp only [Bool.not_eq_false] at h1 h2
          refine ⟨(findIntInSlice_iff _ _).mp h1, (multiplierInRange_iff _).mp h2, ?_⟩
          intro hgy
          rw [(multiplierInRange_iff _).mpr hgy] at h3
          exact Bool.noConfusion h3
        · rw [if_neg h1, if_neg h2, if_neg h3] at hy1
          simp at hy1
  · intro t1 ht
    rcases ht with ht | ht | ht | ht | ht | ht | ht | ht | ht <;>
      simp [BlockImpl.GetMessage, ht]

/-- Witness for C20: the sample Block with rotation 45 and both multipliers out
of range gets the rotation error; the one with rotation 90 and both multipliers
out of range gets the xMultiplication error. -/
theorem block_validation_order_witness :
    sampleBlockAllInvalid.1.GetMessage wire sampleBlockAllInvalid.2 = some ⟨[], some
      (str "ParseError BLOCK Command: rotation must be one of [0,90,180,270]")⟩
    ∧ sampleBlockBadMultipliers.1.GetMessage wire sampleBlockBadMultipliers.2 = some ⟨[], some
      (str "ParseError BLOCK Command: xMultiplication parameter must be between 1 and 10")⟩ := by
  constructor
  · have w := (block_validation_order wire sampleBlockAllInvalid.2 sampleBlockAllInvalid.1
      0 1 2 3 0 4 0 1 1 rfl rfl rfl rfl rfl rfl rfl rfl rfl).1 (by decide) (by decide)
    rw [w]
    decide
  · refine (block_validation_order wire sampleBlockBadMultipliers.2 sampleBlockBadMultipliers.1
      0 1 2 3 0 4 0 1 1 rfl rfl rfl rfl rfl rfl rfl rfl rfl).2.1 (by decide) ?_
    rintro ⟨q, hq, h1, -⟩
    have hq1 : float_0_999 = Float64.finite q := hq
    simp only [float_0_999, Float64.finite.injEq] at hq1
    rw [← hq1] at h1
    norm_num at h1

/-- C17, counterexample: `L` is the label of three sample Bitmap commands (length
3, capacity 4).  `L1 = L.Cmd(a)` with `a` the sample Download-data renders the
three Bitmaps and then the Download-data; after `L2 = L.Cmd(b)` with `b` the
sample Bitmap, `L1` renders four Bitmaps: the second append wrote `b` into the slot
that `L1` shows. -/
theorem label_fork_overwrites :
    sampleLabel3.1.commandList.len = 3 ∧ sampleLabel3.1.commandList.cap = 4
    ∧ (sampleLabel3.1.Cmd growDouble (some (sampleDownload.toTSPLCommand wire))
          sampleLabel3.2).1.GetLabelData
        (sampleLabel3.1.Cmd growDouble (some (sampleDownload.toTSPLCommand wire))
          sampleLabel3.2).2 sampleHeap
      = some ⟨[str "BITMAP 0,0,100,50,0," ++ [0xFF] ++ [13, 10],
          str "BITMAP 0,0,100,50,0," ++ [0xFF] ++ [13, 10],
          str "BITMAP 0,0,100,50,0," ++ [0xFF] ++ [13, 10],
          str "DOWNLOAD \"IMAGE1\",3," ++ [1, 2, 3] ++ [13, 10]].flatten, none⟩
    ∧ (cmdFork growDouble sampleLabel3.1 (sampleDownload.toTSPLCommand wire)
          (sampleBitmap.toTSPLCommand wire) sampleLabel3.2).1.GetLabelData
        (cmdFork growDouble sampleLabel3.1 (sampleDownload.toTSPLCommand wire)
          (sampleBitmap.toTSPLCommand wire) sampleLabel3.2).2.2 sampleHeap
      = some ⟨[str "BITMAP 0,0,100,50,0," ++ [0xFF] ++ [13, 10],
          str "BITMAP 0,0,100,50,0," ++ [0xFF] ++ [13, 10],
          str "BITMAP 0,0,100,50,0," ++ [0xFF] ++ [13, 10],
          str "BITMAP 0,0,100,50,0," ++ [0xFF] ++ [13, 10]].flatten, none⟩
    ∧ (cmdFork growDouble sampleLabel3.1 (sampleDownload.toTSPLCommand wire)
          (sampleBitmap.toTSPLCommand wire) sampleLabel3.2).1.GetLabelData
        (cmdFork growDouble sampleLabel3.1 (sampleDownload.toTSPLCommand wire)
          (sampleBitmap.toTSPLCommand wire) sampleLabel3.2).2.2 sampleHeap
      ≠ some ⟨[str "BITMAP 0,0,100,50,0," ++ [0xFF] ++ [13, 10],
          str "BITMAP 0,0,100,50,0," ++ [0xFF] ++ [13, 10],
          str "BITMAP 0,0,100,50,0," ++ [0xFF] ++ [13, 10],
          str "DOWNLOAD \"IMAGE1\",3," ++ [1, 2, 3] ++ [13, 10]].flatten, none⟩ := by
  refine ⟨?_, ?_, ?_, ?_, ?_⟩ <;> decide

/-- C17, amended: appending to a label never changes what the label itself
renders, and when the label's list is at capacity (length equal to capacity, as
for the empty label), `L1 = L.Cmd(a)` keeps rendering the commands of `L` followed
by `a` after `L2 = L.Cmd(b)`: both calls copy the list into a fresh array. -/
theorem label_fork_at_capacity (grow : Nat → Nat) (A : Arrays) (h : Heap) (T : TSPLLabel)
    (a b : TSPLCommand) (cs : List TSPLCommand) (bs : List (List Byte)) (ba : List Byte)
    (hv : A.valid T.commandList) (hcs : A.view T.commandList = cs.map some)
    (hok : List.Forall₂ (fun c b => c.GetMessage h = some ⟨b, none⟩) cs bs)
    (ha : a.GetMessage h = some ⟨ba, none⟩) :
    (cmdFork grow T a b A).2.2.view T.commandList = A.view T.commandList
    ∧ T.GetLabelData (cmdFork grow T a b A).2.2 h = some ⟨bs.flatten, none⟩
    ∧ T.GetLabelData A h = some ⟨bs.flatten, none⟩
    ∧ (T.commandList.len = T.commandList.cap →
        (cmdFork grow T a b A).2.2.view (cmdFork grow T a b A).1.commandList
            = A.view T.commandList ++ [some a]
        ∧ (cmdFork grow T a b A).1.GetLabelData (cmdFork grow T a b A).2.2 h
            = some ⟨bs.flatten ++ ba, none⟩) := by
  have hkeep : (cmdFork grow T a b A).2.2.view T.commandList = A.view T.commandList := by
    simp only [cmdFork, TSPLLabel.Cmd]
    rw [Arrays.view_after_append grow _ _ b (Arrays.valid_after_append grow A _ _ a hv),
      Arrays.view_after_append grow A _ a hv]
  have hrender : ∀ (v : List (Option TSPLCommand)), v = cs.map some →
      getTSPLCode.loop h v [] = some ⟨bs.flatten, none⟩ := by
    intro v hveq
    have hl := getTSPLCode.loop_ok h cs bs hok [] []
    simp only [List.append_nil, List.nil_append] at hl
    rw [hveq, hl, getTSPLCode.loop]
  refine ⟨hkeep, ?_, ?_, ?_⟩
  · simp only [TSPLLabel.GetLabelData, TSPLLabel.getTSPLCode]
    exact hrender _ (hkeep.trans hcs)
  · simp only [TSPLLabel.GetLabelData, TSPLLabel.getTSPLCode]
    exact hrender _ hcs
  · intro hfull
    have hview : (cmdFork grow T a b A).2.2.view (cmdFork grow T a b A).1.commandList
        = A.view T.commandList ++ [some a] := by
      simp only [cmdFork, TSPLLabel.Cmd]
      exact Arrays.view_fork_at_capacity grow A T.commandList a b hfull
    refine ⟨hview, ?_⟩
    have hl := getTSPLCode.loop_ok h (cs ++ [a]) (bs ++ [ba])
      (List.rel_append hok (List.Forall₂.cons ha List.Forall₂.nil)) [] []
    simp only [List.append_nil, List.nil_append, List.map_append, List.map_cons, List.map_nil,
      List.flatten_append, List.flatten_cons, List.flatten_nil] at hl
    simp only [TSPLLabel.GetLabelData, TSPLLabel.getTSPLCode, hview, hcs]
    rw [hl, getTSPLCode.loop]

/-- Witness for C17: the label of two sample Bitmap commands has length 2 and
capacity 2; forking it with the sample Download-data and then the sample Bitmap
leaves the first fork rendering the two Bitmaps and the Download-data. -/
theorem label_fork_at_capacity_witness :
    (cmdFork growDouble sampleLabel2.1 (sampleDownload.toTSPLCommand wire)
        (sampleBitmap.toTSPLCommand wire) sampleLabel2.2).1.GetLabelData
      (cmdFork growDouble sampleLabel2.1 (sampleDownload.toTSPLCommand wire)
        (sampleBitmap.toTSPLCommand wire) sampleLabel2.2).2.2 sampleHeap
      = some ⟨[str "BITMAP 0,0,100,50,0," ++ [0xFF] ++ [13, 10],
          str "BITMAP 0,0,100,50,0," ++ [0xFF] ++ [13, 10]].flatten
          ++ (str "DOWNLOAD \"IMAGE1\",3," ++ [1, 2, 3] ++ [13, 10]), none⟩ :=
  ((label_fork_at_capacity growDouble sampleLabel2.2 sampleHeap sampleLabel2.1
    (sampleDownload.toTSPLCommand wire) (sampleBitmap.toTSPLCommand wire)
    [sampleBitmap.toTSPLCommand wire, sampleBitmap.toTSPLCommand wire]
    [str "BITMAP 0,0,100,50,0," ++ [0xFF] ++ [13, 10],
      str "BITMAP 0,0,100,50,0," ++ [0xFF] ++ [13, 10]]
    (str "DOWNLOAD \"IMAGE1\",3," ++ [1, 2, 3] ++ [13, 10])
    ⟨by decide, Or.inr (by decide)⟩ rfl
    (List.Forall₂.cons (by decide) (List.Forall₂.cons (by decide) List.Forall₂.nil))
    (by decide)).2.2.2 (by decide)).2

set_option maxRecDepth 20000 in
/-- C11, counterexample: `b` is the fully configured Bitmap with x = 1 and renders
`BITMAP 1,0,100,50,0,`; after evaluating `b.XCoordinate(2)` the same value `b`
renders `BITMAP 2,0,100,50,0,`: the setter wrote through the pointer that `b`
holds. -/
theorem setter_writes_shared_cell :
    sampleBitmapX1.1.GetMessage wire sampleBitmapX1.2
      = some ⟨str "BITMAP 1,0,100,50,0," ++ [0xFF] ++ [13, 10], none⟩
    ∧ sampleBitmapX1.1.GetMessage wire (sampleBitmapX1.1.XCoordinate 2 sampleBitmapX1.2).2
      = some ⟨str "BITMAP 2,0,100,50,0," ++ [0xFF] ++ [13, 10], none⟩
    ∧ sampleBitmapX1.1.GetMessage wire (sampleBitmapX1.1.XCoordinate 2 sampleBitmapX1.2).2
      ≠ sampleBitmapX1.1.GetMessage wire sampleBitmapX1.2 := by
  refine ⟨?_, ?_, ?_⟩ <;> decide

/-- C11, amended: a setter does not change what the builder it is called on
renders when the field it sets is unset in that builder.  For each of the five
command kinds, every builder `b` whose pointers are nil or allocated, every setter
`S` whose field is nil in `b` and every value `v`, `b.GetMessage()` after computing
`b.S(v)` is the same as before: the setter allocates a fresh cell for its result. -/
theorem setter_on_unset_field_frame (K : Decls) (h : Heap) :
    (∀ (b : DownloadDataImpl) (v : DownloadDataStorage), b.allocated h → b.storage = none →
      b.GetMessage K (b.Storage v h).2 = b.GetMessage K h)
    ∧ (∀ (b : DownloadDataImpl) (v : GoString), b.allocated h → b.name = none →
      b.GetMessage K (b.Name v h).2 = b.GetMessage K h)
    ∧ (∀ (b : DownloadDataImpl) (v : List Byte), b.allocated h → b.data = none →
      b.GetMessage K (b.Data v h).2 = b.GetMessage K h)
    ∧ (∀ (b : BitmapImpl) (v : Int), b.allocated h → b.xCoordinate = none →
      b.GetMessage K (b.XCoordinate v h).2 = b.GetMessage K h)
    ∧ (∀ (b : BitmapImpl) (v : Int), b.allocated h → b.yCoordinate = none →
      b.GetMessage K (b.YCoordinate v h).2 = b.GetMessage K h)
    ∧ (∀ (b : BitmapImpl) (v : Int), b.allocated h → b.width = none →
      b.GetMessage K (b.Width v h).2 = b.GetMessage K h)
    ∧ (∀ (b : BitmapImpl) (v : Int), b.allocated h → b.height = none →
      b.GetMessage K (b.Height v h).2 = b.GetMessage K h)
    ∧ (∀ (b : BitmapImpl) (v : BitmapMode), b.allocated h → b.mode = none →
      b.GetMessage K (b.Mode v h).2 = b.GetMessage K h)
    ∧ (∀ (b : BitmapImpl) (v : List Byte), b.allocated h → b.bitmapData = none →
      b.GetMessage K (b.BitmapData v h).2 = b.GetMessage K h)
    ∧ (∀ (b : BlockImpl) (v : Int), b.allocated h → b.xCoordinate = none →
      b.GetMessage K (b.XCoordinate v h).2 = b.GetMessage K h)
    ∧ (∀ (b : BlockImpl) (v : Int), b.allocated h → b.yCoordinate = none →
      b.GetMessage K (b.YCoordinate v h).2 = b.GetMessage K h)
    ∧ (∀ (b : BlockImpl) (v : Int), b.allocated h → b.width = none →
      b.GetMessage K (b.Width v h).2 = b.GetMessage K h)
    ∧ (∀ (b : BlockImpl) (v : Int), b.allocated h → b.height = none →
      b.GetMessage K (b.Height v h).2 = b.GetMessage K h)
    ∧ (∀ (b : BlockImpl) (v : GoString), b.allocated h → b.fontName = none →
      b.GetMessage K (b.FontName v h).2 = b.GetMessage K h)
    ∧ (∀ (b : BlockImpl) (v : Int), b.allocated h → b.rotation = none →
      b.GetMessage K (b.Rotation v h).2 = b.GetMessage K h)
    ∧ (∀ (b : BlockImpl) (v : Float64), b.allocated h → b.xMultiplication = none →
      b.GetMessage K (b.XMultiplier v h).2 = b.GetMessage K h)
    ∧ (∀ (b : BlockImpl) (v : Float64), b.allocated h → b.yMultiplication = none →
      b.GetMessage K (b.YMultiplier v h).2 = b.GetMessage K h)
    ∧ (∀ (b : BlockImpl) (v : Int), b.allocated h → b.space = none →
      b.GetMessage K (b.Space v h).2 = b.GetMessage K h)
    ∧ (∀ (b : BlockImpl) (v : BlockAlignment), b.allocated h → b.alignment = none →
      b.GetMessage K (b.Alignment v h).2 = b.GetMessage K h)
    ∧ (∀ (b : BlockImpl) (v : BlockFit), b.allocated h → b.fit = none →
      b.GetMessage K (b.Fit v h).2 = b.GetMessage K h)
    ∧ (∀ (b : BlockImpl) (c : GoString) (q : Bool), b.allocated h → b.content = none →
      b.GetMessage K (b.Content c q h).2 = b.GetMessage K h)
    ∧ (∀ (b : PutbmpImpl) (v : Int), b.allocated h → b.xCoordinate = none →
      b.GetMessage K (b.XCoordinate v h).2 = b.GetMessage K h)
    ∧ (∀ (b : PutbmpImpl) (v : Int), b.allocated h → b.yCoordinate = none →
      b.GetMessage K (b.YCoordinate v h).2 = b.GetMessage K h)
    ∧ (∀ (b : PutbmpImpl) (v : GoString), b.allocated h → b.fileName = none →
      b.GetMessage K (b.FileName v h).2 = b.GetMessage K h)
    ∧ (∀ (b : PutbmpImpl) (v : PutbmpBpp), b.allocated h → b.bpp = none →
      b.GetMessage K (b.Bpp v h).2 = b.GetMessage K h)
    ∧ (∀ (b : PutbmpImpl) (v : Int), b.allocated h → b.contrast = none →
      b.GetMessage K (b.Contrast v h).2 = b.GetMessage K h)
    ∧ (∀ (b : PutpcxImpl) (v : Int), b.allocated h → b.xCoordinate = none →
      b.GetMessage K (b.XCoordinate v h).2 = b.GetMessage K h)
    ∧ (∀ (b : PutpcxImpl) (v : Int), b.allocated h → b.yCoordinate = none →
      b.GetMessage K (b.YCoordinate v h).2 = b.GetMessage K h)
    ∧ (∀ (b : PutpcxImpl) (v : GoString), b.allocated h → b.fileName = none →
      b.GetMessage K (b.FileName v h).2 = b.GetMessage K h) := by
  refine ⟨?_, ?_, ?_, ?_, ?_, ?_, ?_, ?_, ?_, ?_, ?_, ?_, ?_, ?_, ?_, ?_, ?_, ?_, ?_, ?_, ?_, ?_, ?_, ?_, ?_, ?_, ?_, ?_, ?_⟩
  · intro b v hal hnone
    apply download_GetMessage_frame K h _ b hal
    simpa [DownloadDataImpl.Storage, hnone] using Heap.keeps_strings h _ v
  · intro b v hal hnone
    apply download_GetMessage_frame K h _ b hal
    simpa [DownloadDataImpl.Name, hnone] using Heap.keeps_strings h _ v
  · intro b v hal hnone
    apply download_GetMessage_frame K h _ b hal
    simpa [DownloadDataImpl.Data, hnone] using Heap.keeps_byteSlices h _ v
  · intro b v hal hnone
    apply bitmap_GetMessage_frame K h _ b hal
    simpa [BitmapImpl.XCoordinate, hnone] using Heap.keeps_ints h _ v
  · intro b v hal hnone
    apply bitmap_GetMessage_frame K h _ b hal
    simpa [BitmapImpl.YCoordinate, hnone] using Heap.keeps_ints h _ v
  · intro b v hal hnone
    apply bitmap_GetMessage_frame K h _ b hal
    simpa [BitmapImpl.Width, hnone] using Heap.keeps_ints h _ v
  · intro b v hal hnone
    apply bitmap_GetMessage_frame K h _ b hal
    simpa [BitmapImpl.Height, hnone] using Heap.keeps_ints h _ v
  · intro b v hal hnone
    apply bitmap_GetMessage_frame K h _ b hal
    simpa [BitmapImpl.Mode, hnone] using Heap.keeps_ints h _ v
  · intro b v hal hnone
    apply bitmap_GetMessage_frame K h _ b hal
    simpa [BitmapImpl.BitmapData, hnone] using Heap.keeps_byteSlices h _ v
  · intro b v hal hnone
    apply block_GetMessage_frame K h _ b hal
    simpa [BlockImpl.XCoordinate, hnone] using Heap.keeps_ints h _ v
  · intro b v hal hnone
    apply block_GetMessage_frame K h _ b hal
    simpa [BlockImpl.YCoordinate, hnone] using Heap.keeps_ints h _ v
  · intro b v hal hnone
    apply block_GetMessage_frame K h _ b hal
    simpa [BlockImpl.Width, hnone] using Heap.keeps_ints h _ v
  · intro b v hal hnone
    apply block_GetMessage_frame K h _ b hal
    simpa [BlockImpl.Height, hnone] using Heap.keeps_ints h _ v
  · intro b v hal hnone
    apply block_GetMessage_frame K h _ b hal
    simpa [BlockImpl.FontName, hnone] using Heap.keeps_strings h _ v
  · intro b v hal hnone
    apply block_GetMessage_frame K h _ b hal
    simpa [BlockImpl.Rotation, hnone] using Heap.keeps_ints h _ v
  · intro b v hal hnone
    apply block_GetMessage_frame K h _ b hal
    simpa [BlockImpl.XMultiplier, hnone] using Heap.keeps_floats h _ v
  · intro b v hal hnone
    apply block_GetMessage_frame K h _ b hal
    simpa [BlockImpl.YMultiplier, hnone] using Heap.keeps_floats h _ v
  · intro b v hal hnone
    apply block_GetMessage_frame K h _ b hal
    simpa [BlockImpl.Space, hnone] using Heap.keeps_ints h _ v
  · intro b v hal hnone
    apply block_GetMessage_frame K h _ b hal
    simpa [BlockImpl.Alignment, hnone] using Heap.keeps_ints h _ v
  · intro b v hal hnone
    apply block_GetMessage_frame K h _ b hal
    simpa [BlockImpl.Fit, hnone] using Heap.keeps_ints h _ v
  · intro b c q hal hnone
    apply block_GetMessage_frame K h _ b hal
    simpa [BlockImpl.Content, hnone] using Heap.keeps_strings h _ c
  · intro b v hal hnone
    apply putbmp_GetMessage_frame K h _ b hal
    simpa [PutbmpImpl.XCoordinate, hnone] using Heap.keeps_ints h _ v
  · intro b v hal hnone
    apply putbmp_GetMessage_frame K h _ b hal
    simpa [PutbmpImpl.YCoordinate, hnone] using Heap.keeps_ints h _ v
  · intro b v hal hnone
    apply putbmp_GetMessage_frame K h _ b hal
    simpa [PutbmpImpl.FileName, hnone] using Heap.keeps_strings h _ v
  · intro b v hal hnone
    apply putbmp_GetMessage_frame K h _ b hal
    simpa [PutbmpImpl.Bpp, hnone] using Heap.keeps_ints h _ v
  · intro b v hal hnone
    apply putbmp_GetMessage_frame K h _ b hal
    simpa [PutbmpImpl.Contrast, hnone] using Heap.keeps_ints h _ v
  · intro b v hal hnone
    apply putpcx_GetMessage_frame K h _ b hal
    simpa [PutpcxImpl.XCoordinate, hnone] using Heap.keeps_ints h _ v
  · intro b v hal hnone
    apply putpcx_GetMessage_frame K h _ b hal
    simpa [PutpcxImpl.YCoordinate, hnone] using Heap.keeps_ints h _ v
  · intro b v hal hnone
    apply putpcx_GetMessage_frame K h _ b hal
    simpa [PutpcxImpl.FileName, hnone] using Heap.keeps_strings h _ v

/-- Witness for C11: the sample Block has allocated pointers and no spacing set;
computing `Space(5)` on it leaves it rendering
`BLOCK 10,20,300,40,"3",90,1,10,"Hello"`. -/
theorem setter_on_unset_field_frame_witness :
    sampleBlock.1.GetMessage wire (sampleBlock.1.Space 5 sampleBlock.2).2
      = some ⟨str "BLOCK 10,20,300,40,\"3\",90,1,10,\"Hello\"" ++ [13, 10], none⟩ := by
  have w := (setter_on_unset_field_frame wire sampleBlock.2).2.2.2.2.2.2.2.2.2.2.2.2.2.2.2.2.2.1
    sampleBlock.1 5 (by decide) rfl
  rw [w]
  decide

end Gotspl
